import Mathlib

/-!
Verification development for the WHAS schema compiler (crate `format`).

This file gives a shallow embedding in Lean 4 of the parts of the code that
the checked properties are about:

* the schema model (`src/format/src/model/*.rs`): primitives, simple types,
  restrictions, attributes, groups, elements, the interned `Schema` with its
  `ObjectId` to name and `ObjectId` to hash maps;
* the compiler (`src/format/src/compiler/mod.rs`);
* the XSD exporter (`src/format/src/export/xsd.rs`), at the level of the
  XML element tree it builds (the byte serialization by xmltree is not
  re-modelled; statements about the output are made on the tree);
* the source file manager (`src/format/src/sourced/manager.rs`).

Modelling conventions:

* Rust `u64` structural hashes (`TypeHash`) are modelled by an injective
  encoding `THash` of the hashed value itself; hash collisions of the
  `DefaultHasher` are ignored, as usual for such embeddings.
* Rust `HashMap` / `HashSet` are modelled by insertion-ordered association
  lists; where the code iterates a hash map to pick an element, the model
  picks in insertion order.  Insertion order is one of the arbitrary orders
  a Rust `HashMap` may present; theorems about order-dependence take the
  order as an explicit argument.
* `panic!`, `todo!`, `unwrap`/`expect` failures are modelled by the
  `CResult.panicked` outcome, `anyhow` errors by `CResult.err`.
* General recursion is modelled with an explicit fuel argument; exhausting
  fuel yields `CResult.outOfFuel`.  A run that returns `outOfFuel` for every
  fuel corresponds to non-termination of the Rust code.
* The process-global `ObjectId` counter is modelled as a per-schema counter
  `nextId`; only freshness matters to the statements.
-/

set_option maxRecDepth 100000

set_option maxHeartbeats 4000000

/-- Outcome of running embedded code: success, an anyhow error, a panic
(`panic!` / `todo!` / failed `unwrap`), or fuel exhaustion. -/
inductive CResult (α : Type) where
  | ok (value : α)
  | err (msg : String)
  | panicked (msg : String)
  | outOfFuel
deriving Repr, DecidableEq

def CResult.bind {α β : Type} : CResult α → (α → CResult β) → CResult β
  | .ok a, f => f a
  | .err m, _ => .err m
  | .panicked m, _ => .panicked m
  | .outOfFuel, _ => .outOfFuel

instance : Monad CResult where
  pure := .ok
  bind := CResult.bind

/-- Object identifiers (`SchemaObjId`): opaque monotonically allocated integers. -/
abbrev ObjId := Nat

/-!
String primitives re-expressed over the character list so that every
definition evaluates inside the kernel (the built-in position-based
implementations do not reduce definitionally).  Each mirrors the Rust
`str` method named in its comment.
-/

/-- `str::starts_with`. -/
def strStartsWith (s pre : String) : Bool := pre.data.isPrefixOf s.data

/-- `str::ends_with`. -/
def strEndsWith (s suf : String) : Bool := suf.data.isSuffixOf s.data

/-- Byte-slice drop from the front (`&s[n..]` on ASCII input). -/
def strDrop (s : String) (n : Nat) : String := String.mk (s.data.drop n)

/-- Byte-slice drop from the back (`&s[..len-n]` on ASCII input). -/
def strDropRight (s : String) (n : Nat) : String :=
  String.mk (s.data.take (s.data.length - n))

/-- ASCII whitespace test of `str::trim`. -/
def isWsChar (c : Char) : Bool :=
  c = ' ' || c = '\t' || c = '\n' || c = '\r'

/-- `str::trim`. -/
def strTrim (s : String) : String :=
  String.mk (((s.data.dropWhile isWsChar).reverse.dropWhile isWsChar).reverse)

/-- Splitter of `str::split` on a non-empty separator; the internal fuel
(initialized to the input length plus one) only bounds the structural
recursion and is never exhausted for non-empty separators. -/
def splitOnGo (sep : List Char) : Nat → List Char → List Char → List (List Char)
  | 0, l, acc => [acc.reverse ++ l]
  | _ + 1, [], acc => [acc.reverse]
  | fuel + 1, x :: xs, acc =>
      if sep.isPrefixOf (x :: xs) then
        acc.reverse :: splitOnGo sep fuel ((x :: xs).drop sep.length) []
      else splitOnGo sep fuel xs (x :: acc)

/-- `str::split` collected to a vector. -/
def strSplitOn (s sep : String) : List String :=
  (splitOnGo sep.data (s.data.length + 1) s.data []).map String.mk

/-- `str::parse::<usize>` digit parse (see `parseUsize` for the sign). -/
def strToNatQ (s : String) : Option Nat :=
  if s.data ≠ [] && s.data.all Char.isDigit then
    some (s.data.foldl (fun a c => a * 10 + (c.toNat - '0'.toNat)) 0)
  else none

/-- `Vec::join` / `intersperse` over strings. -/
def strIntercalate (sep : String) (l : List String) : String :=
  String.mk (List.intercalate sep.data (l.map String.data))

/-- The fixed primitive set, in declaration order (`model/primitive.rs`,
`enum PrimitiveType`; `EnumIter` yields this order). -/
inductive MPrimitive where
  | string | uri | dateTimestamp | dateTime | date | time | duration
  | bool | int | float | double | short | decimal
  | idrefs | idref | id | lang | noColName
  | intNeg | intNonNeg | intPos
  | token | nameTokens | nameToken | name
  | base64Binary | unsignedLong | anySimpleType
deriving Repr, DecidableEq

/-- All primitives in `EnumIter` order (used by `Schema::default`). -/
def primitivesList : List MPrimitive :=
  [.string, .uri, .dateTimestamp, .dateTime, .date, .time, .duration,
   .bool, .int, .float, .double, .short, .decimal,
   .idrefs, .idref, .id, .lang, .noColName,
   .intNeg, .intNonNeg, .intPos,
   .token, .nameTokens, .nameToken, .name,
   .base64Binary, .unsignedLong, .anySimpleType]

/-- The strum `Display` of `PrimitiveType`: the bare variant name
(no `serialize` attributes are present on the enum). -/
def primitiveDisplay : MPrimitive → String
  | .string => "String"
  | .uri => "URI"
  | .dateTimestamp => "DateTimestamp"
  | .dateTime => "DateTime"
  | .date => "Date"
  | .time => "Time"
  | .duration => "Duration"
  | .bool => "Bool"
  | .int => "Int"
  | .float => "Float"
  | .double => "Double"
  | .short => "Short"
  | .decimal => "Decimal"
  | .idrefs => "IDRefs"
  | .idref => "IDRef"
  | .id => "ID"
  | .lang => "Lang"
  | .noColName => "NoColName"
  | .intNeg => "IntNeg"
  | .intNonNeg => "IntNonNeg"
  | .intPos => "IntPos"
  | .token => "Token"
  | .nameTokens => "NameTokens"
  | .nameToken => "NameToken"
  | .name => "Name"
  | .base64Binary => "Base64Binary"
  | .unsignedLong => "UnsignedLong"
  | .anySimpleType => "AnySimpleType"

/-- The strum `EnumString` parse of `PrimitiveType`: inverse of the display. -/
def primitiveFromStr (s : String) : Option MPrimitive :=
  primitivesList.find? (fun p => primitiveDisplay p = s)

/-- Translation of `impl From<&ast::Primitive> for PrimitiveType`
(`model/primitive.rs` lines 70 to 111): bracket syntax becomes the plural
primitive, the aliases +Int, -Int, Boolean, Integer are special-cased,
otherwise `from_str`.  `none` models the `expect` panic. -/
def primitiveFromAst (astStr : String) : Option MPrimitive :=
  if strStartsWith astStr "[" && strEndsWith astStr "]" then
    let inner := strDropRight (strDrop astStr 1) 1
    primitiveFromStr (inner ++ "s")
  else if astStr = "+Int" then some .intPos
  else if astStr = "-Int" then some .intNeg
  else if astStr = "Boolean" then some .bool
  else if astStr = "Integer" then some .int
  else primitiveFromStr astStr

/-- XSD whiteSpace facet handling modes (`model/restriction.rs`). -/
inductive WhiteSpaceHandling where
  | preserve | replace | collapse
deriving Repr, DecidableEq

/-- Facet record `SimpleTypeRestriction` (`model/restriction.rs`), field for field. -/
structure SimpleTypeRestriction where
  length : Option Nat := none
  min_length : Option Nat := none
  max_length : Option Nat := none
  pattern : Option String := none
  enumeration : Option (List String) := none
  white_space : Option WhiteSpaceHandling := none
  min_inclusive : Option String := none
  max_inclusive : Option String := none
  min_exclusive : Option String := none
  max_exclusive : Option String := none
  total_digits : Option Nat := none
  fraction_digits : Option Nat := none
deriving Repr, DecidableEq

/-- `SimpleType` variants (`model/simpletype.rs`).  Cross references are
`ObjId` values, as in the code (`Ref<SimpleType>`). -/
inductive MSimpleType where
  | derived (base : ObjId) (restrictions : SimpleTypeRestriction) (abstractType : Bool)
  | builtin (name : MPrimitive)
  | union (memberTypes : List ObjId)
  | list (itemType : ObjId) (separator : Option String)
deriving Repr, DecidableEq

/-- Element duplicity (`model/duplicity.rs`).  `custom lo hi` models
`Custom(lo..hi)`. -/
inductive Duplicity where
  | optional | single | any | min1
  | custom (lo hi : Nat)
deriving Repr, DecidableEq

def Duplicity.minOccurs : Duplicity → Nat
  | .optional | .any => 0
  | .single | .min1 => 1
  | .custom lo _ => lo

def Duplicity.maxOccurs : Duplicity → Option Nat
  | .optional | .single => some 1
  | .any | .min1 => none
  | .custom _ hi => some hi

/-- `model::Attribute` (`model/attr.rs`).  `comments` carries the comment
strings (always empty when built by the compiler, mirroring the builder
default), `defaultValue` the unused default slot. -/
structure MAttribute where
  name : String
  required : Bool
  typing : ObjId
  comments : List String := []
  defaultValue : Option String := none
deriving Repr, DecidableEq

/-- `model::Attributes`: a map from attribute name to `Ref<Attribute>`
(`HashMap<String, Ref<Attribute>>`), modelled as an insertion-ordered
association list with map semantics. -/
abbrev MAttributes := List (String × ObjId)

/-- Map lookup on `MAttributes` (first binding for the key). -/
def attrsFind (m : MAttributes) (k : String) : Option ObjId :=
  (m.find? (fun p => p.1 = k)).map (·.2)

/-- HashMap insert: replace the binding in place if the key exists, append
otherwise. -/
def attrsInsert (m : MAttributes) (k : String) (v : ObjId) : MAttributes :=
  if (m.find? (fun p => p.1 = k)).isSome then
    m.map (fun p => if p.1 = k then (k, v) else p)
  else m ++ [(k, v)]

/-- `Attributes::merge` (`model/attr.rs` lines 32 to 35):
`self.0.extend(other.0)` - every binding of `other` is inserted into `self`,
so `other` overrides `self` on name collision. -/
def attrsMerge (m other : MAttributes) : MAttributes :=
  other.foldl (fun acc p => attrsInsert acc p.1 p.2) m

/-- Group kinds (`model/group.rs`, `GroupType`). -/
inductive GroupType where
  | sequence | choice | all
deriving Repr, DecidableEq

/-- `GroupItem` (`model/group.rs`). -/
inductive MGroupItem where
  | element (r : ObjId)
  | group (r : ObjId)
deriving Repr, DecidableEq

/-- `model::Group` (`model/group.rs`), field for field. -/
structure MGroup where
  attributes : MAttributes
  ty : GroupType
  mixed : Bool
  abstractType : Bool
  baseType : Option ObjId
  items : List MGroupItem
deriving Repr, DecidableEq

/-- `TypeRef` (`model/type.rs`). -/
inductive MTypeRef where
  | simple (r : ObjId)
  | group (r : ObjId)
deriving Repr, DecidableEq

def MTypeRef.schemaObjectId : MTypeRef → ObjId
  | .simple r => r
  | .group r => r

/-- `model::Element` (`model/element.rs`), field for field. -/
structure MElement where
  name : String
  attributes : MAttributes
  duplicity : Duplicity
  typing : MTypeRef
  comments : List String := []
deriving Repr, DecidableEq

/-- Structural hash `TypeHash`, modelled as an injective encoding of the
hashed entity (see header notes). -/
inductive THash where
  | simple (v : MSimpleType)
  | group (v : MGroup)
  | attr (v : MAttribute)
  | elem (v : MElement)
deriving Repr, DecidableEq

/-- Insert into a `TypeMap` (a `HashMap` keyed by the structural hash of the
value): with hashes injective this is insert-if-absent. -/
def tmInsert {α : Type} [DecidableEq α] (l : List α) (v : α) : List α :=
  if v ∈ l then l else l ++ [v]

/-- `model::Schema` (`model/schema.rs`), field for field.  `nextId` models
the global `ID_COUNTER`. -/
structure MSchema where
  typesSimple : List MSimpleType
  typesGroup : List MGroup
  typesAttribute : List MAttribute
  mappingTypeIdName : List (ObjId × List String)
  mappingTypeIdHash : List (ObjId × THash)
  elements : List MElement
  bufferComments : List String
  nextId : Nat
deriving Repr, DecidableEq

/-- First id bound to a given hash, in map iteration order
(the scan loops of `register_type_mapping` / `id_for_type_hash`). -/
def firstIdForHash (l : List (ObjId × THash)) (h : THash) : Option ObjId :=
  (l.find? (fun p => p.2 = h)).map (·.1)

/-- Name set bound to an id in `id_to_names`. -/
def namesFor (l : List (ObjId × List String)) (id : ObjId) : Option (List String) :=
  (l.find? (fun p => p.1 = id)).map (·.2)

/-- `Schema::has_type_definition`. -/
def MSchema.hasTypeDefinition (s : MSchema) (h : THash) : Bool :=
  match h with
  | .simple v => s.typesSimple.contains v
  | .group v => s.typesGroup.contains v
  | .attr v => s.typesAttribute.contains v
  | .elem v => s.elements.contains v

/-- `Schema::typehash_for_id`. -/
def MSchema.typehashForId (s : MSchema) (id : ObjId) : Option THash :=
  (s.mappingTypeIdHash.find? (fun p => p.1 = id)).map (·.2)

/-- `Schema::register_type_mapping` (private): assert the hash is present in
some table, reuse the first id already mapped to the hash, else allocate a
fresh id for it. -/
def MSchema.registerTypeMapping (s : MSchema) (h : THash) : CResult (ObjId × MSchema) :=
  if s.hasTypeDefinition h then
    match firstIdForHash s.mappingTypeIdHash h with
    | some id => .ok (id, s)
    | none =>
        let id := s.nextId
        .ok (id, { s with
          mappingTypeIdHash := s.mappingTypeIdHash ++ [(id, h)],
          nextId := s.nextId + 1 })
  else .err "no type found with type hash"

/-- `Schema::register_simple_type`. -/
def MSchema.registerSimpleType (s : MSchema) (st : MSimpleType) : CResult (ObjId × MSchema) :=
  let s2 := { s with typesSimple := tmInsert s.typesSimple st }
  s2.registerTypeMapping (.simple st)

/-- `Schema::register_group`. -/
def MSchema.registerGroup (s : MSchema) (g : MGroup) : CResult (ObjId × MSchema) :=
  let s2 := { s with typesGroup := tmInsert s.typesGroup g }
  s2.registerTypeMapping (.group g)

/-- `Schema::register_attribute`. -/
def MSchema.registerAttribute (s : MSchema) (a : MAttribute) : CResult (ObjId × MSchema) :=
  let s2 := { s with typesAttribute := tmInsert s.typesAttribute a }
  s2.registerTypeMapping (.attr a)

/-- `Schema::register_element`. -/
def MSchema.registerElement (s : MSchema) (e : MElement) : CResult (ObjId × MSchema) :=
  let s2 := { s with elements := tmInsert s.elements e }
  s2.registerTypeMapping (.elem e)

/-- `Schema::register_type_name` (private): record `name` in the set of the
given id unless already present; the set is created if missing.  The
commented-out error branches of the source are dead and not modelled. -/
def MSchema.registerTypeName (s : MSchema) (id : ObjId) (name : String) : MSchema :=
  let l := s.mappingTypeIdName
  let l := if (namesFor l id).isSome then l else l ++ [(id, [])]
  let already := ((namesFor l id).getD []).contains name
  let l := if already then l
    else l.map (fun p => if p.1 = id then (p.1, p.2 ++ [name]) else p)
  { s with mappingTypeIdName := l }

/-- `Schema::register_primitive_type`: intern the builtin simple type and
bind the primitive display name to its id. -/
def MSchema.registerPrimitiveType (s : MSchema) (p : MPrimitive) : CResult (ObjId × MSchema) := do
  let st := MSimpleType.builtin p
  let (ref, s2) ← s.registerSimpleType st
  let s3 := s2.registerTypeName ref (primitiveDisplay p)
  pure (ref, s3)

/-- `Schema::register_preliminary_id_type`: resolve the hash of the target
reference (panicking `unwrap` if the target id is unmapped), refuse an
already-mapped preliminary id, then record `prelimId` to that hash. -/
def MSchema.registerPreliminaryIdType (s : MSchema) (prelimId : ObjId) (target : MTypeRef) :
    CResult (MTypeRef × MSchema) :=
  match s.typehashForId target.schemaObjectId with
  | none => .panicked "unwrap: no typehash for preliminary target id"
  | some h =>
      if (s.typehashForId prelimId).isSome then
        .err "preliminary type ID already mapped to type"
      else
        .ok (target, { s with mappingTypeIdHash := s.mappingTypeIdHash ++ [(prelimId, h)] })

/-- `Schema::get_simpletype`. -/
def MSchema.getSimpletype (s : MSchema) (r : ObjId) : Option MSimpleType :=
  match s.typehashForId r with
  | some (.simple v) => if s.typesSimple.contains v then some v else none
  | _ => none

/-- `Schema::get_group`. -/
def MSchema.getGroup (s : MSchema) (r : ObjId) : Option MGroup :=
  match s.typehashForId r with
  | some (.group v) => if s.typesGroup.contains v then some v else none
  | _ => none

/-- `Schema::get_attribute`. -/
def MSchema.getAttribute (s : MSchema) (r : ObjId) : Option MAttribute :=
  match s.typehashForId r with
  | some (.attr v) => if s.typesAttribute.contains v then some v else none
  | _ => none

/-- `Schema::get_element`. -/
def MSchema.getElement (s : MSchema) (r : ObjId) : Option MElement :=
  match s.typehashForId r with
  | some (.elem v) => if s.elements.contains v then some v else none
  | _ => none

/-- `Schema::get_attribute_name`. -/
def MSchema.getAttributeName (s : MSchema) (r : ObjId) : Option String :=
  (s.getAttribute r).map (·.name)

/-- `Schema::get_simpletype_ref`: first id mapped to the hash of the value. -/
def MSchema.getSimpletypeRef (s : MSchema) (st : MSimpleType) : Option ObjId :=
  firstIdForHash s.mappingTypeIdHash (.simple st)

/-- `Schema::get_element_ref`. -/
def MSchema.getElementRef (s : MSchema) (e : MElement) : Option ObjId :=
  firstIdForHash s.mappingTypeIdHash (.elem e)

/-- `Schema::get_type_name_for_group`: the first name of the name set of the
id (`names.iter().next()`; the model uses insertion order). -/
def MSchema.getTypeNameForGroup (s : MSchema) (r : ObjId) : Option String :=
  match namesFor s.mappingTypeIdName r with
  | some names => names.head?
  | none => none

/-- `Schema::get_type_name_for_simpletype`. -/
def MSchema.getTypeNameForSimpletype (s : MSchema) (r : ObjId) : Option String :=
  match namesFor s.mappingTypeIdName r with
  | some names => names.head?
  | none => none

/-- `Schema::all_type_names`: every name of every id, in map order. -/
def MSchema.allTypeNames (s : MSchema) : List String :=
  s.mappingTypeIdName.foldl (fun acc p => acc ++ p.2) []

/-- `Schema::get_simpletype_by_name`: scan `id_to_names` for an id whose set
contains the name and resolve it as a simple type. -/
def MSchema.getSimpletypeByName (s : MSchema) (target : String) : Option MSimpleType :=
  match s.mappingTypeIdName.find? (fun p => p.2.contains target) with
  | some p => s.getSimpletype p.1
  | none => none

/-- `Schema::get_group_by_name`. -/
def MSchema.getGroupByName (s : MSchema) (target : String) : Option MGroup :=
  match s.mappingTypeIdName.find? (fun p => p.2.contains target) with
  | some p => s.getGroup p.1
  | none => none

/-- `Schema::push_comment`. -/
def MSchema.pushComment (s : MSchema) (c : String) : MSchema :=
  { s with bufferComments := s.bufferComments ++ [c] }

/-- One primitive registration step of `Schema::default`; the error branches
are unreachable during initialization (the source asserts this). -/
def MSchema.registerPrimitiveAux (s : MSchema) (p : MPrimitive) : MSchema :=
  match s.registerPrimitiveType p with
  | .ok (_, s2) => s2
  | _ => s

/-- `Schema::default`: the empty schema with every primitive pre-registered
in `EnumIter` order. -/
def schemaDefault : MSchema :=
  primitivesList.foldl MSchema.registerPrimitiveAux
    { typesSimple := [], typesGroup := [], typesAttribute := [],
      mappingTypeIdName := [], mappingTypeIdHash := [],
      elements := [], bufferComments := [], nextId := 0 }

/-!
AST layer (`src/format/src/ast/*.rs`).  Spans, pest bookkeeping and comment
payloads are dropped; identifiers are carried as strings.  `ast::TypeUnion`
and `ast::UnionMember` have no declaration file in the snapshot; their shape
below is reconstructed from their uses in `compiler/mod.rs`
(`compile_type_union`) and the grammar summary of the spec.
-/

/-- `IdentType` (`ast/idents.rs`): a primitive token or a capitalized
non-primitive type name. -/
inductive IdentType where
  | primitive (p : String)
  | nonPrimitive (name : String)
deriving Repr, DecidableEq

/-- `TypeWithoutGeneric` (`ast/types.rs`). -/
structure TypeWithoutGeneric where
  ident : IdentType
deriving Repr, DecidableEq

/-- Shorthand facet text, e.g. 5..20 (`ast/facets.rs`, `FacetShorthand`). -/
structure FacetShorthand where
  value : String
deriving Repr, DecidableEq

/-- `FacetRange` (`ast/facets.rs`). -/
structure FacetRange where
  min : Option String
  max : Option String
deriving Repr, DecidableEq

/-- `FacetShorthand::parse_range` (`ast/facets.rs` lines 40 to 79). -/
def parseRange (value : String) : FacetRange :=
  let text := strTrim value
  let parts := strSplitOn text ".."
  if parts.length > 1 then
    match parts[0]?, parts[1]? with
    | some "", some mx =>
        if mx ≠ "" then { min := none, max := some mx }
        else { min := none, max := none }
    | some mn, some "" =>
        if mn ≠ "" then { min := some mn, max := none }
        else { min := none, max := none }
    | some mn, some mx =>
        if mn ≠ "" && mx ≠ "" then { min := some mn, max := some mx }
        else { min := none, max := none }
    | _, _ => { min := none, max := none }
  else
    { min := some text, max := some text }

/-- `FacetValue` (`ast/facets.rs`). -/
inductive FacetValue where
  | regex (v : String)
  | str (v : String)
  | num (v : String)
deriving Repr, DecidableEq

/-- `FacetValue::as_string`: regex and number pass through, strings are
stripped of their quote characters.  The model carries string literals
already unquoted, so the strip is the identity here. -/
def FacetValue.asString : FacetValue → String
  | .regex v => v
  | .str v => v
  | .num v => v

/-- `FacetNamed` (`ast/facets.rs`). -/
structure FacetNamed where
  name : String
  value : FacetValue
deriving Repr, DecidableEq

/-- `FacetItem` (`ast/facets.rs`). -/
inductive FacetItem where
  | shorthand (s : FacetShorthand)
  | named (n : FacetNamed)
deriving Repr, DecidableEq

/-- `Facets` (`ast/facets.rs`): an optional `FacetList`. -/
structure Facets where
  items : Option (List FacetItem)
deriving Repr, DecidableEq

/-- `TypeNameBase` (`ast/types.rs`).  Generic type arguments are never
compiled (`compile_typing_generic` is `todo!`), so only the head name of a
generic base is kept. -/
inductive TypeNameBase where
  | regular (t : TypeWithoutGeneric)
  | generic (typename : String)
deriving Repr, DecidableEq

/-- `AstTypeName` (`ast/types.rs`): base plus optional facets. -/
structure AstTypeName where
  base : TypeNameBase
  facets : Option Facets
deriving Repr, DecidableEq

/-- `AstTypeName::ident_nonprim`. -/
def AstTypeName.identNonprim : AstTypeName → Option String
  | { base := .regular ⟨.nonPrimitive n⟩, .. } => some n
  | { base := .generic n, .. } => some n
  | _ => none

/-- `AstTypeName::ident_regular`. -/
def AstTypeName.identRegular : AstTypeName → Option String
  | { base := .regular ⟨.nonPrimitive n⟩, .. } => some n
  | _ => none

/-- `AttrItem` (`ast/attrs.rs`): a typename, a regex literal, or a string
literal. -/
inductive AttrItem where
  | simple (t : AstTypeName)
  | typeRegex (v : String)
  | attrItemStr (v : String)
deriving Repr, DecidableEq

/-- `SimpleTypingInline` (`ast/typings.rs`): a compound of attribute items. -/
structure SimpleTypingInline where
  items : List AttrItem
deriving Repr, DecidableEq

/-- `SimpleTypingInline::is_compound`. -/
def SimpleTypingInline.isCompound (s : SimpleTypingInline) : Bool :=
  s.items.length > 1

/-- `SimpleTypingInline::is_generic`. -/
def SimpleTypingInline.isGeneric (s : SimpleTypingInline) : Bool :=
  s.items.any (fun it =>
    match it with
    | .simple tn => match tn.base with | .generic _ => true | _ => false
    | _ => false)

/-- `UnionMember` (reconstructed, see header of this section). -/
inductive UnionMember where
  | typeName (t : AstTypeName)
  | regex (v : String)
  | literal (v : String)
  | var (v : String)
  | number (n : Nat)
deriving Repr, DecidableEq

/-- `TypeUnion` (reconstructed): the ordered member list. -/
structure TypeUnion where
  members : List UnionMember
deriving Repr, DecidableEq

/-- `AttrTyping` (`ast/attrs.rs`). -/
inductive AttrTyping where
  | union (u : TypeUnion)
  | simpleCompound (s : SimpleTypingInline)
deriving Repr, DecidableEq

/-- `AttrDef` (`ast/attrs.rs`): name, optional marker, optional typing. -/
structure AttrDef where
  name : String
  optionalMod : Bool
  typing : Option AttrTyping
deriving Repr, DecidableEq

/-- `AttrDef::is_required`. -/
def AttrDef.isRequired (a : AttrDef) : Bool := !a.optionalMod

/-- `ast::Attributes` (`ast/attrs.rs`). -/
structure AstAttributes where
  defs : List AttrDef
deriving Repr, DecidableEq

/-- `ModDuplicity` (`ast/symbols.rs`); `range lo hi` covers both
`ModRange::Span` and `ModRange::Static n` (as `range n n`). -/
inductive ModDuplicity where
  | opt | any | min
  | range (lo hi : Nat)
deriving Repr, DecidableEq

/-- `impl From<&ast::ModDuplicity> for Duplicity` (`model/duplicity.rs`). -/
def duplicityFromMod : ModDuplicity → Duplicity
  | .opt => .optional
  | .any => .any
  | .min => .min1
  | .range lo hi => .custom lo hi

/-- `Typing` (`ast/typings.rs`). -/
inductive Typing where
  | union (u : TypeUnion)
  | typename (t : AstTypeName)
  | regex (v : String)
  | var (v : String)
deriving Repr, DecidableEq

/-- Block occurrence modifier (`ast/blocks.rs`, `BlockModOccurrence`). -/
inductive BlockModOccurrence where
  | opt | must
deriving Repr, DecidableEq

/-- `BlockMods` (`ast/blocks.rs`): abstract marker, mixed markers before or
after the occurrence modifier. -/
structure BlockMods where
  abstractMod : Bool
  mixedBefore : Bool
  occurrence : Option BlockModOccurrence
  mixedAfter : Bool
deriving Repr, DecidableEq

/-- `BlockMods::is_mixed_content`. -/
def BlockMods.isMixedContent (m : BlockMods) : Bool :=
  m.mixedBefore || m.mixedAfter

/-- `BlockMods::is_abstract`. -/
def BlockMods.isAbstractMod (m : BlockMods) : Bool := m.abstractMod

/-- `impl From<&ast::BlockMods> for GroupType` (`model/group.rs`). -/
def groupTypeOfMods (m : BlockMods) : GroupType :=
  match m.occurrence with
  | some .must => .all
  | some .opt => .choice
  | none => .sequence

/-- `ElementAssign` (`ast/elements.rs`). -/
structure ElementAssign where
  element : String
  modDup : Option ModDuplicity
deriving Repr, DecidableEq

mutual

/-- `ast::Element` (`ast/elements.rs`): attributes plus the item. -/
inductive AstElement where
  | mk (attributes : AstAttributes) (item : ElementItem)

/-- `ElementItem` (`ast/elements.rs`). -/
inductive ElementItem where
  | withType (assign : ElementAssign) (typing : Typing)
  | withBlock (assign : ElementAssign) (block : Block)

/-- `ast::Block` (`ast/blocks.rs`). -/
inductive Block where
  | mk (mods : BlockMods) (items : List BlockItem)

/-- `BlockItem` (`ast/blocks.rs`). -/
inductive BlockItem where
  | element (e : AstElement)
  | splatBlock (b : Block)
  | splatType (t : AstTypeName)
  | splatGenericArg (v : String)
  | comment (txt : String)

end

def AstElement.attributes : AstElement → AstAttributes
  | .mk a _ => a

def AstElement.item : AstElement → ElementItem
  | .mk _ i => i

/-- `Element::assignment`. -/
def AstElement.assignment : AstElement → ElementAssign
  | .mk _ (.withType a _) => a
  | .mk _ (.withBlock a _) => a

/-- `Element::name`. -/
def AstElement.name (e : AstElement) : String := e.assignment.element

/-- `Element::duplicity`. -/
def AstElement.duplicity (e : AstElement) : Option ModDuplicity := e.assignment.modDup

def Block.mods : Block → BlockMods
  | .mk m _ => m

def Block.items : Block → List BlockItem
  | .mk _ i => i

/-- `Inheritance` (`ast/typedefs.rs`). -/
structure Inheritance where
  baseType : AstTypeName
deriving Repr, DecidableEq

/-- `TypeDefInlineTyping` (`ast/typedefs.rs`); the `Union` variant is
matched by `compile_inline_type` in `compiler/mod.rs`. -/
inductive TypeDefInlineTyping where
  | union (u : TypeUnion)
  | typename (t : AstTypeName)
  | var (v : String)
  | simpleType (s : SimpleTypingInline)
deriving Repr, DecidableEq

/-- `TypeDefInline` (`ast/typedefs.rs`); `isGeneric` models
`is_generic` (a non-empty var list). -/
structure TypeDefInline where
  typename : String
  isGeneric : Bool
  typing : TypeDefInlineTyping
deriving Repr, DecidableEq

/-- `TypeDefBlock` (`ast/typedefs.rs`). -/
structure TypeDefBlock where
  attributes : AstAttributes
  typename : String
  isGeneric : Bool
  inheritance : Option Inheritance
  block : Block

/-- `TypeDef` (`ast/typedefs.rs`). -/
inductive TypeDef where
  | inline (d : TypeDefInline)
  | block (d : TypeDefBlock)

/-- `TypeDef::ident_nonprim` (the definition name). -/
def TypeDef.identNonprim : TypeDef → String
  | .inline d => d.typename
  | .block d => d.typename

/-- `Import` (`ast/imports.rs`): only the path matters to the embedded
operations (selectors are not consulted by the file manager). -/
structure ImportA where
  path : String
deriving Repr, DecidableEq

/-- `SchemaItem` (`ast/schemas.rs`). -/
inductive SchemaItem where
  | element (e : AstElement)
  | typeDefinition (td : TypeDef)
  | comment (txt : String)

/-- `ast::SchemaFile` (`ast/schemas.rs`): imports plus items (namespace and
doc comments dropped). -/
structure SchemaFile where
  imports : List ImportA
  items : List SchemaItem

/-- `SchemaFile::has_imports`. -/
def SchemaFile.hasImports (f : SchemaFile) : Bool := !f.imports.isEmpty

/-- `SchemaFile::types_own`. -/
def SchemaFile.typesOwn (f : SchemaFile) : List TypeDef :=
  f.items.filterMap (fun it =>
    match it with
    | .typeDefinition td => some td
    | _ => none)

/-- `SchemaFile::elements_top_level`. -/
def SchemaFile.elementsTopLevel (f : SchemaFile) : List AstElement :=
  f.items.filterMap (fun it =>
    match it with
    | .element e => some e
    | _ => none)

/-- `SchemaFile::find_type`: first own type definition with the name. -/
def SchemaFile.findType (f : SchemaFile) (name : String) : Option TypeDef :=
  f.typesOwn.find? (fun td => td.identNonprim = name)

/-- `SourcedSchemaFile` (`sourced/file.rs`): the parsed file plus the path
it was loaded from (the manager handle is not consulted by the embedded
operations). -/
structure SourcedSchemaFile where
  schema : SchemaFile
  path : String

/-- `SourcedSchemaFile::types` (`sourced/file.rs` lines 35 to 43): own types,
but `todo!()` - a panic - as soon as the file has imports. -/
def SourcedSchemaFile.types (s : SourcedSchemaFile) : CResult (List TypeDef) :=
  if s.schema.hasImports then .panicked "not yet implemented"
  else .ok s.schema.typesOwn

/-!
Facet lowering (`compiler/mod.rs`, `compile_facets`, lines 820 to 924).
-/

/-- Rust `str::parse::<usize>`: digits with an optional leading plus sign;
`none` models the parse error. -/
def parseUsize (s : String) : Option Nat :=
  let t := if strStartsWith s "+" then strDrop s 1 else s
  strToNatQ t

/-- Fold one facet item into the restriction record being built
(the loop body of `compile_facets`). -/
def compileFacetItem (basePrimitive : MPrimitive) (r : SimpleTypeRestriction)
    (item : FacetItem) : CResult SimpleTypeRestriction :=
  match item with
  | .shorthand sh =>
      let range := parseRange sh.value
      match basePrimitive with
      | .string =>
          match range.min, range.max with
          | some mn, some mx =>
              if mn = mx then
                match parseUsize mn with
                | some n => .ok { r with length := some n }
                | none => .err "invalid digit found in string"
              else
                match parseUsize mn, parseUsize mx with
                | some a, some b =>
                    .ok { r with min_length := some a, max_length := some b }
                | _, _ => .err "invalid digit found in string"
          | some mn, none =>
              match parseUsize mn with
              | some a => .ok { r with min_length := some a }
              | none => .err "invalid digit found in string"
          | none, some mx =>
              match parseUsize mx with
              | some b => .ok { r with max_length := some b }
              | none => .err "invalid digit found in string"
          | none, none => .ok r
      | .int | .short | .float | .double | .decimal =>
          let r1 := match range.min with
            | some mn => { r with min_inclusive := some mn }
            | none => r
          let r2 := match range.max with
            | some mx => { r1 with max_inclusive := some mx }
            | none => r1
          .ok r2
      | _ => .err "Shorthand range syntax not supported for this base type"
  | .named named =>
      let value := named.value.asString
      match named.name with
      | "length" =>
          match parseUsize value with
          | some n => .ok { r with length := some n }
          | none => .err "invalid digit found in string"
      | "minLength" =>
          match parseUsize value with
          | some n => .ok { r with min_length := some n }
          | none => .err "invalid digit found in string"
      | "maxLength" =>
          match parseUsize value with
          | some n => .ok { r with max_length := some n }
          | none => .err "invalid digit found in string"
      | "minInclusive" => .ok { r with min_inclusive := some value }
      | "maxInclusive" => .ok { r with max_inclusive := some value }
      | "minExclusive" => .ok { r with min_exclusive := some value }
      | "maxExclusive" => .ok { r with max_exclusive := some value }
      | "totalDigits" =>
          match parseUsize value with
          | some n => .ok { r with total_digits := some n }
          | none => .err "invalid digit found in string"
      | "fractionDigits" =>
          match parseUsize value with
          | some n => .ok { r with fraction_digits := some n }
          | none => .err "invalid digit found in string"
      | "whiteSpace" =>
          match value with
          | "preserve" => .ok { r with white_space := some .preserve }
          | "replace" => .ok { r with white_space := some .replace }
          | "collapse" => .ok { r with white_space := some .collapse }
          | _ => .err "Invalid whiteSpace value"
      | "pattern" => .ok { r with pattern := some value }
      | _ => .err "Unknown facet name"

/-- Loop of `compile_facets` over the facet items. -/
def compileFacetsLoop (basePrimitive : MPrimitive) :
    SimpleTypeRestriction → List FacetItem → CResult SimpleTypeRestriction
  | r, [] => .ok r
  | r, item :: rest => do
      let r2 ← compileFacetItem basePrimitive r item
      compileFacetsLoop basePrimitive r2 rest

/-- `compile_facets` (`compiler/mod.rs` lines 820 to 924). -/
def compileFacets (facets : Facets) (basePrimitive : MPrimitive) :
    CResult SimpleTypeRestriction :=
  match facets.items with
  | some items => compileFacetsLoop basePrimitive {} items
  | none => .ok {}

/-!
Simple type constructors (`model/simpletype.rs`).
-/

/-- `SimpleType::static_string`: a derived type over the builtin String with
a one-element enumeration; the base reference is looked up in the schema
(`unwrap`, modelled as a panic when absent). -/
def simpleTypeStaticString (v : String) (s : MSchema) : CResult MSimpleType :=
  match s.getSimpletypeRef (.builtin .string) with
  | some base => .ok (.derived base { enumeration := some [v] } false)
  | none => .panicked "unwrap: String builtin not registered"

/-- `SimpleType::static_number`: enumeration over the builtin Int. -/
def simpleTypeStaticNumber (n : Nat) (s : MSchema) : CResult MSimpleType :=
  match s.getSimpletypeRef (.builtin .int) with
  | some base => .ok (.derived base { enumeration := some [toString n] } false)
  | none => .panicked "unwrap: Int builtin not registered"

/-- `SimpleType::from_regex`: a derived type over the builtin String with a
pattern facet. -/
def simpleTypeFromRegex (v : String) (s : MSchema) : CResult MSimpleType :=
  match s.getSimpletypeRef (.builtin .string) with
  | some base => .ok (.derived base { pattern := some v } false)
  | none => .panicked "unwrap: String builtin not registered"

/-!
Type classification (`ast/typedefs.rs`, `TypeDef::simple_type` /
`TypeDef::type_variant`) and the preliminary reference lookup
(`model/schema.rs`, `Schema::preliminary_ref_for_typename`).  The alias
chase of `simple_type` is unguarded in the source and is therefore fueled.
-/

/-- Does a type definition reduce to a simple type?  Mirrors
`TypeDef::simple_type`: inline compounds and primitive typenames are
simple, non-primitive typenames are chased through `find_type`, blocks are
not simple; type variables and generic bases are `todo!`. -/
def simpleTypeOf (src : SchemaFile) : Nat → TypeDef → CResult Bool
  | 0, _ => .outOfFuel
  | fuel + 1, td =>
      match td with
      | .block _ => .ok false
      | .inline d =>
          match d.typing with
          | .var _ => .panicked "todo: simpletype classification of a type variable"
          | .simpleType _ => .ok true
          | .union _ => .ok false
          | .typename tn =>
              match tn.base with
              | .regular ⟨.primitive _⟩ => .ok true
              | .regular ⟨.nonPrimitive n⟩ =>
                  match src.findType n with
                  | some td2 => simpleTypeOf src fuel td2
                  | none => .err "could not find Type declaration when resolving type"
              | .generic _ => .panicked "todo: generic typename classification"

/-- `TypeVariant` (`model/type.rs`). -/
inductive TypeVariant where
  | simple | group
deriving Repr, DecidableEq

/-- `TypeDef::type_variant`. -/
def typeVariant (src : SchemaFile) (fuel : Nat) (td : TypeDef) : CResult TypeVariant := do
  let isSimple ← simpleTypeOf src fuel td
  pure (if isSimple then .simple else .group)

/-- `Schema::id_for_type_definition`: scan `id_to_names` for an id whose
name set contains the definition name. -/
def MSchema.idForTypeDefinition (s : MSchema) (td : TypeDef) : Option ObjId :=
  (s.mappingTypeIdName.find? (fun p => p.2.contains td.identNonprim)).map (·.1)

/-- `Schema::preliminary_ref_for_typename`: look the definition name up; if
an id is bound, classify the definition (`type_variant(...).unwrap()` - an
error there is a panic) and wrap the id as a simple or group reference. -/
def MSchema.preliminaryRefForTypename (s : MSchema) (src : SchemaFile) (td : TypeDef)
    (fuel : Nat) : CResult (Option MTypeRef) :=
  match s.idForTypeDefinition td with
  | none => .ok none
  | some id =>
      match typeVariant src fuel td with
      | .ok .simple => .ok (some (.simple id))
      | .ok .group => .ok (some (.group id))
      | .err _ => .panicked "unwrap on type_variant error"
      | .panicked m => .panicked m
      | .outOfFuel => .outOfFuel

/-- `Schema::register_type_definition_name`. -/
def MSchema.registerTypeDefinitionName (s : MSchema) (id : ObjId) (td : TypeDef) : MSchema :=
  s.registerTypeName id td.identNonprim

/-!
Helper loops of the compiler that recurse only on themselves.
-/

/-- `resolve_block_def` (`compiler/mod.rs` lines 452 to 487): reduce a type
definition through inline aliases to a block definition, with no guard
against alias cycles (hence the fuel). -/
def resolveBlockDef (src : SchemaFile) : Nat → TypeDef → CResult (Option TypeDefBlock)
  | 0, _ => .outOfFuel
  | fuel + 1, td =>
      match td with
      | .block b => .ok (some b)
      | .inline d =>
          if d.isGeneric then .panicked "todo: resolve generic inline definition"
          else
            match d.typing with
            | .union _ => .ok none
            | .typename ty =>
                match ty.base with
                | .regular reg =>
                    match reg.ident with
                    | .nonPrimitive nm =>
                        match src.findType nm with
                        | some td2 => resolveBlockDef src fuel td2
                        | none => .panicked "unwrap: find_type returned None"
                    | .primitive _ => .panicked "unwrap: ident_nonprim on a primitive"
                | .generic _ => .panicked "todo: generics still unimplemented"
            | .var _ => .panicked "todo: generics still unimplemented"
            | .simpleType _ => .ok none

/-- Loop of `validate_no_circular_inheritance` (`compiler/mod.rs` lines 129
to 167): walk the base chain, recording visited names, erroring on a
revisit. -/
def validateInheritanceLoop (src : SchemaFile) :
    Nat → List String → TypeDefBlock → CResult Unit
  | 0, _, _ => .outOfFuel
  | fuel + 1, visited, currentBase =>
      let baseName := currentBase.typename
      if visited.contains baseName then
        .err "Circular inheritance detected"
      else
        let visited2 := visited ++ [baseName]
        match currentBase.inheritance with
        | some inh =>
            match inh.baseType.identNonprim with
            | some nextName =>
                match src.findType nextName with
                | some (.block nextBlock) =>
                    validateInheritanceLoop src fuel visited2 nextBlock
                | _ => .ok ()
            | none => .ok ()
        | none => .ok ()

/-- `validate_no_circular_inheritance`. -/
def validateNoCircularInheritance (src : SchemaFile) (fuel : Nat)
    (current : TypeDefBlock) (base : TypeDefBlock) : CResult Unit :=
  validateInheritanceLoop src fuel [current.typename] base

/-- Loop of `Attributes::new` (`model/attr.rs` lines 16 to 30): key each
reference by the name of the attribute it resolves to (`expect` panics when
unresolvable). -/
def attributesNewLoop (s : MSchema) : List ObjId → MAttributes → CResult MAttributes
  | [], acc => .ok acc
  | r :: rest, acc =>
      match s.getAttributeName r with
      | some nm => attributesNewLoop s rest (attrsInsert acc nm r)
      | none => .panicked "attr should have been defined"

/-- `Attributes::new`. -/
def attributesNew (refs : List ObjId) (s : MSchema) : CResult MAttributes :=
  attributesNewLoop s refs []

/-- The base-primitive chase inside `compile_typename` (`compiler/mod.rs`
lines 350 to 367): follow `Derived` bases down to the ultimate `Builtin`. -/
def ultimateBaseLoop (s : MSchema) : Nat → MSimpleType → CResult MPrimitive
  | 0, _ => .outOfFuel
  | fuel + 1, curr =>
      match curr with
      | .builtin n => .ok n
      | .derived base _ _ =>
          match s.getSimpletype base with
          | some nxt => ultimateBaseLoop s fuel nxt
          | none => .panicked "simple type resolve issue"
      | _ => .err "Facets can only be applied to primitive or derived types"

/-- Base-primitive determination for a faceted typename: `Builtin` directly,
`Derived` through the chase, anything else is rejected. -/
def basePrimitiveOf (s : MSchema) (fuel : Nat) (st : MSimpleType) : CResult MPrimitive :=
  match st with
  | .builtin n => .ok n
  | .derived base _ _ =>
      match s.getSimpletype base with
      | some curr => ultimateBaseLoop s fuel curr
      | none => .panicked "simple type resolve issue"
  | _ => .err "Facets can only be applied to simple types"

/-!
The compiler proper (`compiler/mod.rs`), one Lean function per Rust
function, mutually recursive, fueled.  Fuel is consumed at every call
between these functions; `outOfFuel` for every fuel corresponds to
non-termination of the source.
-/

mutual

/-- `compile_type_definition` (`compiler/mod.rs` lines 48 to 92): return the
existing preliminary reference if the name is already bound; otherwise
allocate a fresh id, bind the name to it, assert the binding is visible,
descend into the body, and only then map the id to the structural hash of
the produced entity. -/
def compileTypeDefinition (src : SchemaFile) : Nat → MSchema → TypeDef →
    CResult (MTypeRef × MSchema)
  | 0, _, _ => .outOfFuel
  | fuel + 1, s, td =>
      match s.preliminaryRefForTypename src td fuel with
      | .ok (some existing) => .ok (existing, s)
      | .ok none =>
          let newId := s.nextId
          let s1 := { s with nextId := s.nextId + 1 }
          let s2 := s1.registerTypeDefinitionName newId td
          match s2.preliminaryRefForTypename src td fuel with
          | .ok none => .panicked "assert failed: preliminary reference expected after registration"
          | .ok (some _) =>
              (match td with
               | .inline d => compileInlineType src fuel d s2
               | .block b =>
                   (compileBlockDefinition src fuel b s2).bind
                     (fun gs => .ok (MTypeRef.group gs.1, gs.2))).bind
              (fun ts => ts.2.registerPreliminaryIdType newId ts.1)
          | .err m => .err m
          | .panicked m => .panicked m
          | .outOfFuel => .outOfFuel
      | .err m => .err m
      | .panicked m => .panicked m
      | .outOfFuel => .outOfFuel

/-- `compile_inline_type` (`compiler/mod.rs` lines 259 to 283). -/
def compileInlineType (src : SchemaFile) : Nat → TypeDefInline → MSchema →
    CResult (MTypeRef × MSchema)
  | 0, _, _ => .outOfFuel
  | fuel + 1, d, s =>
      match d.typing with
      | .union u => compileTypeUnion src fuel u s
      | .typename tn => compileTypename src fuel tn s
      | .simpleType sti => parseTypeFromInline src fuel sti s
      | .var _ => .panicked "todo: variable substitution for type definitions"

/-- `compile_typing_regular` (`compiler/mod.rs` lines 287 to 311): a
primitive is interned directly; an alias is resolved in the file, the bound
preliminary reference is returned when present, else the referred
definition is compiled. -/
def compileTypingRegular (src : SchemaFile) : Nat → TypeWithoutGeneric → MSchema →
    CResult (MTypeRef × MSchema)
  | 0, _, _ => .outOfFuel
  | fuel + 1, reg, s =>
      match reg.ident with
      | .primitive p =>
          match primitiveFromAst p with
          | some prim =>
              (s.registerPrimitiveType prim).bind (fun rs => .ok (MTypeRef.simple rs.1, rs.2))
          | none => .panicked "could not parse primitive"
      | .nonPrimitive aliasName =>
          match src.findType aliasName with
          | none => .err "Type definition not found for NonPrimitive"
          | some referred =>
              match s.preliminaryRefForTypename src referred fuel with
              | .ok (some existing) => .ok (existing, s)
              | .ok none => compileTypeDefinition src fuel s referred
              | .err m => .err m
              | .panicked m => .panicked m
              | .outOfFuel => .outOfFuel

/-- `compile_typing` (`compiler/mod.rs` lines 313 to 332). -/
def compileTyping (src : SchemaFile) : Nat → Typing → MSchema →
    CResult (MTypeRef × MSchema)
  | 0, _, _ => .outOfFuel
  | fuel + 1, typing, s =>
      match typing with
      | .union u => compileTypeUnion src fuel u s
      | .typename tn => compileTypename src fuel tn s
      | .regex v =>
          (simpleTypeFromRegex v s).bind (fun st =>
            (s.registerSimpleType st).bind (fun rs => .ok (MTypeRef.simple rs.1, rs.2)))
      | .var _ => .panicked "todo: variable substitution for type definitions"

/-- `compile_typename` (`compiler/mod.rs` lines 334 to 385): compile the
base, then apply facets if present, producing a fresh anonymous derived
simple type. -/
def compileTypename (src : SchemaFile) : Nat → AstTypeName → MSchema →
    CResult (MTypeRef × MSchema)
  | 0, _, _ => .outOfFuel
  | fuel + 1, tn, s =>
      (match tn.base with
       | .regular reg => compileTypingRegular src fuel reg s
       | .generic _ => .panicked "todo: generics not implemented yet").bind
      (fun bs =>
        let baseType := bs.1
        let s1 := bs.2
        match tn.facets with
        | none => .ok (baseType, s1)
        | some facets =>
            match baseType with
            | .simple simpleRef =>
                match s1.getSimpletype simpleRef with
                | none => .panicked "simple type resolve issue"
                | some st =>
                    (basePrimitiveOf s1 fuel st).bind (fun basePrimitive =>
                      (compileFacets facets basePrimitive).bind (fun restrictions =>
                        let faceted := MSimpleType.derived simpleRef restrictions false
                        (s1.registerSimpleType faceted).bind
                          (fun rs => .ok (MTypeRef.simple rs.1, rs.2))))
            | .group _ =>
                .err "Facets can only be applied to simple types, not complex types")

/-- One member of `compile_type_union` (`compiler/mod.rs` lines 409 to 432). -/
def compileUnionMemberOne (src : SchemaFile) : Nat → UnionMember → MSchema →
    CResult (MTypeRef × MSchema)
  | 0, _, _ => .outOfFuel
  | fuel + 1, m, s =>
      match m with
      | .typeName tn => compileTypename src fuel tn s
      | .regex v =>
          (simpleTypeFromRegex v s).bind (fun st =>
            (s.registerSimpleType st).bind (fun rs => .ok (MTypeRef.simple rs.1, rs.2)))
      | .literal v =>
          (simpleTypeStaticString v s).bind (fun st =>
            (s.registerSimpleType st).bind (fun rs => .ok (MTypeRef.simple rs.1, rs.2)))
      | .var _ => .err "Union members with type variables are not yet supported"
      | .number n =>
          (simpleTypeStaticNumber n s).bind (fun st =>
            (s.registerSimpleType st).bind (fun rs => .ok (MTypeRef.simple rs.1, rs.2)))

/-- The member loop of `compile_type_union`: collect simple references in
authored order, rejecting any member that resolves to a complex group. -/
def compileUnionMembers (src : SchemaFile) : Nat → List UnionMember → MSchema →
    CResult (List ObjId × MSchema)
  | 0, _, _ => .outOfFuel
  | _ + 1, [], s => .ok ([], s)
  | fuel + 1, m :: rest, s =>
      match compileUnionMemberOne src fuel m s with
      | .ok (.simple r, s1) =>
          (compileUnionMembers src fuel rest s1).bind (fun rs => .ok (r :: rs.1, rs.2))
      | .ok (.group _, _) => .err "Union members must be simple types"
      | .err m2 => .err m2
      | .panicked m2 => .panicked m2
      | .outOfFuel => .outOfFuel

/-- `compile_type_union` (`compiler/mod.rs` lines 400 to 450). -/
def compileTypeUnion (src : SchemaFile) : Nat → TypeUnion → MSchema →
    CResult (MTypeRef × MSchema)
  | 0, _, _ => .outOfFuel
  | fuel + 1, u, s =>
      (compileUnionMembers src fuel u.members s).bind (fun ms =>
        (ms.2.registerSimpleType (.union ms.1)).bind
          (fun rs => .ok (MTypeRef.simple rs.1, rs.2)))

/-- `parse_type_from_inline` (`compiler/mod.rs` lines 682 to 714). -/
def parseTypeFromInline (src : SchemaFile) : Nat → SimpleTypingInline → MSchema →
    CResult (MTypeRef × MSchema)
  | 0, _, _ => .outOfFuel
  | fuel + 1, sti, s =>
      if sti.isCompound then .panicked "todo: compound attribute definition items"
      else if sti.isGeneric then .panicked "todo: generic attribute definition items"
      else
        match sti.items.head? with
        | none => .panicked "no items in SimpleTypingInline"
        | some (.simple tn) => compileTypename src fuel tn s
        | some (.typeRegex v) =>
            (simpleTypeFromRegex v s).bind (fun st =>
              (s.registerSimpleType st).bind (fun rs => .ok (MTypeRef.simple rs.1, rs.2)))
        | some (.attrItemStr v) =>
            (simpleTypeStaticString v s).bind (fun st =>
              (s.registerSimpleType st).bind (fun rs => .ok (MTypeRef.simple rs.1, rs.2)))

/-- `parse_attribute` (`compiler/mod.rs` lines 717 to 742): name, required
flag, typing (String by default; a group typing is rejected). -/
def parseAttribute (src : SchemaFile) : Nat → AttrDef → MSchema →
    CResult (ObjId × MSchema)
  | 0, _, _ => .outOfFuel
  | fuel + 1, attr, s =>
      (match attr.typing with
       | none => s.registerSimpleType (.builtin .string)
       | some t =>
           (match t with
            | .union u => compileTypeUnion src fuel u s
            | .simpleCompound sc => parseTypeFromInline src fuel sc s).bind
           (fun ts =>
             match ts.1 with
             | .simple r => .ok (r, ts.2)
             | .group _ => .err "group Type not supported for Attribute")).bind
      (fun ts =>
        ts.2.registerAttribute
          { name := attr.name, required := attr.isRequired, typing := ts.1 })

/-- The per-definition loop of `compile_attributes`. -/
def parseAttrDefs (src : SchemaFile) : Nat → List AttrDef → MSchema →
    CResult (List ObjId × MSchema)
  | 0, _, _ => .outOfFuel
  | _ + 1, [], s => .ok ([], s)
  | fuel + 1, a :: rest, s =>
      (parseAttribute src fuel a s).bind (fun rs =>
        (parseAttrDefs src fuel rest rs.2).bind (fun rest2 =>
          .ok (rs.1 :: rest2.1, rest2.2)))

/-- `compile_attributes` (`compiler/mod.rs` lines 618 to 630). -/
def compileAttributes (src : SchemaFile) : Nat → AstAttributes → MSchema →
    CResult (MAttributes × MSchema)
  | 0, _, _ => .outOfFuel
  | fuel + 1, attrs, s =>
      (parseAttrDefs src fuel attrs.defs s).bind (fun rs =>
        (attributesNew rs.1 rs.2).bind (fun m => .ok (m, rs.2)))

/-- `compile_element` (`compiler/mod.rs` lines 213 to 249). -/
def compileElement (src : SchemaFile) : Nat → AstElement → MSchema →
    CResult (ObjId × MSchema)
  | 0, _, _ => .outOfFuel
  | fuel + 1, e, s =>
      (compileAttributes src fuel e.attributes s).bind (fun as1 =>
        (match e.item with
         | .withType _ typing => compileTyping src fuel typing as1.2
         | .withBlock _ blk =>
             (compileBlock src fuel blk none false none as1.2).bind
               (fun gs => .ok (MTypeRef.group gs.1, gs.2))).bind
        (fun ts =>
          ts.2.registerElement
            { name := e.name,
              attributes := as1.1,
              duplicity := (e.duplicity.map duplicityFromMod).getD .single,
              typing := ts.1,
              comments := [] }))

/-- The per-item loop of `compile_block` (`compiler/mod.rs` lines 511 to
549): elements and splats become group items, comments are buffered on the
schema. -/
def compileBlockItems (src : SchemaFile) : Nat → List BlockItem → MSchema →
    CResult (List MGroupItem × MSchema)
  | 0, _, _ => .outOfFuel
  | _ + 1, [], s => .ok ([], s)
  | fuel + 1, item :: rest, s =>
      match item with
      | .comment txt => compileBlockItems src fuel rest (s.pushComment txt)
      | .element e =>
          (compileElement src fuel e s).bind (fun rs =>
            (compileBlockItems src fuel rest rs.2).bind (fun rest2 =>
              .ok (MGroupItem.element rs.1 :: rest2.1, rest2.2)))
      | .splatBlock b =>
          (compileBlock src fuel b none false none s).bind (fun rs =>
            (compileBlockItems src fuel rest rs.2).bind (fun rest2 =>
              .ok (MGroupItem.group rs.1 :: rest2.1, rest2.2)))
      | .splatType tn =>
          ((match tn.identRegular with
           | none => .err "expected splatted type reference to not be generic"
           | some nm =>
               match src.findType nm with
               | none => .err "type definition not found for IdentTypeNonPrimitive"
               | some td =>
                   (resolveBlockDef src fuel td).bind (fun bd =>
                     match bd with
                     | some blockdef => compileBlock src fuel blockdef.block none false none s
                     | none => .err "expected resolved type definition to be a block definition") :
             CResult (ObjId × MSchema))).bind
          (fun rs =>
            (compileBlockItems src fuel rest rs.2).bind (fun rest2 =>
              .ok (MGroupItem.group rs.1 :: rest2.1, rest2.2)))
      | .splatGenericArg _ => .panicked "todo: splat generic arg not implemented yet"

/-- `compile_block` (`compiler/mod.rs` lines 489 to 553). -/
def compileBlock (src : SchemaFile) : Nat → Block → Option MAttributes → Bool →
    Option ObjId → MSchema → CResult (ObjId × MSchema)
  | 0, _, _, _, _, _ => .outOfFuel
  | fuel + 1, blk, attributes, isAbstract, baseType, s =>
      (compileBlockItems src fuel blk.items s).bind (fun is1 =>
        is1.2.registerGroup
          { attributes := attributes.getD [],
            ty := groupTypeOfMods blk.mods,
            mixed := blk.mods.isMixedContent,
            abstractType := isAbstract,
            baseType := baseType,
            items := is1.1 })

/-- `compile_inheritance` (`compiler/mod.rs` lines 95 to 126). -/
def compileInheritance (src : SchemaFile) : Nat → TypeDefBlock → Inheritance →
    MSchema → CResult (ObjId × MSchema)
  | 0, _, _, _ => .outOfFuel
  | fuel + 1, blockdef, inh, s =>
      match inh.baseType.identNonprim with
      | none => .err "Base type must be a non-primitive type"
      | some baseTypeName =>
          match src.findType baseTypeName with
          | none => .err "Base type not found"
          | some (.inline _) =>
              .err "Cannot inherit from simple type; only complex types support inheritance"
          | some (.block baseBlock) =>
              (validateNoCircularInheritance src fuel blockdef baseBlock).bind
                (fun _ => compileBlockDefinition src fuel baseBlock s)

/-- `compile_block_definition` (`compiler/mod.rs` lines 169 to 196). -/
def compileBlockDefinition (src : SchemaFile) : Nat → TypeDefBlock → MSchema →
    CResult (ObjId × MSchema)
  | 0, _, _ => .outOfFuel
  | fuel + 1, blockdef, s =>
      (compileAttributes src fuel blockdef.attributes s).bind (fun as1 =>
        let isAbstract := blockdef.block.mods.isAbstractMod
        (match blockdef.inheritance with
         | some inh =>
             (compileInheritance src fuel blockdef inh as1.2).bind
               (fun gs => .ok (some gs.1, gs.2))
         | none => (.ok (none, as1.2) : CResult (Option ObjId × MSchema))).bind
        (fun bs =>
          compileBlock src fuel blockdef.block (some as1.1) isAbstract bs.1 bs.2))

end

/-!
Top level compile pipeline (`compiler/mod.rs`, `compile` /
`compile_type_definitions` / `compile_elements`).
-/

/-- Byte-wise lexicographic order on strings (the `Ord` of the identifier
newtypes reduces to `String` order; for the ASCII identifiers of WHAS the
scalar-value order below coincides with the byte order). -/
def charListLe : List Char → List Char → Bool
  | [], _ => true
  | _ :: _, [] => false
  | a :: as, b :: bs =>
      if a.val < b.val then true
      else if b.val < a.val then false
      else charListLe as bs

def strLeB (a b : String) : Bool := charListLe a.data b.data

/-- Insertion step of the name sort applied by `compile_type_definitions`
(`source.types().iter().sorted()`, ordered by `ident_nonprim`). -/
def tdInsertSorted (td : TypeDef) : List TypeDef → List TypeDef
  | [] => [td]
  | x :: xs =>
      if strLeB x.identNonprim td.identNonprim then x :: tdInsertSorted td xs
      else td :: x :: xs

/-- Sort type definitions by name. -/
def tdSort : List TypeDef → List TypeDef
  | [] => []
  | x :: xs => tdInsertSorted x (tdSort xs)

/-- The loop of `compile_type_definitions` over the sorted definitions. -/
def compileTypeDefinitionsLoop (src : SchemaFile) (fuel : Nat) :
    List TypeDef → MSchema → CResult MSchema
  | [], s => .ok s
  | td :: rest, s =>
      (compileTypeDefinition src fuel s td).bind (fun rs =>
        compileTypeDefinitionsLoop src fuel rest rs.2)

/-- `compile_type_definitions` (`compiler/mod.rs` lines 33 to 46): the
definitions come from `SourcedSchemaFile::types` (which panics on imports)
and are compiled in name order. -/
def compileTypeDefinitions (source : SourcedSchemaFile) (fuel : Nat) (s : MSchema) :
    CResult MSchema :=
  source.types.bind (fun tds =>
    compileTypeDefinitionsLoop source.schema fuel (tdSort tds) s)

/-- The loop of `compile_elements` over top level elements (authored order). -/
def compileElementsLoop (src : SchemaFile) (fuel : Nat) :
    List AstElement → MSchema → CResult MSchema
  | [], s => .ok s
  | e :: rest, s =>
      (compileElement src fuel e s).bind (fun rs =>
        compileElementsLoop src fuel rest rs.2)

/-- `compile_elements` (`compiler/mod.rs` lines 198 to 209). -/
def compileElements (source : SourcedSchemaFile) (fuel : Nat) (s : MSchema) :
    CResult MSchema :=
  compileElementsLoop source.schema fuel source.schema.elementsTopLevel s

/-- `compile` (`compiler/mod.rs` lines 20 to 31): fresh default schema, all
type definitions, then all elements (straight-line, as in the source; the
fuel is only threaded to the workers). -/
def compile (fuel : Nat) (source : SourcedSchemaFile) : CResult MSchema :=
  (compileTypeDefinitions source fuel schemaDefault).bind (fun s =>
    compileElements source fuel s)

/-!
Element views used by the exporter (`model/element.rs`).
-/

/-- `Element::group_merged_attributes` (`model/element.rs` lines 60 to 69):
for a simple typing the own attributes; for a group typing the merge of the
group attributes with the own attributes, own entries overriding. -/
def MElement.groupMergedAttributes (e : MElement) (s : MSchema) : CResult MAttributes :=
  match e.typing with
  | .simple _ => .ok e.attributes
  | .group gr =>
      match s.getGroup gr with
      | some g => .ok (attrsMerge g.attributes e.attributes)
      | none => .panicked "group resolve issue"

mutual

/-- `Group::contains_element` (`model/group.rs` lines 86 to 91), fueled for
the nested-group recursion. -/
def groupContainsElement (s : MSchema) : Nat → MGroup → ObjId → CResult Bool
  | 0, _, _ => .outOfFuel
  | fuel + 1, g, elementRef =>
      groupItemsContain s fuel g.items elementRef

/-- Item scan of `Group::contains_element` (`items.iter().any`). -/
def groupItemsContain (s : MSchema) : Nat → List MGroupItem → ObjId → CResult Bool
  | 0, _, _ => .outOfFuel
  | _ + 1, [], _ => .ok false
  | fuel + 1, item :: rest, elementRef =>
      match item with
      | .element e => if e = elementRef then .ok true else groupItemsContain s fuel rest elementRef
      | .group gref =>
          match s.getGroup gref with
          | none => .panicked "group resolve issue"
          | some g =>
              (groupContainsElement s fuel g elementRef).bind (fun b =>
                if b then .ok true else groupItemsContain s fuel rest elementRef)

end

/-- The group scan of `Element::is_local`. -/
def isLocalScan (s : MSchema) : Nat → List MGroup → ObjId → CResult Bool
  | 0, _, _ => .outOfFuel
  | _ + 1, [], _ => .ok false
  | fuel + 1, g :: rest, selfref =>
      (groupContainsElement s fuel g selfref).bind (fun b =>
        if b then .ok true else isLocalScan s fuel rest selfref)

/-- `Element::is_local` (`model/element.rs` lines 39 to 49): the element is
local iff some group of the schema contains its reference as an item. -/
def MElement.isLocal (e : MElement) (s : MSchema) (fuel : Nat) : CResult Bool :=
  match s.getElementRef e with
  | none => .panicked "element not found"
  | some selfref => isLocalScan s fuel s.typesGroup selfref

/-- Filter loop of `get_elements_local`. -/
def elementsLocalFilter (s : MSchema) (fuel : Nat) : List MElement → CResult (List MElement)
  | [] => .ok []
  | e :: rest =>
      (e.isLocal s fuel).bind (fun b =>
        (elementsLocalFilter s fuel rest).bind (fun es =>
          .ok (if b then e :: es else es)))

/-- `Schema::get_elements_local` (`model/schema.rs` lines 349 to 354). -/
def MSchema.getElementsLocal (s : MSchema) (fuel : Nat) : CResult (List MElement) :=
  elementsLocalFilter s fuel s.elements

/-- `Schema::get_elements_root` (`model/schema.rs` lines 357 to 363): the
elements that are not in the local list. -/
def MSchema.getElementsRoot (s : MSchema) (fuel : Nat) : CResult (List MElement) :=
  (s.getElementsLocal fuel).bind (fun localEls =>
    .ok (s.elements.filter (fun e => !(localEls.contains e))))

/-!
XSD exporter (`export/xsd.rs`).  The xmltree `Element` is modelled as
`XElem`; `with_attr` is a map insert, `with_child` appends.  The root is
built as name `xs:schema` (in the source: name `schema` with prefix `xs`).
Byte serialization is not re-modelled; properties are stated on the tree.
-/

/-- xmltree `Element`: name, attribute map, ordered children. -/
structure XElem where
  name : String
  attrs : List (String × String)
  children : List XElem
deriving Repr

/-- Attribute-map insert of `with_attr`. -/
def xattrInsert (m : List (String × String)) (k v : String) : List (String × String) :=
  if (m.find? (fun p => p.1 = k)).isSome then
    m.map (fun p => if p.1 = k then (k, v) else p)
  else m ++ [(k, v)]

def XElem.withAttr (e : XElem) (k v : String) : XElem :=
  { e with attrs := xattrInsert e.attrs k v }

def XElem.withChild (e : XElem) (c : XElem) : XElem :=
  { e with children := e.children ++ [c] }

def xelemNew (name : String) : XElem := { name := name, attrs := [], children := [] }

/-- Value bound to an attribute key of an `XElem`. -/
def XElem.getAttr (e : XElem) (k : String) : Option String :=
  (e.attrs.find? (fun p => p.1 = k)).map (·.2)

/-- `XsdExporter::map_primitive_to_xsd` (`export/xsd.rs` lines 633 to 661),
arm for arm; unmatched names pass through unchanged. -/
def mapPrimitiveToXsd (whasType : String) : String :=
  if whasType = "String" then "string"
  else if whasType = "Int" || whasType = "Integer" then "integer"
  else if whasType = "Bool" || whasType = "Boolean" then "boolean"
  else if whasType = "Date" then "date"
  else if whasType = "DateTime" then "dateTime"
  else if whasType = "DateTimestamp" then "dateTime"
  else if whasType = "Time" then "time"
  else if whasType = "Duration" then "duration"
  else if whasType = "Float" then "float"
  else if whasType = "Double" then "double"
  else if whasType = "Short" then "short"
  else if whasType = "Decimal" then "decimal"
  else if whasType = "ID" then "ID"
  else if whasType = "IDRef" then "IDREF"
  else if whasType = "IDRefs" then "IDREFS"
  else if whasType = "URI" then "anyURI"
  else if whasType = "Lang" then "language"
  else if whasType = "Name" then "Name"
  else if whasType = "NoColName" then "NCName"
  else if whasType = "-Int" then "negativeInteger"
  else if whasType = "+Int" then "nonNegativeInteger"
  else if whasType = "Token" then "token"
  else if whasType = "NameToken" then "NMTOKEN"
  else if whasType = "NameTokens" then "NMTOKENS"
  else whasType

/-- `SimpleType::is_builtin`. -/
def MSimpleType.isBuiltin : MSimpleType → Bool
  | .builtin _ => true
  | _ => false

/-- `SimpleType::is_derived`. -/
def MSimpleType.isDerived : MSimpleType → Bool
  | .derived _ _ _ => true
  | _ => false

/-- Union test used by the exporter (`matches!(..., SimpleType::Union)`). -/
def MSimpleType.isUnion : MSimpleType → Bool
  | .union _ => true
  | _ => false

/-- `SimpleType::to_type_name` (`model/simpletype.rs` lines 95 to 104):
derived types delegate to their base, builtins display their primitive,
unions panic (`todo!`), lists name String. -/
def toTypeName (s : MSchema) : Nat → MSimpleType → CResult String
  | 0, _ => .outOfFuel
  | fuel + 1, st =>
      match st with
      | .derived base _ _ =>
          match s.getSimpletype base with
          | some b => toTypeName s fuel b
          | none => .panicked "simple type resolve issue"
      | .builtin n => .ok (primitiveDisplay n)
      | .union _ => .panicked "todo: cannot get single type name for a union"
      | .list _ _ => .ok (primitiveDisplay .string)

/-- `XsdExporter::get_simple_type_xsd_name` (`export/xsd.rs` lines 613 to
630): builtins always map through the primitive table with the xs prefix;
otherwise a custom name from `id_to_names` wins; otherwise the primitive
base name maps through the table. -/
def getSimpleTypeXsdName (s : MSchema) (fuel : Nat) (simpleRef : ObjId) : CResult String :=
  match s.getSimpletype simpleRef with
  | none => .panicked "simple type resolve issue"
  | some st =>
      match st with
      | .builtin _ =>
          (toTypeName s fuel st).bind (fun bn => .ok ("xs:" ++ mapPrimitiveToXsd bn))
      | _ =>
          match s.getTypeNameForSimpletype simpleRef with
          | some customName => .ok customName
          | none =>
              (toTypeName s fuel st).bind (fun bn => .ok ("xs:" ++ mapPrimitiveToXsd bn))

/-- `XsdExporter::export_restrictions` (`export/xsd.rs` lines 499 to 609):
facet elements in the fixed source order. -/
def exportRestrictions (r : SimpleTypeRestriction) : List XElem :=
  (match r.enumeration with
   | some vs => vs.map (fun v => (xelemNew "xs:enumeration").withAttr "value" v)
   | none => [])
  ++ (match r.length with
      | some n => [(xelemNew "xs:length").withAttr "value" (toString n)]
      | none => [])
  ++ (match r.min_length with
      | some n => [(xelemNew "xs:minLength").withAttr "value" (toString n)]
      | none => [])
  ++ (match r.max_length with
      | some n => [(xelemNew "xs:maxLength").withAttr "value" (toString n)]
      | none => [])
  ++ (match r.pattern with
      | some v => [(xelemNew "xs:pattern").withAttr "value" v]
      | none => [])
  ++ (match r.white_space with
      | some ws =>
          [(xelemNew "xs:whiteSpace").withAttr "value"
            (match ws with
             | .preserve => "preserve"
             | .replace => "replace"
             | .collapse => "collapse")]
      | none => [])
  ++ (match r.min_inclusive with
      | some v => [(xelemNew "xs:minInclusive").withAttr "value" v]
      | none => [])
  ++ (match r.max_inclusive with
      | some v => [(xelemNew "xs:maxInclusive").withAttr "value" v]
      | none => [])
  ++ (match r.min_exclusive with
      | some v => [(xelemNew "xs:minExclusive").withAttr "value" v]
      | none => [])
  ++ (match r.max_exclusive with
      | some v => [(xelemNew "xs:maxExclusive").withAttr "value" v]
      | none => [])
  ++ (match r.total_digits with
      | some n => [(xelemNew "xs:totalDigits").withAttr "value" (toString n)]
      | none => [])
  ++ (match r.fraction_digits with
      | some n => [(xelemNew "xs:fractionDigits").withAttr "value" (toString n)]
      | none => [])

/-- Member-name loop of `export_simple_type_inline`: `get_simple_type_xsd_name`
per member, adding the xs prefix through the primitive table only when not
already present. -/
def memberNamesInline (s : MSchema) (fuel : Nat) : List ObjId → CResult (List String)
  | [] => .ok []
  | t :: rest =>
      (getSimpleTypeXsdName s fuel t).bind (fun typeName =>
        let nm := if strStartsWith typeName "xs:" then typeName
                  else "xs:" ++ mapPrimitiveToXsd typeName
        (memberNamesInline s fuel rest).bind (fun ns => .ok (nm :: ns)))

/-- Member-name loop of the named `export_simple_type`: plain
`to_type_name` plus the table, unconditionally prefixed. -/
def memberNamesNamed (s : MSchema) (fuel : Nat) : List ObjId → CResult (List String)
  | [] => .ok []
  | t :: rest =>
      (match s.getSimpletype t with
       | some st => toTypeName s fuel st
       | none => .panicked "simple type resolve issue").bind (fun typeName =>
        (memberNamesNamed s fuel rest).bind (fun ns =>
          .ok (("xs:" ++ mapPrimitiveToXsd typeName) :: ns)))

/-- `XsdExporter::export_simple_type_inline` (`export/xsd.rs` lines 451 to
496). -/
def exportSimpleTypeInline (s : MSchema) (fuel : Nat) (st : MSimpleType) : CResult XElem :=
  let base := xelemNew "xs:simpleType"
  match st with
  | .derived bref restrictions _ =>
      (match s.getSimpletype bref with
       | some b => toTypeName s fuel b
       | none => .panicked "simple type resolve issue").bind (fun baseName =>
        let restrictionElem :=
          (exportRestrictions restrictions).foldl XElem.withChild
            ((xelemNew "xs:restriction").withAttr "base" ("xs:" ++ mapPrimitiveToXsd baseName))
        .ok (base.withChild restrictionElem))
  | .union memberTypes =>
      (memberNamesInline s fuel memberTypes).bind (fun members =>
        .ok (base.withChild
          ((xelemNew "xs:union").withAttr "memberTypes" (strIntercalate " " members))))
  | _ => .ok base

/-- `XsdExporter::export_simple_type` (`export/xsd.rs` lines 108 to 159):
the named top-level form. -/
def exportSimpleType (s : MSchema) (fuel : Nat) (name : String) (st : MSimpleType) :
    CResult XElem :=
  let base := (xelemNew "xs:simpleType").withAttr "name" name
  match st with
  | .derived bref restrictions _ =>
      (match s.getSimpletype bref with
       | some b => toTypeName s fuel b
       | none => .panicked "simple type resolve issue").bind (fun baseName =>
        let restrictionElem :=
          (exportRestrictions restrictions).foldl XElem.withChild
            ((xelemNew "xs:restriction").withAttr "base" ("xs:" ++ mapPrimitiveToXsd baseName))
        .ok (base.withChild restrictionElem))
  | .union memberTypes =>
      (memberNamesNamed s fuel memberTypes).bind (fun members =>
        .ok (base.withChild
          ((xelemNew "xs:union").withAttr "memberTypes" (strIntercalate " " members))))
  | .list itemType _ =>
      (match s.getSimpletype itemType with
       | some st2 => toTypeName s fuel st2
       | none => .panicked "simple type resolve issue").bind (fun itemName =>
        .ok (base.withChild
          ((xelemNew "xs:list").withAttr "itemType" ("xs:" ++ mapPrimitiveToXsd itemName))))
  | .builtin _ => .ok base

/-- Stable insertion of a Nat into an ascending list (the id sort of
`Attributes::as_vec`). -/
def natInsertSorted (n : Nat) : List Nat → List Nat
  | [] => [n]
  | x :: xs => if x ≤ n then x :: natInsertSorted n xs else n :: x :: xs

def natSort : List Nat → List Nat
  | [] => []
  | x :: xs => natInsertSorted x (natSort xs)

/-- `Attributes::as_vec` (`model/attr.rs` lines 48 to 51): the reference
values sorted by id. -/
def attrsAsVec (m : MAttributes) : List ObjId :=
  natSort (m.map (·.2))

/-- Stable insertion by resolved attribute name (the
`sort_by_key` of `export_attributes`). -/
def attrPairInsertSorted (p : MAttribute) : List MAttribute → List MAttribute
  | [] => [p]
  | x :: xs => if strLeB x.name p.name then x :: attrPairInsertSorted p xs else p :: x :: xs

def attrPairSort : List MAttribute → List MAttribute
  | [] => []
  | x :: xs => attrPairInsertSorted x (attrPairSort xs)

/-- Resolve each attribute reference (`Ref::resolve`, panicking when
dangling). -/
def resolveAttrRefs (s : MSchema) : List ObjId → CResult (List MAttribute)
  | [] => .ok []
  | r :: rest =>
      match s.getAttribute r with
      | some a => (resolveAttrRefs s rest).bind (fun as2 => .ok (a :: as2))
      | none => .panicked "attribute resolve issue"

/-- Serialize one attribute (`export_attributes` loop body). -/
def exportAttributeOne (s : MSchema) (fuel : Nat) (a : MAttribute) : CResult XElem :=
  let base := (xelemNew "xs:attribute").withAttr "name" a.name
  match s.getSimpletype a.typing with
  | none => .panicked "simple type resolve issue"
  | some attrType =>
      if attrType.isUnion && (s.getTypeNameForSimpletype a.typing).isNone then
        (exportSimpleTypeInline s fuel attrType).bind (fun child =>
          .ok (base.withChild child))
      else
        (getSimpleTypeXsdName s fuel a.typing).bind (fun typeName =>
          let e := base.withAttr "type" typeName
          .ok (if a.required then e.withAttr "use" "required" else e))

/-- Loop over the sorted attributes. -/
def exportAttributesLoop (s : MSchema) (fuel : Nat) : List MAttribute → CResult (List XElem)
  | [] => .ok []
  | a :: rest =>
      (exportAttributeOne s fuel a).bind (fun e =>
        (exportAttributesLoop s fuel rest).bind (fun es => .ok (e :: es)))

/-- `XsdExporter::export_attributes` (`export/xsd.rs` lines 368 to 408):
ids in `as_vec` order, then stably sorted by attribute name. -/
def exportAttributes (s : MSchema) (fuel : Nat) (m : MAttributes) : CResult (List XElem) :=
  (resolveAttrRefs s (attrsAsVec m)).bind (fun resolved =>
    exportAttributesLoop s fuel (attrPairSort resolved))

mutual

/-- `XsdExporter::export_group_content` (`export/xsd.rs` lines 201 to 230). -/
def exportGroupContent (s : MSchema) : Nat → MGroup → CResult XElem
  | 0, _ => .outOfFuel
  | fuel + 1, g =>
      let tag := match g.ty with
        | .sequence => "xs:sequence"
        | .choice => "xs:choice"
        | .all => "xs:all"
      exportGroupItemsLoop s fuel g.items (xelemNew tag)

/-- Item loop of `export_group_content`. -/
def exportGroupItemsLoop (s : MSchema) : Nat → List MGroupItem → XElem → CResult XElem
  | 0, _, _ => .outOfFuel
  | _ + 1, [], acc => .ok acc
  | fuel + 1, item :: rest, acc =>
      match item with
      | .element elRef =>
          match s.getElement elRef with
          | none => .panicked "element resolve issue"
          | some el =>
              (exportElementInline s fuel el).bind (fun c =>
                exportGroupItemsLoop s fuel rest (acc.withChild c))
      | .group gref =>
          match s.getGroup gref with
          | none => .panicked "group resolve issue"
          | some nested =>
              (exportGroupContent s fuel nested).bind (fun c =>
                exportGroupItemsLoop s fuel rest (acc.withChild c))

/-- `XsdExporter::export_element_inline` (`export/xsd.rs` lines 410 to 448). -/
def exportElementInline (s : MSchema) : Nat → MElement → CResult XElem
  | 0, _ => .outOfFuel
  | fuel + 1, el =>
      let base := (xelemNew "xs:element").withAttr "name" el.name
      let base := base.withAttr "minOccurs" (toString el.duplicity.minOccurs)
      let base := match el.duplicity.maxOccurs with
        | some mx => base.withAttr "maxOccurs" (toString mx)
        | none => base.withAttr "maxOccurs" "unbounded"
      match el.typing with
      | .simple simpleRef =>
          match s.getSimpletype simpleRef with
          | none => .panicked "simple type resolve issue"
          | some st =>
              if (s.getTypeNameForSimpletype simpleRef).isNone &&
                  (st.isDerived || st.isUnion) then
                (exportSimpleTypeInline s fuel st).bind (fun c => .ok (base.withChild c))
              else
                (getSimpleTypeXsdName s fuel simpleRef).bind (fun typeName =>
                  .ok (base.withAttr "type" typeName))
      | .group gref =>
          match s.getGroup gref with
          | some groupType =>
              (exportGroupContent s fuel groupType).bind (fun c =>
                .ok (base.withChild ((xelemNew "xs:complexType").withChild c)))
          | none => .ok base

end

/-- `XsdExporter::export_group_content_local` (`export/xsd.rs` lines 233 to
263); the body coincides with `export_group_content` (the stored items of a
derived group are the local ones). -/
def exportGroupContentLocal (s : MSchema) (fuel : Nat) (g : MGroup) : CResult XElem :=
  match fuel with
  | 0 => .outOfFuel
  | fuel + 1 =>
      let tag := match g.ty with
        | .sequence => "xs:sequence"
        | .choice => "xs:choice"
        | .all => "xs:all"
      exportGroupItemsLoop s fuel g.items (xelemNew tag)

/-- `XsdExporter::export_complex_type` (`export/xsd.rs` lines 161 to 199):
abstract flag, then an `xs:complexContent` / `xs:extension` wrapper when the
base reference has a name, the no-extension fallback otherwise. -/
def exportComplexType (s : MSchema) (fuel : Nat) (name : String) (g : MGroup) :
    CResult XElem :=
  let base := (xelemNew "xs:complexType").withAttr "name" name
  let base := if g.abstractType then base.withAttr "abstract" "true" else base
  match g.baseType with
  | some baseRef =>
      (match s.getTypeNameForGroup baseRef with
       | some baseName =>
           (exportGroupContentLocal s fuel g).bind (fun localContent =>
             let extensionElem :=
               ((xelemNew "xs:extension").withAttr "base" baseName).withChild localContent
             .ok (base.withChild ((xelemNew "xs:complexContent").withChild extensionElem)))
       | none =>
           (exportGroupContent s fuel g).bind (fun c => .ok (base.withChild c)))
  | none =>
      (exportGroupContent s fuel g).bind (fun c => .ok (base.withChild c))

/-- `XsdExporter::export_element` (`export/xsd.rs` lines 265 to 366): the
top-level element serialization. -/
def exportElement (s : MSchema) (fuel : Nat) (name : String) (el : MElement) :
    CResult XElem :=
  let base := (xelemNew "xs:element").withAttr "name" name
  let base := base.withAttr "minOccurs" (toString el.duplicity.minOccurs)
  let base := match el.duplicity.maxOccurs with
    | some mx => base.withAttr "maxOccurs" (toString mx)
    | none => base.withAttr "maxOccurs" "unbounded"
  (el.groupMergedAttributes s).bind (fun mergedAttrs =>
    let hasAttrs := !(attrsAsVec mergedAttrs).isEmpty
    match el.typing with
    | .group gref =>
        (match s.getGroup gref with
         | some groupType =>
             let complexBase :=
               if groupType.mixed then (xelemNew "xs:complexType").withAttr "mixed" "true"
               else xelemNew "xs:complexType"
             (exportGroupContent s fuel groupType).bind (fun content =>
               (exportAttributes s fuel mergedAttrs).bind (fun attrElems =>
                 .ok (base.withChild
                   (attrElems.foldl XElem.withChild (complexBase.withChild content)))))
         | none =>
             if hasAttrs then
               (exportAttributes s fuel mergedAttrs).bind (fun attrElems =>
                 .ok (base.withChild (attrElems.foldl XElem.withChild (xelemNew "xs:complexType"))))
             else .ok base)
    | .simple simpleRef =>
        match s.getSimpletype simpleRef with
        | none => .panicked "simple type resolve issue"
        | some st =>
            let isAnonymousUnion :=
              st.isUnion && (s.getTypeNameForSimpletype simpleRef).isNone
            if hasAttrs then
              (if isAnonymousUnion then
                 (exportSimpleTypeInline s fuel st).bind (fun inlineTy =>
                   (exportAttributes s fuel mergedAttrs).bind (fun attrElems =>
                     .ok (attrElems.foldl XElem.withChild
                       ((xelemNew "xs:restriction").withChild inlineTy))))
               else
                 (getSimpleTypeXsdName s fuel simpleRef).bind (fun typeName =>
                   (exportAttributes s fuel mergedAttrs).bind (fun attrElems =>
                     .ok (attrElems.foldl XElem.withChild
                       ((xelemNew "xs:extension").withAttr "base" typeName))))).bind
              (fun contentChild =>
                .ok (base.withChild
                  ((xelemNew "xs:complexType").withChild
                    ((xelemNew "xs:simpleContent").withChild contentChild))))
            else
              if isAnonymousUnion then
                (exportSimpleTypeInline s fuel st).bind (fun c => .ok (base.withChild c))
              else
                (getSimpleTypeXsdName s fuel simpleRef).bind (fun typeName =>
                  .ok (base.withAttr "type" typeName)))

/-- Stable string-sort insertion (the `sort` of the collected type names). -/
def strInsertSorted (v : String) : List String → List String
  | [] => [v]
  | x :: xs => if strLeB x v then x :: strInsertSorted v xs else v :: x :: xs

def strSort : List String → List String
  | [] => []
  | x :: xs => strInsertSorted x (strSort xs)

/-- Stable element sort by name (`root_elements.sort_by_key(name)`). -/
def elInsertSortedByName (e : MElement) : List MElement → List MElement
  | [] => [e]
  | x :: xs => if strLeB x.name e.name then x :: elInsertSortedByName e xs else e :: x :: xs

def elSortByName : List MElement → List MElement
  | [] => []
  | x :: xs => elInsertSortedByName x (elSortByName xs)

/-- Named-simple-type loop of `export_schema`. -/
def exportNamedSimpleTypes (s : MSchema) (fuel : Nat) : List String → XElem → CResult XElem
  | [], acc => .ok acc
  | nm :: rest, acc =>
      match s.getSimpletypeByName nm with
      | some st =>
          if !st.isBuiltin then
            (exportSimpleType s fuel nm st).bind (fun c =>
              exportNamedSimpleTypes s fuel rest (acc.withChild c))
          else exportNamedSimpleTypes s fuel rest acc
      | none => exportNamedSimpleTypes s fuel rest acc

/-- Named-complex-type loop of `export_schema`. -/
def exportNamedComplexTypes (s : MSchema) (fuel : Nat) : List String → XElem → CResult XElem
  | [], acc => .ok acc
  | nm :: rest, acc =>
      match s.getGroupByName nm with
      | some g =>
          (exportComplexType s fuel nm g).bind (fun c =>
            exportNamedComplexTypes s fuel rest (acc.withChild c))
      | none => exportNamedComplexTypes s fuel rest acc

/-- Root-element loop of `export_schema`. -/
def exportRootElements (s : MSchema) (fuel : Nat) : List MElement → XElem → CResult XElem
  | [], acc => .ok acc
  | el :: rest, acc =>
      (exportElement s fuel el.name el).bind (fun c =>
        exportRootElements s fuel rest (acc.withChild c))

/-- `XsdExporter::export_schema` (`export/xsd.rs` lines 49 to 98) for the
default exporter (no target namespace), producing the `xs:schema` tree:
named simple types, then named complex types, then the sorted non-local
root elements. -/
def exportSchemaTree (s : MSchema) (fuel : Nat) : CResult XElem :=
  let root := ((xelemNew "xs:schema").withAttr "xmlns:xs"
      "http://www.w3.org/2001/XMLSchema").withAttr "elementFormDefault" "qualified"
  let typeNames := strSort s.allTypeNames
  (exportNamedSimpleTypes s fuel typeNames root).bind (fun root1 =>
    (exportNamedComplexTypes s fuel typeNames root1).bind (fun root2 =>
      (s.getElementsRoot fuel).bind (fun rootEls =>
        exportRootElements s fuel (elSortByName rootEls) root2)))

/-!
Source file manager (`sourced/manager.rs`).  The file system is a finite
map from absolute path strings to parsed files; `path::absolute` is the
identity on the already-absolute paths used here, reading plus parsing a
present file always succeeds (parse failures are not needed by the checked
properties).  A parse-event log records each actual parse.
-/

/-- The file system: absolute path to parsed content. -/
abbrev FileSys := List (String × SchemaFile)

def fsLookup (fs : FileSys) (p : String) : Option SchemaFile :=
  (fs.find? (fun q => q.1 = p)).map (·.2)

/-- `Path::parent` as a string operation: drop the last component. -/
def parentDir (p : String) : Option String :=
  let parts := strSplitOn p "/"
  if parts.length ≤ 1 then some ""
  else some (strIntercalate "/" parts.dropLast)

/-- `Import::absolute_path`: absolute paths pass through, relative ones are
joined onto the reference directory. -/
def importAbsolutePath (imp : ImportA) (referenceDir : String) : String :=
  if strStartsWith imp.path "/" then imp.path
  else referenceDir ++ "/" ++ imp.path

/-- `SchemaFile::resolve_file_path`: the path itself when present, else with
the whas extension added, else an error (modelled for paths that do not
already carry a foreign extension). -/
def resolveFilePath (fs : FileSys) (p : String) : Option String :=
  if (fsLookup fs p).isSome then some p
  else if (fsLookup fs (p ++ ".whas")).isSome then some (p ++ ".whas")
  else none

/-- Manager state: the path-keyed cache plus the parse-event log (a ghost
field recording each executed read-and-parse). -/
structure MgrState where
  map : List (String × SchemaFile)
  parseLog : List String

def mgrInit : MgrState := { map := [], parseLog := [] }

def MgrState.keys (st : MgrState) : List String := st.map.map (·.1)

mutual

/-- `SchemaFileManager::add_schema_file_path` (`sourced/manager.rs` lines 52
to 94): return the cached file if present; otherwise resolve, read and
parse the file, insert it into the cache keyed by the requested absolute
path, and only then recursively load every import. -/
def addSchemaFilePath (fs : FileSys) : Nat → MgrState → String →
    CResult (SchemaFile × MgrState)
  | 0, _, _ => .outOfFuel
  | fuel + 1, st, path =>
      match parentDir path with
      | none => .err "schema dir not found"
      | some schemaDir =>
          match (st.map.find? (fun q => q.1 = path)).map (·.2) with
          | some cached => .ok (cached, st)
          | none =>
              match resolveFilePath fs path with
              | none => .err "file not found at paths"
              | some resolvedPath =>
                  match fsLookup fs resolvedPath with
                  | none => .err "reading schema failed"
                  | some schema =>
                      let st2 : MgrState :=
                        { map := st.map ++ [(path, schema)],
                          parseLog := st.parseLog ++ [path] }
                      (addImportsLoop fs fuel st2 schemaDir schema.imports).bind
                        (fun st3 => .ok (schema, st3))

/-- The import loop of `add_schema_file_path` (fuel is consumed per step so
that the pair is structurally recursive; the termination statement accounts
for it). -/
def addImportsLoop (fs : FileSys) : Nat → MgrState → String → List ImportA →
    CResult MgrState
  | 0, _, _, _ => .outOfFuel
  | _ + 1, st, _, [] => .ok st
  | fuel + 1, st, schemaDir, imp :: rest =>
      (addSchemaFilePath fs fuel st (importAbsolutePath imp schemaDir)).bind
        (fun rs => addImportsLoop fs fuel rs.2 schemaDir rest)

end

/-- `SchemaFileManager::from_root_schema` (`sourced/manager.rs` lines 29 to
50): load the root and wrap it as a `SourcedSchemaFile`. -/
def fromRootSchema (fs : FileSys) (fuel : Nat) (path : String) :
    CResult (SourcedSchemaFile × MgrState) :=
  match parentDir path with
  | none => .err "parent dir of entry schema not found"
  | some _ =>
      (addSchemaFilePath fs fuel mgrInit path).bind (fun rs =>
        .ok ({ schema := rs.1, path := path }, rs.2))

/-!
Concrete inputs used by the statements below.
-/

/-- Typename for a primitive token, without facets. -/
def tnPrim (p : String) : AstTypeName := { base := .regular ⟨.primitive p⟩, facets := none }

/-- Typename for a non-primitive alias, without facets. -/
def tnNonPrim (n : String) : AstTypeName := { base := .regular ⟨.nonPrimitive n⟩, facets := none }

/-- Block modifiers of a plain sequence block. -/
def plainMods : BlockMods :=
  { abstractMod := false, mixedBefore := false, occurrence := none, mixedAfter := false }

/-- An element with a typing and no attributes or duplicity modifier. -/
def elTyped (nm : String) (t : Typing) : AstElement := .mk ⟨[]⟩ (.withType ⟨nm, none⟩ t)

/-- The typedef Base of scenario S5: a block with one String element. -/
def tdBase : TypeDef :=
  .block { attributes := ⟨[]⟩
           typename := "Base"
           isGeneric := false
           inheritance := none
           block := .mk plainMods [.element (elTyped "a" (.typename (tnPrim "String")))] }

/-- The typedef Child of scenario S5: inherits Base, adds one Int element. -/
def tdChild : TypeDef :=
  .block { attributes := ⟨[]⟩
           typename := "Child"
           isGeneric := false
           inheritance := some ⟨tnNonPrim "Base"⟩
           block := .mk plainMods [.element (elTyped "b" (.typename (tnPrim "Int")))] }

/-- Scenario S5 source: Base with element a, Child inheriting Base with element b. -/
def srcS5 : SourcedSchemaFile :=
  { schema := { imports := [], items := [.typeDefinition tdBase, .typeDefinition tdChild] }
    path := "/r/s5.whas" }

/-- Typedef A: Int with shorthand facet 1..5. -/
def tdFacetA : TypeDef :=
  .inline { typename := "A"
            isGeneric := false
            typing := .typename { base := .regular ⟨.primitive "Int"⟩
                                  facets := some ⟨some [.shorthand ⟨"1..5"⟩]⟩ } }

/-- Element e typed Int with the same shorthand facet. -/
def elFacetE : AstElement :=
  elTyped "e" (.typename { base := .regular ⟨.primitive "Int"⟩
                           facets := some ⟨some [.shorthand ⟨"1..5"⟩]⟩ })

/-- Source with a named and a structurally identical anonymous faceted type. -/
def srcC3 : SourcedSchemaFile :=
  { schema := { imports := [], items := [.typeDefinition tdFacetA, .element elFacetE] }
    path := "/r/c3.whas" }

/-- The self-aliasing typedef A: A. -/
def srcSelfAlias : SourcedSchemaFile :=
  { schema := { imports := []
                items := [.typeDefinition (.inline { typename := "A"
                                                     isGeneric := false
                                                     typing := .typename (tnNonPrim "A") })] }
    path := "/r/aa.whas" }

/-- File A of the cyclic import pair: imports B, defines TA. -/
def fileA : SchemaFile :=
  { imports := [⟨"B.whas"⟩]
    items := [.typeDefinition (.inline { typename := "TA"
                                         isGeneric := false
                                         typing := .typename (tnPrim "Int") })] }

/-- File B of the cyclic import pair: imports A, defines TB. -/
def fileB : SchemaFile :=
  { imports := [⟨"A.whas"⟩]
    items := [.typeDefinition (.inline { typename := "TB"
                                         isGeneric := false
                                         typing := .typename (tnPrim "Int") })] }

/-- The two-file cyclic file system. -/
def fsAB : FileSys := [("/r/A.whas", fileA), ("/r/B.whas", fileB)]

/-- The sourced root file produced by loading the cyclic pair. -/
def srcAB : SourcedSchemaFile := { schema := fileA, path := "/r/A.whas" }

mutual

/-- All element names of an XML subtree, in document order. -/
def xelemNames : XElem → List String
  | ⟨n, _, cs⟩ => n :: xelemNamesList cs

/-- All element names of a forest of XML subtrees, in document order. -/
def xelemNamesList : List XElem → List String
  | [] => []
  | x :: rest => xelemNames x ++ xelemNamesList rest

end

/-!
Claim C1 and supporting facts.
-/

/-- Claim C1.  The claim says compilation of mutually importing files
succeeds and the schema unions their type definitions.  In the code,
`compile` draws its definitions from `SourcedSchemaFile::types`, which
executes `todo!()` - a panic - whenever the file has imports, so
compilation of any file with an import panics instead: the claim fails on
the code, the spec (scenario S7) is the clear intent. -/
theorem c1_compile_on_imports_panics (src : SourcedSchemaFile) (fuel : Nat)
    (h : src.schema.imports ≠ []) :
    compile fuel src = .panicked "not yet implemented" := by
  have himp : src.schema.hasImports = true := by
    simp [SchemaFile.hasImports, h]
  simp [compile, compileTypeDefinitions, SourcedSchemaFile.types, himp, CResult.bind]

/-- Witness for C1: the cyclic pair loads fine (both files cached and
parsed), yet compiling the loaded root panics. -/
theorem c1_witness :
    (fromRootSchema fsAB 5 "/r/A.whas" =
      .ok (srcAB, { map := [("/r/A.whas", fileA), ("/r/B.whas", fileB)]
                    parseLog := ["/r/A.whas", "/r/B.whas"] })) ∧
    srcAB.schema.imports ≠ [] ∧
    compile 5 srcAB = .panicked "not yet implemented" := by
  refine ⟨by rfl, by decide, ?_⟩
  exact c1_compile_on_imports_panics srcAB 5 (by decide)


/-!
Claim C6: the primitive table of the exporter.
-/

/-- Modelled from the spec: the WHAS to XSD primitive table of section 6,
keyed by the WHAS source token. -/
def specPrimitiveToXsd (whasToken : String) : Option String :=
  if whasToken = "String" then some "string"
  else if whasToken = "URI" then some "anyURI"
  else if whasToken = "Date" then some "date"
  else if whasToken = "DateTime" then some "dateTime"
  else if whasToken = "DateTimestamp" then some "dateTime"
  else if whasToken = "Time" then some "time"
  else if whasToken = "Duration" then some "duration"
  else if whasToken = "Bool" || whasToken = "Boolean" then some "boolean"
  else if whasToken = "Int" || whasToken = "Integer" then some "integer"
  else if whasToken = "Float" then some "float"
  else if whasToken = "Double" then some "double"
  else if whasToken = "Short" then some "short"
  else if whasToken = "Decimal" then some "decimal"
  else if whasToken = "ID" then some "ID"
  else if whasToken = "IDRef" then some "IDREF"
  else if whasToken = "IDRefs" then some "IDREFS"
  else if whasToken = "Lang" then some "language"
  else if whasToken = "Name" then some "Name"
  else if whasToken = "NoColName" then some "NCName"
  else if whasToken = "-Int" then some "negativeInteger"
  else if whasToken = "+Int" then some "nonNegativeInteger"
  else if whasToken = "Token" then some "token"
  else if whasToken = "NameToken" then some "NMTOKEN"
  else if whasToken = "NameTokens" then some "NMTOKENS"
  else if whasToken = "Base64Binary" then some "base64Binary"
  else if whasToken = "UnsignedLong" then some "unsignedLong"
  else if whasToken = "AnySimpleType" then some "anySimpleType"
  else none

/-- Literal snapshot of `schemaDefault` (kernel-checked below); used to
keep each staged evaluation small. -/
def schemaDefaultL : MSchema :=
  { typesSimple := [MSimpleType.builtin (MPrimitive.string),
                    MSimpleType.builtin (MPrimitive.uri),
                    MSimpleType.builtin (MPrimitive.dateTimestamp),
                    MSimpleType.builtin (MPrimitive.dateTime),
                    MSimpleType.builtin (MPrimitive.date),
                    MSimpleType.builtin (MPrimitive.time),
                    MSimpleType.builtin (MPrimitive.duration),
                    MSimpleType.builtin (MPrimitive.bool),
                    MSimpleType.builtin (MPrimitive.int),
                    MSimpleType.builtin (MPrimitive.float),
                    MSimpleType.builtin (MPrimitive.double),
                    MSimpleType.builtin (MPrimitive.short),
                    MSimpleType.builtin (MPrimitive.decimal),
                    MSimpleType.builtin (MPrimitive.idrefs),
                    MSimpleType.builtin (MPrimitive.idref),
                    MSimpleType.builtin (MPrimitive.id),
                    MSimpleType.builtin (MPrimitive.lang),
                    MSimpleType.builtin (MPrimitive.noColName),
                    MSimpleType.builtin (MPrimitive.intNeg),
                    MSimpleType.builtin (MPrimitive.intNonNeg),
                    MSimpleType.builtin (MPrimitive.intPos),
                    MSimpleType.builtin (MPrimitive.token),
                    MSimpleType.builtin (MPrimitive.nameTokens),
                    MSimpleType.builtin (MPrimitive.nameToken),
                    MSimpleType.builtin (MPrimitive.name),
                    MSimpleType.builtin (MPrimitive.base64Binary),
                    MSimpleType.builtin (MPrimitive.unsignedLong),
                    MSimpleType.builtin (MPrimitive.anySimpleType)],
    typesGroup := [],
    typesAttribute := [],
    mappingTypeIdName := [(0, ["String"]),
                          (1, ["URI"]),
                          (2, ["DateTimestamp"]),
                          (3, ["DateTime"]),
                          (4, ["Date"]),
                          (5, ["Time"]),
                          (6, ["Duration"]),
                          (7, ["Bool"]),
                          (8, ["Int"]),
                          (9, ["Float"]),
                          (10, ["Double"]),
                          (11, ["Short"]),
                          (12, ["Decimal"]),
                          (13, ["IDRefs"]),
                          (14, ["IDRef"]),
                          (15, ["ID"]),
                          (16, ["Lang"]),
                          (17, ["NoColName"]),
                          (18, ["IntNeg"]),
                          (19, ["IntNonNeg"]),
                          (20, ["IntPos"]),
                          (21, ["Token"]),
                          (22, ["NameTokens"]),
                          (23, ["NameToken"]),
                          (24, ["Name"]),
                          (25, ["Base64Binary"]),
                          (26, ["UnsignedLong"]),
                          (27, ["AnySimpleType"])],
    mappingTypeIdHash := [(0, THash.simple (MSimpleType.builtin (MPrimitive.string))),
                          (1, THash.simple (MSimpleType.builtin (MPrimitive.uri))),
                          (2, THash.simple (MSimpleType.builtin (MPrimitive.dateTimestamp))),
                          (3, THash.simple (MSimpleType.builtin (MPrimitive.dateTime))),
                          (4, THash.simple (MSimpleType.builtin (MPrimitive.date))),
                          (5, THash.simple (MSimpleType.builtin (MPrimitive.time))),
                          (6, THash.simple (MSimpleType.builtin (MPrimitive.duration))),
                          (7, THash.simple (MSimpleType.builtin (MPrimitive.bool))),
                          (8, THash.simple (MSimpleType.builtin (MPrimitive.int))),
                          (9, THash.simple (MSimpleType.builtin (MPrimitive.float))),
                          (10, THash.simple (MSimpleType.builtin (MPrimitive.double))),
                          (11, THash.simple (MSimpleType.builtin (MPrimitive.short))),
                          (12, THash.simple (MSimpleType.builtin (MPrimitive.decimal))),
                          (13, THash.simple (MSimpleType.builtin (MPrimitive.idrefs))),
                          (14, THash.simple (MSimpleType.builtin (MPrimitive.idref))),
                          (15, THash.simple (MSimpleType.builtin (MPrimitive.id))),
                          (16, THash.simple (MSimpleType.builtin (MPrimitive.lang))),
                          (17, THash.simple (MSimpleType.builtin (MPrimitive.noColName))),
                          (18, THash.simple (MSimpleType.builtin (MPrimitive.intNeg))),
                          (19, THash.simple (MSimpleType.builtin (MPrimitive.intNonNeg))),
                          (20, THash.simple (MSimpleType.builtin (MPrimitive.intPos))),
                          (21, THash.simple (MSimpleType.builtin (MPrimitive.token))),
                          (22, THash.simple (MSimpleType.builtin (MPrimitive.nameTokens))),
                          (23, THash.simple (MSimpleType.builtin (MPrimitive.nameToken))),
                          (24, THash.simple (MSimpleType.builtin (MPrimitive.name))),
                          (25, THash.simple (MSimpleType.builtin (MPrimitive.base64Binary))),
                          (26, THash.simple (MSimpleType.builtin (MPrimitive.unsignedLong))),
                          (27, THash.simple (MSimpleType.builtin (MPrimitive.anySimpleType)))],
    elements := [],
    bufferComments := [],
    nextId := 28 }

/-- Schema state after compiling the Base typedef of S5. -/
def s5M1 : MSchema :=
   { typesSimple := [MSimpleType.builtin (MPrimitive.string),
                     MSimpleType.builtin (MPrimitive.uri),
                     MSimpleType.builtin (MPrimitive.dateTimestamp),
                     MSimpleType.builtin (MPrimitive.dateTime),
                     MSimpleType.builtin (MPrimitive.date),
                     MSimpleType.builtin (MPrimitive.time),
                     MSimpleType.builtin (MPrimitive.duration),
                     MSimpleType.builtin (MPrimitive.bool),
                     MSimpleType.builtin (MPrimitive.int),
                     MSimpleType.builtin (MPrimitive.float),
                     MSimpleType.builtin (MPrimitive.double),
                     MSimpleType.builtin (MPrimitive.short),
                     MSimpleType.builtin (MPrimitive.decimal),
                     MSimpleType.builtin (MPrimitive.idrefs),
                     MSimpleType.builtin (MPrimitive.idref),
                     MSimpleType.builtin (MPrimitive.id),
                     MSimpleType.builtin (MPrimitive.lang),
                     MSimpleType.builtin (MPrimitive.noColName),
                     MSimpleType.builtin (MPrimitive.intNeg),
                     MSimpleType.builtin (MPrimitive.intNonNeg),
                     MSimpleType.builtin (MPrimitive.intPos),
                     MSimpleType.builtin (MPrimitive.token),
                     MSimpleType.builtin (MPrimitive.nameTokens),
                     MSimpleType.builtin (MPrimitive.nameToken),
                     MSimpleType.builtin (MPrimitive.name),
                     MSimpleType.builtin (MPrimitive.base64Binary),
                     MSimpleType.builtin (MPrimitive.unsignedLong),
                     MSimpleType.builtin (MPrimitive.anySimpleType)],
     typesGroup := [{ attributes := [],
                      ty := GroupType.sequence,
                      mixed := false,
                      abstractType := false,
                      baseType := none,
                      items := [MGroupItem.element 29] }],
     typesAttribute := [],
     mappingTypeIdName := [(0, ["String"]),
                           (1, ["URI"]),
                           (2, ["DateTimestamp"]),
                           (3, ["DateTime"]),
                           (4, ["Date"]),
                           (5, ["Time"]),
                           (6, ["Duration"]),
                           (7, ["Bool"]),
                           (8, ["Int"]),
                           (9, ["Float"]),
                           (10, ["Double"]),
                           (11, ["Short"]),
                           (12, ["Decimal"]),
                           (13, ["IDRefs"]),
                           (14, ["IDRef"]),
                           (15, ["ID"]),
                           (16, ["Lang"]),
                           (17, ["NoColName"]),
                           (18, ["IntNeg"]),
                           (19, ["IntNonNeg"]),
                           (20, ["IntPos"]),
                           (21, ["Token"]),
                           (22, ["NameTokens"]),
                           (23, ["NameToken"]),
                           (24, ["Name"]),
                           (25, ["Base64Binary"]),
                           (26, ["UnsignedLong"]),
                           (27, ["AnySimpleType"]),
                           (28, ["Base"])],
     mappingTypeIdHash := [(0, THash.simple (MSimpleType.builtin (MPrimitive.string))),
                           (1, THash.simple (MSimpleType.builtin (MPrimitive.uri))),
                           (2, THash.simple (MSimpleType.builtin (MPrimitive.dateTimestamp))),
                           (3, THash.simple (MSimpleType.builtin (MPrimitive.dateTime))),
                           (4, THash.simple (MSimpleType.builtin (MPrimitive.date))),
                           (5, THash.simple (MSimpleType.builtin (MPrimitive.time))),
                           (6, THash.simple (MSimpleType.builtin (MPrimitive.duration))),
                           (7, THash.simple (MSimpleType.builtin (MPrimitive.bool))),
                           (8, THash.simple (MSimpleType.builtin (MPrimitive.int))),
                           (9, THash.simple (MSimpleType.builtin (MPrimitive.float))),
                           (10, THash.simple (MSimpleType.builtin (MPrimitive.double))),
                           (11, THash.simple (MSimpleType.builtin (MPrimitive.short))),
                           (12, THash.simple (MSimpleType.builtin (MPrimitive.decimal))),
                           (13, THash.simple (MSimpleType.builtin (MPrimitive.idrefs))),
                           (14, THash.simple (MSimpleType.builtin (MPrimitive.idref))),
                           (15, THash.simple (MSimpleType.builtin (MPrimitive.id))),
                           (16, THash.simple (MSimpleType.builtin (MPrimitive.lang))),
                           (17, THash.simple (MSimpleType.builtin (MPrimitive.noColName))),
                           (18, THash.simple (MSimpleType.builtin (MPrimitive.intNeg))),
                           (19, THash.simple (MSimpleType.builtin (MPrimitive.intNonNeg))),
                           (20, THash.simple (MSimpleType.builtin (MPrimitive.intPos))),
                           (21, THash.simple (MSimpleType.builtin (MPrimitive.token))),
                           (22, THash.simple (MSimpleType.builtin (MPrimitive.nameTokens))),
                           (23, THash.simple (MSimpleType.builtin (MPrimitive.nameToken))),
                           (24, THash.simple (MSimpleType.builtin (MPrimitive.name))),
                           (25, THash.simple (MSimpleType.builtin (MPrimitive.base64Binary))),
                           (26, THash.simple (MSimpleType.builtin (MPrimitive.unsignedLong))),
                           (27, THash.simple (MSimpleType.builtin (MPrimitive.anySimpleType))),
                           (29,
                            THash.elem
                              { name := "a",
                                attributes := [],
                                duplicity := Duplicity.single,
                                typing := MTypeRef.simple 0,
                                comments := [] }),
                           (30,
                            THash.group
                              { attributes := [],
                                ty := GroupType.sequence,
                                mixed := false,
                                abstractType := false,
                                baseType := none,
                                items := [MGroupItem.element 29] }),
                           (28,
                            THash.group
                              { attributes := [],
                                ty := GroupType.sequence,
                                mixed := false,
                                abstractType := false,
                                baseType := none,
                                items := [MGroupItem.element 29] })],
     elements := [{ name := "a",
                    attributes := [],
                    duplicity := Duplicity.single,
                    typing := MTypeRef.simple 0,
                    comments := [] }],
     bufferComments := [],
     nextId := 31 }

/-- Schema state after also compiling the Child typedef of S5. -/
def s5M2 : MSchema :=
   { typesSimple := [MSimpleType.builtin (MPrimitive.string),
                     MSimpleType.builtin (MPrimitive.uri),
                     MSimpleType.builtin (MPrimitive.dateTimestamp),
                     MSimpleType.builtin (MPrimitive.dateTime),
                     MSimpleType.builtin (MPrimitive.date),
                     MSimpleType.builtin (MPrimitive.time),
                     MSimpleType.builtin (MPrimitive.duration),
                     MSimpleType.builtin (MPrimitive.bool),
                     MSimpleType.builtin (MPrimitive.int),
                     MSimpleType.builtin (MPrimitive.float),
                     MSimpleType.builtin (MPrimitive.double),
                     MSimpleType.builtin (MPrimitive.short),
                     MSimpleType.builtin (MPrimitive.decimal),
                     MSimpleType.builtin (MPrimitive.idrefs),
                     MSimpleType.builtin (MPrimitive.idref),
                     MSimpleType.builtin (MPrimitive.id),
                     MSimpleType.builtin (MPrimitive.lang),
                     MSimpleType.builtin (MPrimitive.noColName),
                     MSimpleType.builtin (MPrimitive.intNeg),
                     MSimpleType.builtin (MPrimitive.intNonNeg),
                     MSimpleType.builtin (MPrimitive.intPos),
                     MSimpleType.builtin (MPrimitive.token),
                     MSimpleType.builtin (MPrimitive.nameTokens),
                     MSimpleType.builtin (MPrimitive.nameToken),
                     MSimpleType.builtin (MPrimitive.name),
                     MSimpleType.builtin (MPrimitive.base64Binary),
                     MSimpleType.builtin (MPrimitive.unsignedLong),
                     MSimpleType.builtin (MPrimitive.anySimpleType)],
     typesGroup := [{ attributes := [],
                      ty := GroupType.sequence,
                      mixed := false,
                      abstractType := false,
                      baseType := none,
                      items := [MGroupItem.element 29] },
                    { attributes := [],
                      ty := GroupType.sequence,
                      mixed := false,
                      abstractType := false,
                      baseType := some 30,
                      items := [MGroupItem.element 32] }],
     typesAttribute := [],
     mappingTypeIdName := [(0, ["String"]),
                           (1, ["URI"]),
                           (2, ["DateTimestamp"]),
                           (3, ["DateTime"]),
                           (4, ["Date"]),
                           (5, ["Time"]),
                           (6, ["Duration"]),
                           (7, ["Bool"]),
                           (8, ["Int"]),
                           (9, ["Float"]),
                           (10, ["Double"]),
                           (11, ["Short"]),
                           (12, ["Decimal"]),
                           (13, ["IDRefs"]),
                           (14, ["IDRef"]),
                           (15, ["ID"]),
                           (16, ["Lang"]),
                           (17, ["NoColName"]),
                           (18, ["IntNeg"]),
                           (19, ["IntNonNeg"]),
                           (20, ["IntPos"]),
                           (21, ["Token"]),
                           (22, ["NameTokens"]),
                           (23, ["NameToken"]),
                           (24, ["Name"]),
                           (25, ["Base64Binary"]),
                           (26, ["UnsignedLong"]),
                           (27, ["AnySimpleType"]),
                           (28, ["Base"]),
                           (31, ["Child"])],
     mappingTypeIdHash := [(0, THash.simple (MSimpleType.builtin (MPrimitive.string))),
                           (1, THash.simple (MSimpleType.builtin (MPrimitive.uri))),
                           (2, THash.simple (MSimpleType.builtin (MPrimitive.dateTimestamp))),
                           (3, THash.simple (MSimpleType.builtin (MPrimitive.dateTime))),
                           (4, THash.simple (MSimpleType.builtin (MPrimitive.date))),
                           (5, THash.simple (MSimpleType.builtin (MPrimitive.time))),
                           (6, THash.simple (MSimpleType.builtin (MPrimitive.duration))),
                           (7, THash.simple (MSimpleType.builtin (MPrimitive.bool))),
                           (8, THash.simple (MSimpleType.builtin (MPrimitive.int))),
                           (9, THash.simple (MSimpleType.builtin (MPrimitive.float))),
                           (10, THash.simple (MSimpleType.builtin (MPrimitive.double))),
                           (11, THash.simple (MSimpleType.builtin (MPrimitive.short))),
                           (12, THash.simple (MSimpleType.builtin (MPrimitive.decimal))),
                           (13, THash.simple (MSimpleType.builtin (MPrimitive.idrefs))),
                           (14, THash.simple (MSimpleType.builtin (MPrimitive.idref))),
                           (15, THash.simple (MSimpleType.builtin (MPrimitive.id))),
                           (16, THash.simple (MSimpleType.builtin (MPrimitive.lang))),
                           (17, THash.simple (MSimpleType.builtin (MPrimitive.noColName))),
                           (18, THash.simple (MSimpleType.builtin (MPrimitive.intNeg))),
                           (19, THash.simple (MSimpleType.builtin (MPrimitive.intNonNeg))),
                           (20, THash.simple (MSimpleType.builtin (MPrimitive.intPos))),
                           (21, THash.simple (MSimpleType.builtin (MPrimitive.token))),
                           (22, THash.simple (MSimpleType.builtin (MPrimitive.nameTokens))),
                           (23, THash.simple (MSimpleType.builtin (MPrimitive.nameToken))),
                           (24, THash.simple (MSimpleType.builtin (MPrimitive.name))),
                           (25, THash.simple (MSimpleType.builtin (MPrimitive.base64Binary))),
                           (26, THash.simple (MSimpleType.builtin (MPrimitive.unsignedLong))),
                           (27, THash.simple (MSimpleType.builtin (MPrimitive.anySimpleType))),
                           (29,
                            THash.elem
                              { name := "a",
                                attributes := [],
                                duplicity := Duplicity.single,
                                typing := MTypeRef.simple 0,
                                comments := [] }),
                           (30,
                            THash.group
                              { attributes := [],
                                ty := GroupType.sequence,
                                mixed := false,
                                abstractType := false,
                                baseType := none,
                                items := [MGroupItem.element 29] }),
                           (28,
                            THash.group
                              { attributes := [],
                                ty := GroupType.sequence,
                                mixed := false,
                                abstractType := false,
                                baseType := none,
                                items := [MGroupItem.element 29] }),
                           (32,
                            THash.elem
                              { name := "b",
                                attributes := [],
                                duplicity := Duplicity.single,
                                typing := MTypeRef.simple 8,
                                comments := [] }),
                           (33,
                            THash.group
                              { attributes := [],
                                ty := GroupType.sequence,
                                mixed := false,
                                abstractType := false,
                                baseType := some 30,
                                items := [MGroupItem.element 32] }),
                           (31,
                            THash.group
                              { attributes := [],
                                ty := GroupType.sequence,
                                mixed := false,
                                abstractType := false,
                                baseType := some 30,
                                items := [MGroupItem.element 32] })],
     elements := [{ name := "a",
                    attributes := [],
                    duplicity := Duplicity.single,
                    typing := MTypeRef.simple 0,
                    comments := [] },
                  { name := "b",
                    attributes := [],
                    duplicity := Duplicity.single,
                    typing := MTypeRef.simple 8,
                    comments := [] }],
     bufferComments := [],
     nextId := 34 }

/-- The exported S5 tree. -/
def s5TreeL : XElem :=
  { name := "xs:schema",
    attrs := [("xmlns:xs", "http://www.w3.org/2001/XMLSchema"), ("elementFormDefault", "qualified")],
    children := [{ name := "xs:complexType",
                   attrs := [("name", "Base")],
                   children := [{ name := "xs:sequence",
                                  attrs := [],
                                  children := [{ name := "xs:element",
                                                 attrs := [("name", "a"),
                                                           ("minOccurs", "1"),
                                                           ("maxOccurs", "1"),
                                                           ("type", "xs:string")],
                                                 children := [] }] }] },
                 { name := "xs:complexType",
                   attrs := [("name", "Child")],
                   children := [{ name := "xs:sequence",
                                  attrs := [],
                                  children := [{ name := "xs:element",
                                                 attrs := [("name", "b"),
                                                           ("minOccurs", "1"),
                                                           ("maxOccurs", "1"),
                                                           ("type", "xs:integer")],
                                                 children := [] }] }] }] }

/-- Schema state after compiling the faceted typedef A of the determinism
example. -/
def c3M1 : MSchema :=
   { typesSimple := [MSimpleType.builtin (MPrimitive.string),
                     MSimpleType.builtin (MPrimitive.uri),
                     MSimpleType.builtin (MPrimitive.dateTimestamp),
                     MSimpleType.builtin (MPrimitive.dateTime),
                     MSimpleType.builtin (MPrimitive.date),
                     MSimpleType.builtin (MPrimitive.time),
                     MSimpleType.builtin (MPrimitive.duration),
                     MSimpleType.builtin (MPrimitive.bool),
                     MSimpleType.builtin (MPrimitive.int),
                     MSimpleType.builtin (MPrimitive.float),
                     MSimpleType.builtin (MPrimitive.double),
                     MSimpleType.builtin (MPrimitive.short),
                     MSimpleType.builtin (MPrimitive.decimal),
                     MSimpleType.builtin (MPrimitive.idrefs),
                     MSimpleType.builtin (MPrimitive.idref),
                     MSimpleType.builtin (MPrimitive.id),
                     MSimpleType.builtin (MPrimitive.lang),
                     MSimpleType.builtin (MPrimitive.noColName),
                     MSimpleType.builtin (MPrimitive.intNeg),
                     MSimpleType.builtin (MPrimitive.intNonNeg),
                     MSimpleType.builtin (MPrimitive.intPos),
                     MSimpleType.builtin (MPrimitive.token),
                     MSimpleType.builtin (MPrimitive.nameTokens),
                     MSimpleType.builtin (MPrimitive.nameToken),
                     MSimpleType.builtin (MPrimitive.name),
                     MSimpleType.builtin (MPrimitive.base64Binary),
                     MSimpleType.builtin (MPrimitive.unsignedLong),
                     MSimpleType.builtin (MPrimitive.anySimpleType),
                     MSimpleType.derived
                       8
                       { length := none,
                         min_length := none,
                         max_length := none,
                         pattern := none,
                         enumeration := none,
                         white_space := none,
                         min_inclusive := some "1",
                         max_inclusive := some "5",
                         min_exclusive := none,
                         max_exclusive := none,
                         total_digits := none,
                         fraction_digits := none }
                       false],
     typesGroup := [],
     typesAttribute := [],
     mappingTypeIdName := [(0, ["String"]),
                           (1, ["URI"]),
                           (2, ["DateTimestamp"]),
                           (3, ["DateTime"]),
                           (4, ["Date"]),
                           (5, ["Time"]),
                           (6, ["Duration"]),
                           (7, ["Bool"]),
                           (8, ["Int"]),
                           (9, ["Float"]),
                           (10, ["Double"]),
                           (11, ["Short"]),
                           (12, ["Decimal"]),
                           (13, ["IDRefs"]),
                           (14, ["IDRef"]),
                           (15, ["ID"]),
                           (16, ["Lang"]),
                           (17, ["NoColName"]),
                           (18, ["IntNeg"]),
                           (19, ["IntNonNeg"]),
                           (20, ["IntPos"]),
                           (21, ["Token"]),
                           (22, ["NameTokens"]),
                           (23, ["NameToken"]),
                           (24, ["Name"]),
                           (25, ["Base64Binary"]),
                           (26, ["UnsignedLong"]),
                           (27, ["AnySimpleType"]),
                           (28, ["A"])],
     mappingTypeIdHash := [(0, THash.simple (MSimpleType.builtin (MPrimitive.string))),
                           (1, THash.simple (MSimpleType.builtin (MPrimitive.uri))),
                           (2, THash.simple (MSimpleType.builtin (MPrimitive.dateTimestamp))),
                           (3, THash.simple (MSimpleType.builtin (MPrimitive.dateTime))),
                           (4, THash.simple (MSimpleType.builtin (MPrimitive.date))),
                           (5, THash.simple (MSimpleType.builtin (MPrimitive.time))),
                           (6, THash.simple (MSimpleType.builtin (MPrimitive.duration))),
                           (7, THash.simple (MSimpleType.builtin (MPrimitive.bool))),
                           (8, THash.simple (MSimpleType.builtin (MPrimitive.int))),
                           (9, THash.simple (MSimpleType.builtin (MPrimitive.float))),
                           (10, THash.simple (MSimpleType.builtin (MPrimitive.double))),
                           (11, THash.simple (MSimpleType.builtin (MPrimitive.short))),
                           (12, THash.simple (MSimpleType.builtin (MPrimitive.decimal))),
                           (13, THash.simple (MSimpleType.builtin (MPrimitive.idrefs))),
                           (14, THash.simple (MSimpleType.builtin (MPrimitive.idref))),
                           (15, THash.simple (MSimpleType.builtin (MPrimitive.id))),
                           (16, THash.simple (MSimpleType.builtin (MPrimitive.lang))),
                           (17, THash.simple (MSimpleType.builtin (MPrimitive.noColName))),
                           (18, THash.simple (MSimpleType.builtin (MPrimitive.intNeg))),
                           (19, THash.simple (MSimpleType.builtin (MPrimitive.intNonNeg))),
                           (20, THash.simple (MSimpleType.builtin (MPrimitive.intPos))),
                           (21, THash.simple (MSimpleType.builtin (MPrimitive.token))),
                           (22, THash.simple (MSimpleType.builtin (MPrimitive.nameTokens))),
                           (23, THash.simple (MSimpleType.builtin (MPrimitive.nameToken))),
                           (24, THash.simple (MSimpleType.builtin (MPrimitive.name))),
                           (25, THash.simple (MSimpleType.builtin (MPrimitive.base64Binary))),
                           (26, THash.simple (MSimpleType.builtin (MPrimitive.unsignedLong))),
                           (27, THash.simple (MSimpleType.builtin (MPrimitive.anySimpleType))),
                           (29,
                            THash.simple
                              (MSimpleType.derived
                                8
                                { length := none,
                                  min_length := none,
                                  max_length := none,
                                  pattern := none,
                                  enumeration := none,
                                  white_space := none,
                                  min_inclusive := some "1",
                                  max_inclusive := some "5",
                                  min_exclusive := none,
                                  max_exclusive := none,
                                  total_digits := none,
                                  fraction_digits := none }
                                false)),
                           (28,
                            THash.simple
                              (MSimpleType.derived
                                8
                                { length := none,
                                  min_length := none,
                                  max_length := none,
                                  pattern := none,
                                  enumeration := none,
                                  white_space := none,
                                  min_inclusive := some "1",
                                  max_inclusive := some "5",
                                  min_exclusive := none,
                                  max_exclusive := none,
                                  total_digits := none,
                                  fraction_digits := none }
                                false))],
     elements := [],
     bufferComments := [],
     nextId := 30 }

/-- Schema state after also compiling element e of the determinism example. -/
def c3M2 : MSchema :=
   { typesSimple := [MSimpleType.builtin (MPrimitive.string),
                     MSimpleType.builtin (MPrimitive.uri),
                     MSimpleType.builtin (MPrimitive.dateTimestamp),
                     MSimpleType.builtin (MPrimitive.dateTime),
                     MSimpleType.builtin (MPrimitive.date),
                     MSimpleType.builtin (MPrimitive.time),
                     MSimpleType.builtin (MPrimitive.duration),
                     MSimpleType.builtin (MPrimitive.bool),
                     MSimpleType.builtin (MPrimitive.int),
                     MSimpleType.builtin (MPrimitive.float),
                     MSimpleType.builtin (MPrimitive.double),
                     MSimpleType.builtin (MPrimitive.short),
                     MSimpleType.builtin (MPrimitive.decimal),
                     MSimpleType.builtin (MPrimitive.idrefs),
                     MSimpleType.builtin (MPrimitive.idref),
                     MSimpleType.builtin (MPrimitive.id),
                     MSimpleType.builtin (MPrimitive.lang),
                     MSimpleType.builtin (MPrimitive.noColName),
                     MSimpleType.builtin (MPrimitive.intNeg),
                     MSimpleType.builtin (MPrimitive.intNonNeg),
                     MSimpleType.builtin (MPrimitive.intPos),
                     MSimpleType.builtin (MPrimitive.token),
                     MSimpleType.builtin (MPrimitive.nameTokens),
                     MSimpleType.builtin (MPrimitive.nameToken),
                     MSimpleType.builtin (MPrimitive.name),
                     MSimpleType.builtin (MPrimitive.base64Binary),
                     MSimpleType.builtin (MPrimitive.unsignedLong),
                     MSimpleType.builtin (MPrimitive.anySimpleType),
                     MSimpleType.derived
                       8
                       { length := none,
                         min_length := none,
                         max_length := none,
                         pattern := none,
                         enumeration := none,
                         white_space := none,
                         min_inclusive := some "1",
                         max_inclusive := some "5",
                         min_exclusive := none,
                         max_exclusive := none,
                         total_digits := none,
                         fraction_digits := none }
                       false],
     typesGroup := [],
     typesAttribute := [],
     mappingTypeIdName := [(0, ["String"]),
                           (1, ["URI"]),
                           (2, ["DateTimestamp"]),
                           (3, ["DateTime"]),
                           (4, ["Date"]),
                           (5, ["Time"]),
                           (6, ["Duration"]),
                           (7, ["Bool"]),
                           (8, ["Int"]),
                           (9, ["Float"]),
                           (10, ["Double"]),
                           (11, ["Short"]),
                           (12, ["Decimal"]),
                           (13, ["IDRefs"]),
                           (14, ["IDRef"]),
                           (15, ["ID"]),
                           (16, ["Lang"]),
                           (17, ["NoColName"]),
                           (18, ["IntNeg"]),
                           (19, ["IntNonNeg"]),
                           (20, ["IntPos"]),
                           (21, ["Token"]),
                           (22, ["NameTokens"]),
                           (23, ["NameToken"]),
                           (24, ["Name"]),
                           (25, ["Base64Binary"]),
                           (26, ["UnsignedLong"]),
                           (27, ["AnySimpleType"]),
                           (28, ["A"])],
     mappingTypeIdHash := [(0, THash.simple (MSimpleType.builtin (MPrimitive.string))),
                           (1, THash.simple (MSimpleType.builtin (MPrimitive.uri))),
                           (2, THash.simple (MSimpleType.builtin (MPrimitive.dateTimestamp))),
                           (3, THash.simple (MSimpleType.builtin (MPrimitive.dateTime))),
                           (4, THash.simple (MSimpleType.builtin (MPrimitive.date))),
                           (5, THash.simple (MSimpleType.builtin (MPrimitive.time))),
                           (6, THash.simple (MSimpleType.builtin (MPrimitive.duration))),
                           (7, THash.simple (MSimpleType.builtin (MPrimitive.bool))),
                           (8, THash.simple (MSimpleType.builtin (MPrimitive.int))),
                           (9, THash.simple (MSimpleType.builtin (MPrimitive.float))),
                           (10, THash.simple (MSimpleType.builtin (MPrimitive.double))),
                           (11, THash.simple (MSimpleType.builtin (MPrimitive.short))),
                           (12, THash.simple (MSimpleType.builtin (MPrimitive.decimal))),
                           (13, THash.simple (MSimpleType.builtin (MPrimitive.idrefs))),
                           (14, THash.simple (MSimpleType.builtin (MPrimitive.idref))),
                           (15, THash.simple (MSimpleType.builtin (MPrimitive.id))),
                           (16, THash.simple (MSimpleType.builtin (MPrimitive.lang))),
                           (17, THash.simple (MSimpleType.builtin (MPrimitive.noColName))),
                           (18, THash.simple (MSimpleType.builtin (MPrimitive.intNeg))),
                           (19, THash.simple (MSimpleType.builtin (MPrimitive.intNonNeg))),
                           (20, THash.simple (MSimpleType.builtin (MPrimitive.intPos))),
                           (21, THash.simple (MSimpleType.builtin (MPrimitive.token))),
                           (22, THash.simple (MSimpleType.builtin (MPrimitive.nameTokens))),
                           (23, THash.simple (MSimpleType.builtin (MPrimitive.nameToken))),
                           (24, THash.simple (MSimpleType.builtin (MPrimitive.name))),
                           (25, THash.simple (MSimpleType.builtin (MPrimitive.base64Binary))),
                           (26, THash.simple (MSimpleType.builtin (MPrimitive.unsignedLong))),
                           (27, THash.simple (MSimpleType.builtin (MPrimitive.anySimpleType))),
                           (29,
                            THash.simple
                              (MSimpleType.derived
                                8
                                { length := none,
                                  min_length := none,
                                  max_length := none,
                                  pattern := none,
                                  enumeration := none,
                                  white_space := none,
                                  min_inclusive := some "1",
                                  max_inclusive := some "5",
                                  min_exclusive := none,
                                  max_exclusive := none,
                                  total_digits := none,
                                  fraction_digits := none }
                                false)),
                           (28,
                            THash.simple
                              (MSimpleType.derived
                                8
                                { length := none,
                                  min_length := none,
                                  max_length := none,
                                  pattern := none,
                                  enumeration := none,
                                  white_space := none,
                                  min_inclusive := some "1",
                                  max_inclusive := some "5",
                                  min_exclusive := none,
                                  max_exclusive := none,
                                  total_digits := none,
                                  fraction_digits := none }
                                false)),
                           (30,
                            THash.elem
                              { name := "e",
                                attributes := [],
                                duplicity := Duplicity.single,
                                typing := MTypeRef.simple 29,
                                comments := [] })],
     elements := [{ name := "e",
                    attributes := [],
                    duplicity := Duplicity.single,
                    typing := MTypeRef.simple 29,
                    comments := [] }],
     bufferComments := [],
     nextId := 31 }

/-- The pre-registered schema evaluates to its literal snapshot. -/
theorem schemaDefault_eqL : schemaDefault = schemaDefaultL := rfl

/-- Claim C6.  The emitted name for a builtin reference is
xs: plus `map_primitive_to_xsd` of the strum display name.  The display
names of the -Int, +Int, Base64Binary, UnsignedLong and AnySimpleType
primitives are IntNeg, IntPos, Base64Binary, UnsignedLong, AnySimpleType;
`map_primitive_to_xsd` has no arm for any of them (its "-Int" and "+Int"
arms are dead keys no display ever produces), so the exporter emits
xs:IntNeg, xs:IntPos, xs:Base64Binary, xs:UnsignedLong, xs:AnySimpleType
where the table of the spec requires negativeInteger, nonNegativeInteger,
base64Binary, unsignedLong, anySimpleType.  In the pre-registered schema
the five builtins sit at ids 18, 20, 25, 26 and 27. -/
theorem c6_primitive_mapping_mismatch :
    (primitiveFromAst "-Int" = some .intNeg ∧
      schemaDefault.getSimpletype 18 = some (.builtin .intNeg) ∧
      getSimpleTypeXsdName schemaDefault 8 18 = .ok "xs:IntNeg" ∧
      specPrimitiveToXsd "-Int" = some "negativeInteger") ∧
    (primitiveFromAst "+Int" = some .intPos ∧
      schemaDefault.getSimpletype 20 = some (.builtin .intPos) ∧
      getSimpleTypeXsdName schemaDefault 8 20 = .ok "xs:IntPos" ∧
      specPrimitiveToXsd "+Int" = some "nonNegativeInteger") ∧
    (primitiveFromAst "Base64Binary" = some .base64Binary ∧
      getSimpleTypeXsdName schemaDefault 8 25 = .ok "xs:Base64Binary" ∧
      specPrimitiveToXsd "Base64Binary" = some "base64Binary") ∧
    (primitiveFromAst "UnsignedLong" = some .unsignedLong ∧
      getSimpleTypeXsdName schemaDefault 8 26 = .ok "xs:UnsignedLong" ∧
      specPrimitiveToXsd "UnsignedLong" = some "unsignedLong") ∧
    (primitiveFromAst "AnySimpleType" = some .anySimpleType ∧
      getSimpleTypeXsdName schemaDefault 8 27 = .ok "xs:AnySimpleType" ∧
      specPrimitiveToXsd "AnySimpleType" = some "anySimpleType") ∧
    "xs:IntNeg" ≠ "xs:negativeInteger" ∧ "xs:Base64Binary" ≠ "xs:base64Binary" := by
  rw [schemaDefault_eqL]
  exact ⟨⟨rfl, rfl, rfl, rfl⟩, ⟨rfl, rfl, rfl, rfl⟩, ⟨rfl, rfl, rfl⟩,
    ⟨rfl, rfl, rfl⟩, ⟨rfl, rfl, rfl⟩, by decide, by decide⟩

/-- Stage: compiling the Base typedef from the initial schema. -/
theorem s5_stage1 :
    compileTypeDefinition srcS5.schema 32 schemaDefaultL tdBase = .ok (.group 30, s5M1) := rfl

/-- Stage: compiling the Child typedef afterwards. -/
theorem s5_stage2 :
    compileTypeDefinition srcS5.schema 32 s5M1 tdChild = .ok (.group 33, s5M2) := rfl

/-- The full S5 pipeline run assembled from the stages. -/
theorem s5_compile : compile 32 srcS5 = .ok s5M2 := by
  have hty : srcS5.types = .ok [tdBase, tdChild] := rfl
  have hsort : tdSort [tdBase, tdChild] = [tdBase, tdChild] := rfl
  have hels : srcS5.schema.elementsTopLevel = [] := rfl
  simp only [compile, compileTypeDefinitions, hty, CResult.bind, hsort,
    compileTypeDefinitionsLoop, schemaDefault_eqL, s5_stage1, s5_stage2,
    compileElements, hels, compileElementsLoop]

/-- Claim C5.  On the scenario S5 input (Child inherits Base) the compiled
base reference of Child is the anonymous group id first allocated for the
hash of the Base group; `get_type_name_for_group` finds no name for it, so
the exporter takes its no-name fallback: the emitted complexType for Child
holds only the local sequence, and no xs:extension or xs:complexContent
appears anywhere in the output tree, against the claim (which the spec
states as scenario S5). -/
theorem c5_no_extension_emitted :
    compile 32 srcS5 = .ok s5M2 ∧
    exportSchemaTree s5M2 64 = .ok s5TreeL ∧
    (s5TreeL.children.map (fun c => (c.name, c.getAttr "name")) =
      [("xs:complexType", some "Base"), ("xs:complexType", some "Child")]) ∧
    ((s5TreeL.children.filter (fun c => c.getAttr "name" = some "Child")).map
        (fun c => c.children.map XElem.name) = [["xs:sequence"]]) ∧
    ((xelemNamesList [s5TreeL]).contains "xs:extension" = false) ∧
    ((xelemNamesList [s5TreeL]).contains "xs:complexContent" = false) ∧
    ((s5M2.typesGroup.filter (fun g => g.baseType.isSome)).map
        (fun g => g.baseType.bind (fun r => s5M2.getTypeNameForGroup r)) = [none]) :=
  ⟨s5_compile, rfl, rfl, rfl, by rfl, by rfl, rfl⟩

/-!
Claim C3: determinism of the output.
-/

/-- The structural hash of the derived type Int with bounds 1..5 (base id 8
is the pre-registered Int builtin). -/
def c3DerivedHash : THash :=
  .simple (.derived 8 { min_inclusive := some "1", max_inclusive := some "5" } false)

/-- Stage: compiling the faceted typedef A from the initial schema. -/
theorem c3_stage1 :
    compileTypeDefinition srcC3.schema 32 schemaDefaultL tdFacetA = .ok (.simple 29, c3M1) := rfl

/-- Stage: compiling element e afterwards. -/
theorem c3_stage2 :
    compileElement srcC3.schema 32 elFacetE c3M1 = .ok (30, c3M2) := rfl

/-- The full determinism-example pipeline run assembled from the stages. -/
theorem c3_compile : compile 32 srcC3 = .ok c3M2 := by
  have hty : srcC3.types = .ok [tdFacetA] := rfl
  have hsort : tdSort [tdFacetA] = [tdFacetA] := rfl
  have hels : srcC3.schema.elementsTopLevel = [elFacetE] := rfl
  simp only [compile, compileTypeDefinitions, hty, CResult.bind, hsort,
    compileTypeDefinitionsLoop, schemaDefault_eqL, c3_stage1,
    compileElements, hels, compileElementsLoop, c3_stage2]

/-- Claim C3.  After compiling A: Int with facet 1..5, two ids map to the
hash of the derived type: the anonymous id 29 (registered first) and the
preliminary id 28 named A.  `register_type_mapping` picks the first id the
hash-map iteration presents, so the reference stored for the structurally
identical element typing - and with it the emitted type attribute, A versus
xs:integer - depends on that iteration order: the insertion order and its
reverse (both orders a Rust HashMap may present; the reverse is a
permutation of the map) give different ids and different emitted names, so
the byte output is not determined by the input alone, against the claim. -/
theorem c3_order_dependent_output :
    compile 32 srcC3 = .ok c3M2 ∧
    c3M2.elements.map (fun e => e.typing) = [.simple 29] ∧
    firstIdForHash c3M2.mappingTypeIdHash c3DerivedHash = some 29 ∧
    firstIdForHash c3M2.mappingTypeIdHash.reverse c3DerivedHash = some 28 ∧
    c3M2.mappingTypeIdHash.reverse.Perm c3M2.mappingTypeIdHash ∧
    getSimpleTypeXsdName c3M2 8 29 = .ok "xs:integer" ∧
    getSimpleTypeXsdName c3M2 8 28 = .ok "A" ∧
    "xs:integer" ≠ "A" :=
  ⟨c3_compile, rfl, rfl, rfl, List.reverse_perm _, rfl, rfl, by decide⟩

/-!
Claim C2: the two-phase binding discipline of `compile_type_definition`.
-/

/-- The self-referential alias `type A = A`. -/
def tdSelfAlias : TypeDef :=
  .inline { typename := "A", isGeneric := false, typing := .typename (tnNonPrim "A") }

/-- Divergence of a compilation, expressed over the fuel: no fuel suffices. -/
def CompileDiverges (src : SourcedSchemaFile) : Prop :=
  ∀ fuel, compile fuel src = .outOfFuel

/-- The alias chase of `TypeDef::simple_type` never terminates on A = A. -/
theorem selfAlias_simpleTypeOf (fuel : Nat) :
    simpleTypeOf srcSelfAlias.schema fuel tdSelfAlias = .outOfFuel := by
  induction fuel with
  | zero => rfl
  | succ f ih =>
      exact (show simpleTypeOf srcSelfAlias.schema (f + 1) tdSelfAlias
          = simpleTypeOf srcSelfAlias.schema f tdSelfAlias from rfl).trans ih

/-- Hence classification diverges on A = A. -/
theorem selfAlias_typeVariant (fuel : Nat) :
    typeVariant srcSelfAlias.schema fuel tdSelfAlias = .outOfFuel := by
  simp only [typeVariant]
  rw [selfAlias_simpleTypeOf]
  rfl

/-- Hence `compile_type_definition` diverges on A = A. -/
theorem selfAlias_ctd (fuel : Nat) :
    compileTypeDefinition srcSelfAlias.schema fuel schemaDefault tdSelfAlias = .outOfFuel := by
  cases fuel with
  | zero => rfl
  | succ f =>
      have h1 : schemaDefault.preliminaryRefForTypename srcSelfAlias.schema tdSelfAlias f
          = .ok none := rfl
      have h2 : (({ schemaDefault with nextId := schemaDefault.nextId + 1
            }).registerTypeDefinitionName schemaDefault.nextId
              tdSelfAlias).idForTypeDefinition tdSelfAlias = some 28 := rfl
      have h3 : (({ schemaDefault with nextId := schemaDefault.nextId + 1
            }).registerTypeDefinitionName schemaDefault.nextId
              tdSelfAlias).preliminaryRefForTypename srcSelfAlias.schema tdSelfAlias f
          = .outOfFuel := by
        simp only [MSchema.preliminaryRefForTypename, h2, selfAlias_typeVariant]
      simp only [compileTypeDefinition, h1, h3]

/-- Counterexample to the termination consequence of claim C2: compiling the
recursive definition `type A = A` never terminates, at any fuel - the name
lookup happens only after `type_variant` has classified the definition, and
that classification chases the alias without consulting the bindings. -/
theorem c2_counterexample : CompileDiverges srcSelfAlias := by
  intro fuel
  have hty : srcSelfAlias.types = .ok [tdSelfAlias] := rfl
  have hsort : tdSort [tdSelfAlias] = [tdSelfAlias] := rfl
  have hloop : compileTypeDefinitionsLoop srcSelfAlias.schema fuel [tdSelfAlias] schemaDefault
      = .outOfFuel := by
    simp only [compileTypeDefinitionsLoop, selfAlias_ctd, CResult.bind]
  simp only [compile, compileTypeDefinitions, hty, CResult.bind, hsort, hloop]

/-- The pre-binding step of `compile_type_definition`: bump the id counter
and bind the definition name to the fresh id. -/
def preBindSchema (s : MSchema) (td : TypeDef) : MSchema :=
  ({ s with nextId := s.nextId + 1 }).registerTypeDefinitionName s.nextId td

/-- The body descent of `compile_type_definition` (inline or block). -/
def compileTypeDefBody (src : SchemaFile) (fuel : Nat) (td : TypeDef) (s : MSchema) :
    CResult (MTypeRef × MSchema) :=
  match td with
  | .inline d => compileInlineType src fuel d s
  | .block b =>
      (compileBlockDefinition src fuel b s).bind (fun gs => .ok (MTypeRef.group gs.1, gs.2))

/-- Appending a name makes the list contain it. -/
theorem contains_append_self (xs : List String) (nm : String) :
    (xs ++ [nm]).contains nm = true := by
  induction xs with
  | nil => simp
  | cons a rest ih => simpa using Or.inr ih

/-- Adding a fresh name to the entry of `id` makes that entry the first one
the name scan finds. -/
theorem find_addName (id : ObjId) (nm : String) :
    ∀ l : List (ObjId × List String),
      (∀ p ∈ l, p.2.contains nm = false) →
      (l.map (fun p => if p.1 = id then (p.1, p.2 ++ [nm]) else p)).find?
          (fun p => p.2.contains nm)
        = (l.find? (fun p => p.1 = id)).map
            (fun p => if p.1 = id then (p.1, p.2 ++ [nm]) else p) := by
  intro l
  induction l with
  | nil => intro _; rfl
  | cons p rest ih =>
      intro h
      by_cases hp : p.1 = id
      · have hmap : (fun q : ObjId × List String =>
            if q.1 = id then (q.1, q.2 ++ [nm]) else q) p = (p.1, p.2 ++ [nm]) := by
          simp [hp]
        simp only [List.map_cons, hmap]
        rw [List.find?_cons_of_pos _ (by simpa using contains_append_self p.2 nm),
          List.find?_cons_of_pos _ (by simpa using hp)]
        simp [hmap]
      · have hmap : (fun q : ObjId × List String =>
            if q.1 = id then (q.1, q.2 ++ [nm]) else q) p = p := by
          simp [hp]
        have hq : p.2.contains nm = false := h p (List.mem_cons_self p rest)
        simp only [List.map_cons, hmap]
        rw [List.find?_cons_of_neg _ (by rw [hq]; exact Bool.false_ne_true),
          List.find?_cons_of_neg _ (by simpa using hp)]
        exact ih (fun q hqmem => h q (List.mem_cons_of_mem p hqmem))

/-- `find?` skips a prefix in which it fails. -/
theorem find_append_none {α : Type} (l1 l2 : List α) (p : α → Bool)
    (h : l1.find? p = none) : (l1 ++ l2).find? p = l2.find? p := by
  induction l1 with
  | nil => rfl
  | cons a rest ih =>
      have hpa : ¬ p a = true := List.find?_eq_none.mp h a (List.mem_cons_self a rest)
      have hrest : rest.find? p = none :=
        List.find?_eq_none.mpr (fun x hx => List.find?_eq_none.mp h x (List.mem_cons_of_mem a hx))
      rw [List.cons_append, List.find?_cons_of_neg _ hpa]
      exact ih hrest

/-- `register_type_name` of an unbound name makes `id` the first id the name
scan of `id_for_type_definition` finds. -/
theorem registerTypeName_visible (s : MSchema) (id : ObjId) (nm : String)
    (h : s.mappingTypeIdName.find? (fun p => p.2.contains nm) = none) :
    (((s.registerTypeName id nm).mappingTypeIdName).find?
        (fun p => p.2.contains nm)).map Prod.fst = some id := by
  have hall : ∀ p ∈ s.mappingTypeIdName, p.2.contains nm = false := by
    intro p hp
    exact Bool.eq_false_iff.mpr (List.find?_eq_none.mp h p hp)
  cases hn : namesFor s.mappingTypeIdName id with
  | some ns =>
      obtain ⟨p0, hp0, hns⟩ : ∃ p0, s.mappingTypeIdName.find?
          (fun p => p.1 = id) = some p0 ∧ p0.2 = ns := by
        simp only [namesFor] at hn
        exact Option.map_eq_some'.mp hn
      have hp01 : p0.1 = id := by
        have := List.find?_some hp0
        simpa using this
      have hcont : ns.contains nm = false := hns ▸ hall p0 (List.mem_of_find?_eq_some hp0)
      have hnin : nm ∉ ns := by simpa using hcont
      have hlist : (s.registerTypeName id nm).mappingTypeIdName
          = s.mappingTypeIdName.map (fun p => if p.1 = id then (p.1, p.2 ++ [nm]) else p) := by
        simp [MSchema.registerTypeName, hn, hnin]
      rw [hlist, find_addName id nm s.mappingTypeIdName hall, hp0]
      simp [hp01]
  | none =>
      have hfn : s.mappingTypeIdName.find? (fun p => p.1 = id) = none := by
        simp only [namesFor] at hn
        exact Option.map_eq_none'.mp hn
      have hl1 : namesFor (s.mappingTypeIdName ++ [(id, [])]) id = some [] := by
        simp only [namesFor]
        rw [find_append_none _ _ _ hfn]
        simp
      have hall1 : ∀ p ∈ s.mappingTypeIdName ++ [(id, [])], p.2.contains nm = false := by
        intro p hp
        rcases List.mem_append.mp hp with hmem | hmem
        · exact hall p hmem
        · have hpe : p = (id, []) := by simpa using hmem
          rw [hpe]
          rfl
      have hlist : (s.registerTypeName id nm).mappingTypeIdName
          = (s.mappingTypeIdName ++ [(id, [])]).map
              (fun p : ObjId × List String => if p.1 = id then (p.1, p.2 ++ [nm]) else p) := by
        simp [MSchema.registerTypeName, hn, hl1]
      rw [hlist, find_addName id nm _ hall1, find_append_none _ _ _ hfn]
      simp

/-- The name bound by the pre-binding step is visible to the lookup. -/
theorem preBind_visible (s : MSchema) (td : TypeDef)
    (h : s.idForTypeDefinition td = none) :
    (preBindSchema s td).idForTypeDefinition td = some s.nextId := by
  have hfind : s.mappingTypeIdName.find?
      (fun p => p.2.contains td.identNonprim) = none := by
    simp only [MSchema.idForTypeDefinition] at h
    exact Option.map_eq_none'.mp h
  exact registerTypeName_visible { s with nextId := s.nextId + 1 } s.nextId
    td.identNonprim hfind

/-- In the unbound case, `compile_type_definition` compiles the body in the
pre-bound schema and only afterwards records the id-to-hash mapping. -/
theorem ctd_unbound_eq (src : SchemaFile) (f : Nat) (s : MSchema) (td : TypeDef)
    (v : TypeVariant)
    (h : s.idForTypeDefinition td = none)
    (hv : typeVariant src f td = .ok v) :
    compileTypeDefinition src (f + 1) s td =
      (compileTypeDefBody src f td (preBindSchema s td)).bind
        (fun ts => ts.2.registerPreliminaryIdType s.nextId ts.1) := by
  have h1 : s.preliminaryRefForTypename src td f = .ok none := by
    simp only [MSchema.preliminaryRefForTypename, h]
  have h2 : (preBindSchema s td).idForTypeDefinition td = some s.nextId :=
    preBind_visible s td h
  have h3 : (preBindSchema s td).preliminaryRefForTypename src td f
      = .ok (some (match v with
                   | .simple => MTypeRef.simple s.nextId
                   | .group => MTypeRef.group s.nextId)) := by
    cases v <;> simp only [MSchema.preliminaryRefForTypename, h2, hv]
  cases td with
  | inline d =>
      simp only [compileTypeDefinition, compileTypeDefBody, preBindSchema] at h3 ⊢
      simp only [h1, h3]
  | block b =>
      simp only [compileTypeDefinition, compileTypeDefBody, preBindSchema] at h3 ⊢
      simp only [h1, h3]

/-- A recursive reference whose name is already bound returns the bound
preliminary reference, leaving the schema untouched. -/
theorem typingRegular_bound (src : SchemaFile) (f : Nat) (s : MSchema) (n : String)
    (referred : TypeDef) (r : MTypeRef)
    (hf : src.findType n = some referred)
    (hp : s.preliminaryRefForTypename src referred f = .ok (some r)) :
    compileTypingRegular src (f + 1) ⟨.nonPrimitive n⟩ s = .ok (r, s) := by
  simp only [compileTypingRegular, hf, hp]

/-- Claim C2.  The binding discipline itself holds: (i) a bound name
short-circuits, the existing preliminary reference is returned and the
schema is untouched; (ii) in the unbound case the fresh id is the current
counter value and the source name is bound to it, visibly, before the
descent; (iii) the descent runs in the pre-bound schema and only its result
is recorded, via `register_preliminary_id_type`, against the fresh id; and
(iv) a recursive reference to a bound name returns the pre-allocated
reference without recompiling.  The termination consequence the claim draws
is nevertheless false, because the very lookup of parts (i) and (iv)
classifies the definition with `type_variant`, whose alias chase never
consults the bindings (see the divergence of the self alias A = A). -/
theorem c2_two_phase_binding :
    (∀ (src : SchemaFile) (f : Nat) (s : MSchema) (td : TypeDef) (r : MTypeRef),
        s.preliminaryRefForTypename src td f = .ok (some r) →
        compileTypeDefinition src (f + 1) s td = .ok (r, s)) ∧
    (∀ (s : MSchema) (td : TypeDef),
        s.idForTypeDefinition td = none →
        (preBindSchema s td).idForTypeDefinition td = some s.nextId) ∧
    (∀ (src : SchemaFile) (f : Nat) (s : MSchema) (td : TypeDef) (v : TypeVariant),
        s.idForTypeDefinition td = none →
        typeVariant src f td = .ok v →
        compileTypeDefinition src (f + 1) s td =
          (compileTypeDefBody src f td (preBindSchema s td)).bind
            (fun ts => ts.2.registerPreliminaryIdType s.nextId ts.1)) ∧
    (∀ (src : SchemaFile) (f : Nat) (s : MSchema) (n : String) (referred : TypeDef)
        (r : MTypeRef),
        src.findType n = some referred →
        s.preliminaryRefForTypename src referred f = .ok (some r) →
        compileTypingRegular src (f + 1) ⟨.nonPrimitive n⟩ s = .ok (r, s)) := by
  refine ⟨?_, preBind_visible, ctd_unbound_eq, typingRegular_bound⟩
  intro src f s td r h
  simp only [compileTypeDefinition, h]

/-- Witness for C2 on the faceted-alias source: A is unbound in the default
schema and bound in the intermediate schema, so all four parts apply. -/
theorem c2_two_phase_binding_witness :
    (c3M1.preliminaryRefForTypename srcC3.schema tdFacetA 31 = .ok (some (.simple 28)) ∧
      compileTypeDefinition srcC3.schema (31 + 1) c3M1 tdFacetA = .ok (.simple 28, c3M1)) ∧
    (schemaDefault.idForTypeDefinition tdFacetA = none ∧
      (preBindSchema schemaDefault tdFacetA).idForTypeDefinition tdFacetA
        = some schemaDefault.nextId) ∧
    (typeVariant srcC3.schema 31 tdFacetA = .ok .simple ∧
      compileTypeDefinition srcC3.schema (31 + 1) schemaDefault tdFacetA =
        (compileTypeDefBody srcC3.schema 31 tdFacetA
            (preBindSchema schemaDefault tdFacetA)).bind
          (fun ts => ts.2.registerPreliminaryIdType schemaDefault.nextId ts.1)) ∧
    (srcC3.schema.findType "A" = some tdFacetA ∧
      compileTypingRegular srcC3.schema (31 + 1) ⟨.nonPrimitive "A"⟩ c3M1
        = .ok (.simple 28, c3M1)) :=
  ⟨⟨rfl, c2_two_phase_binding.1 srcC3.schema 31 c3M1 tdFacetA (.simple 28) rfl⟩,
   ⟨rfl, c2_two_phase_binding.2.1 schemaDefault tdFacetA rfl⟩,
   ⟨rfl, c2_two_phase_binding.2.2.1 srcC3.schema 31 schemaDefault tdFacetA .simple rfl rfl⟩,
   ⟨rfl, c2_two_phase_binding.2.2.2 srcC3.schema 31 c3M1 "A" tdFacetA (.simple 28) rfl rfl⟩⟩


/-!
Claim C4: merged attributes of a group-typed element.
-/

/-- `find?` keeps a hit in the prefix. -/
theorem find_append_some {α : Type} (l1 l2 : List α) (p : α → Bool) (a : α)
    (h : l1.find? p = some a) : (l1 ++ l2).find? p = some a := by
  induction l1 with
  | nil => exact absurd h (by simp)
  | cons x rest ih =>
      by_cases hx : p x = true
      · rw [List.find?_cons_of_pos _ hx] at h
        rw [List.cons_append, List.find?_cons_of_pos _ hx]
        exact h
      · rw [List.find?_cons_of_neg _ hx] at h
        rw [List.cons_append, List.find?_cons_of_neg _ hx]
        exact ih h

/-- Replacing every binding of key `k` by `(k, v)` in place. -/
theorem find_map_replace (k : String) (v : ObjId) (k2 : String) :
    ∀ m : MAttributes,
      attrsFind (m.map (fun p => if p.1 = k then (k, v) else p)) k2
        = if k2 = k then (m.find? (fun p => p.1 = k)).map (fun _ => v)
          else attrsFind m k2 := by
  intro m
  induction m with
  | nil => by_cases hk : k2 = k <;> simp [attrsFind, hk]
  | cons p rest ih =>
      by_cases hp : p.1 = k
      · have hfp : (fun q : String × ObjId => if q.1 = k then (k, v) else q) p = (k, v) := by
          simp [hp]
        by_cases hk : k2 = k
        · subst hk
          simp only [List.map_cons, hfp, attrsFind]
          rw [List.find?_cons_of_pos _ (by simp), List.find?_cons_of_pos _ (by simpa using hp)]
          rfl
        · simp only [List.map_cons, hfp, attrsFind, if_neg hk]
          rw [List.find?_cons_of_neg _ (by simpa using fun h => hk h.symm),
            List.find?_cons_of_neg _ (by simpa using hp ▸ hk ∘ Eq.symm)]
          have := ih
          rw [if_neg hk] at this
          exact this
      · have hfp : (fun q : String × ObjId => if q.1 = k then (k, v) else q) p = p := by
          simp [hp]
        by_cases hpk2 : p.1 = k2
        · have hk : ¬ k2 = k := fun h => hp (h ▸ hpk2)
          simp only [List.map_cons, hfp, attrsFind, if_neg hk]
          rw [List.find?_cons_of_pos _ (by simpa using hpk2),
            List.find?_cons_of_pos _ (by simpa using hpk2)]
        · by_cases hk : k2 = k
          · subst hk
            simp only [List.map_cons, hfp, if_pos rfl] at ih ⊢
            simp only [attrsFind] at ih ⊢
            rw [List.find?_cons_of_neg _ (by simpa using hpk2),
              List.find?_cons_of_neg _ (by simpa using hp)]
            exact ih
          · simp only [List.map_cons, hfp, attrsFind, if_neg hk] at ih ⊢
            rw [List.find?_cons_of_neg _ (by simpa using hpk2),
              List.find?_cons_of_neg _ (by simpa using hpk2)]
            exact ih

/-- Appending a fresh binding. -/
theorem find_append_fresh (m : MAttributes) (k : String) (v : ObjId) (k2 : String)
    (h : m.find? (fun p => p.1 = k) = none) :
    attrsFind (m ++ [(k, v)]) k2 = if k2 = k then some v else attrsFind m k2 := by
  by_cases hk : k2 = k
  · subst hk
    simp only [attrsFind, if_pos rfl]
    rw [find_append_none _ _ _ h]
    simp
  · simp only [attrsFind, if_neg hk]
    cases hm : m.find? (fun p => p.1 = k2) with
    | some p0 => rw [find_append_some _ _ _ _ hm]
    | none =>
        rw [find_append_none _ _ _ hm]
        simp [List.find?, (Ne.symm hk : k ≠ k2)]

/-- HashMap-insert lookup: the inserted key reads back the new value, all
other keys are untouched. -/
theorem attrsInsert_find (m : MAttributes) (k : String) (v : ObjId) (k2 : String) :
    attrsFind (attrsInsert m k v) k2 = if k2 = k then some v else attrsFind m k2 := by
  by_cases hs : ((m.find? (fun p => p.1 = k)).isSome : Prop)
  · obtain ⟨p0, hp0⟩ := Option.isSome_iff_exists.mp hs
    simp only [attrsInsert, if_pos hs]
    rw [find_map_replace k v k2 m, hp0]
    by_cases hk : k2 = k <;> simp [hk]
  · have hnone : m.find? (fun p => p.1 = k) = none := Option.not_isSome_iff_eq_none.mp hs
    simp only [attrsInsert, if_neg hs]
    exact find_append_fresh m k v k2 hnone

/-- A key absent from the key list is not found. -/
theorem attrsFind_of_not_mem (m : MAttributes) (k : String)
    (h : k ∉ m.map Prod.fst) : attrsFind m k = none := by
  simp only [attrsFind]
  rw [List.find?_eq_none.mpr]
  · rfl
  · intro p hp hpk
    exact h (List.mem_map.mpr ⟨p, hp, by simpa using hpk⟩)

/-- Merge lookup: when the overriding side has no duplicate keys, a lookup
in the merge prefers its binding and falls back to the base. -/
theorem attrsMerge_find (k : String) :
    ∀ (other m : MAttributes), (other.map Prod.fst).Nodup →
      attrsFind (attrsMerge m other) k =
        match attrsFind other k with
        | some v => some v
        | none => attrsFind m k := by
  intro other
  induction other with
  | nil => intro m _; simp [attrsMerge, attrsFind, List.find?]
  | cons p0 rest ih =>
      intro m hnd
      obtain ⟨k0, v0⟩ := p0
      have hnd2 : (k0 :: rest.map Prod.fst).Nodup := by simpa using hnd
      have hnotin : k0 ∉ rest.map Prod.fst := (List.nodup_cons.mp hnd2).1
      have hndr : (rest.map Prod.fst).Nodup := (List.nodup_cons.mp hnd2).2
      have hstep : attrsMerge m ((k0, v0) :: rest) = attrsMerge (attrsInsert m k0 v0) rest := rfl
      rw [hstep, ih (attrsInsert m k0 v0) hndr]
      by_cases hk : k = k0
      · subst hk
        have hrest : attrsFind rest k = none := attrsFind_of_not_mem rest k hnotin
        rw [hrest]
        have hhd : attrsFind ((k, v0) :: rest) k = some v0 := by
          simp only [attrsFind]
          rw [List.find?_cons_of_pos _ (by simp)]
          rfl
        rw [hhd, attrsInsert_find, if_pos rfl]
      · have hhd : attrsFind ((k0, v0) :: rest) k = attrsFind rest k := by
          simp only [attrsFind]
          rw [List.find?_cons_of_neg _ (by simpa using fun h => hk h.symm)]
        rw [hhd, attrsInsert_find, if_neg hk]

/-- Claim C4.  For an element typed by a group reference, the effective
attribute set of the export is the merge of the group attributes with the
element attributes (i), and in that merge a lookup finds the element
binding when one exists and the group binding otherwise - element entries
override on name collision (ii, for override maps without duplicate keys,
as produced by the HashMap-backed `Attributes`). -/
theorem c4_merged_attributes :
    (∀ (e : MElement) (s : MSchema) (gr : ObjId) (g : MGroup),
        e.typing = .group gr → s.getGroup gr = some g →
        e.groupMergedAttributes s = .ok (attrsMerge g.attributes e.attributes)) ∧
    (∀ (m other : MAttributes) (k : String),
        (other.map Prod.fst).Nodup →
        attrsFind (attrsMerge m other) k =
          match attrsFind other k with
          | some v => some v
          | none => attrsFind m k) := by
  constructor
  · intro e s gr g ht hg
    simp only [MElement.groupMergedAttributes, ht, hg]
  · intro m other k hnd
    exact attrsMerge_find k other m hnd

/-- Group fixture for the C4 witness: attributes a and b. -/
def c4Group : MGroup :=
  { attributes := [("a", 1), ("b", 2)], ty := .sequence, mixed := false,
    abstractType := false, baseType := none, items := [] }

/-- Element fixture for the C4 witness: overrides b, adds c, typed by the
group at id 5. -/
def c4Elem : MElement :=
  { name := "e", attributes := [("b", 7), ("c", 9)], duplicity := .single,
    typing := .group 5 }

/-- Schema fixture holding the C4 group at id 5. -/
def c4Schema : MSchema :=
  { typesSimple := [], typesGroup := [c4Group], typesAttribute := [],
    mappingTypeIdName := [], mappingTypeIdHash := [(5, .group c4Group)],
    elements := [c4Elem], bufferComments := [], nextId := 6 }

/-- Witness for C4: on the fixture, the merge is computed and the override
as well as the fallback lookups behave as claimed. -/
theorem c4_merged_attributes_witness :
    (c4Elem.typing = .group 5 ∧ c4Schema.getGroup 5 = some c4Group ∧
      c4Elem.groupMergedAttributes c4Schema
        = .ok (attrsMerge c4Group.attributes c4Elem.attributes)) ∧
    ((c4Elem.attributes.map Prod.fst).Nodup ∧
      attrsFind (attrsMerge c4Group.attributes c4Elem.attributes) "b" =
        match attrsFind c4Elem.attributes "b" with
        | some v => some v
        | none => attrsFind c4Group.attributes "b") ∧
    attrsMerge c4Group.attributes c4Elem.attributes = [("a", 1), ("b", 7), ("c", 9)] :=
  ⟨⟨rfl, rfl, c4_merged_attributes.1 c4Elem c4Schema 5 c4Group rfl rfl⟩,
   ⟨by decide,
    c4_merged_attributes.2 c4Group.attributes c4Elem.attributes "b" (by decide)⟩,
   rfl⟩

/-!
Claim C7: shorthand facets by ultimate base primitive.
-/

/-- Do-notation bind of `CResult` is `CResult.bind`. -/
theorem cresultBindEq {A B : Type} (x : CResult A) (f : A → CResult B) :
    x >>= f = x.bind f := rfl

/-- Claim C7.  A single shorthand facet item is lowered according to the
base primitive: a String base yields length (coinciding bounds),
minLength/maxLength (two distinct bounds) or the single present bound; the
numeric bases Int, Short, Float, Double and Decimal copy the present bounds
into minInclusive/maxInclusive; every other base primitive is an error. -/
theorem c7_facet_shorthand :
    (∀ (sh : FacetShorthand) (mn : String) (n : Nat),
        parseRange sh.value = ⟨some mn, some mn⟩ → parseUsize mn = some n →
        compileFacets ⟨some [.shorthand sh]⟩ .string = .ok { length := some n }) ∧
    (∀ (sh : FacetShorthand) (mn mx : String) (a b : Nat),
        parseRange sh.value = ⟨some mn, some mx⟩ → mn ≠ mx →
        parseUsize mn = some a → parseUsize mx = some b →
        compileFacets ⟨some [.shorthand sh]⟩ .string
          = .ok { min_length := some a, max_length := some b }) ∧
    (∀ (sh : FacetShorthand) (mn : String) (a : Nat),
        parseRange sh.value = ⟨some mn, none⟩ → parseUsize mn = some a →
        compileFacets ⟨some [.shorthand sh]⟩ .string = .ok { min_length := some a }) ∧
    (∀ (sh : FacetShorthand) (mx : String) (b : Nat),
        parseRange sh.value = ⟨none, some mx⟩ → parseUsize mx = some b →
        compileFacets ⟨some [.shorthand sh]⟩ .string = .ok { max_length := some b }) ∧
    (∀ (sh : FacetShorthand) (bp : MPrimitive),
        bp ∈ [MPrimitive.int, .short, .float, .double, .decimal] →
        compileFacets ⟨some [.shorthand sh]⟩ bp
          = .ok { min_inclusive := (parseRange sh.value).min,
                  max_inclusive := (parseRange sh.value).max }) ∧
    (∀ (sh : FacetShorthand) (bp : MPrimitive),
        bp ∉ [MPrimitive.string, .int, .short, .float, .double, .decimal] →
        compileFacets ⟨some [.shorthand sh]⟩ bp
          = .err "Shorthand range syntax not supported for this base type") := by
  refine ⟨?_, ?_, ?_, ?_, ?_, ?_⟩
  · intro sh mn n hr hp
    simp [compileFacets, compileFacetsLoop, compileFacetItem, hr, hp, cresultBindEq, CResult.bind]
  · intro sh mn mx a b hr hne hpa hpb
    simp [compileFacets, compileFacetsLoop, compileFacetItem, hr, hne, hpa, hpb, cresultBindEq, CResult.bind]
  · intro sh mn a hr hp
    simp [compileFacets, compileFacetsLoop, compileFacetItem, hr, hp, cresultBindEq, CResult.bind]
  · intro sh mx b hr hp
    simp [compileFacets, compileFacetsLoop, compileFacetItem, hr, hp, cresultBindEq, CResult.bind]
  · intro sh bp hbp
    fin_cases hbp <;>
      cases hmin : (parseRange sh.value).min <;> cases hmax : (parseRange sh.value).max <;>
        simp [compileFacets, compileFacetsLoop, compileFacetItem, hmin, hmax, cresultBindEq, CResult.bind]
  · intro sh bp hbp
    cases bp
    case string => exact absurd (by decide) hbp
    case int => exact absurd (by decide) hbp
    case short => exact absurd (by decide) hbp
    case float => exact absurd (by decide) hbp
    case double => exact absurd (by decide) hbp
    case decimal => exact absurd (by decide) hbp
    all_goals rfl

/-- Witness for C7: concrete shorthand items 7, 5..10, 5.., ..10 under the
String, Int and Boolean bases. -/
theorem c7_facet_shorthand_witness :
    (parseRange "7" = ⟨some "7", some "7"⟩ ∧ parseUsize "7" = some 7 ∧
      compileFacets ⟨some [.shorthand ⟨"7"⟩]⟩ .string = .ok { length := some 7 }) ∧
    (parseRange "5..10" = ⟨some "5", some "10"⟩ ∧ "5" ≠ "10" ∧
      parseUsize "5" = some 5 ∧ parseUsize "10" = some 10 ∧
      compileFacets ⟨some [.shorthand ⟨"5..10"⟩]⟩ .string
        = .ok { min_length := some 5, max_length := some 10 }) ∧
    (parseRange "5.." = ⟨some "5", none⟩ ∧
      compileFacets ⟨some [.shorthand ⟨"5.."⟩]⟩ .string = .ok { min_length := some 5 }) ∧
    (parseRange "..10" = ⟨none, some "10"⟩ ∧
      compileFacets ⟨some [.shorthand ⟨"..10"⟩]⟩ .string = .ok { max_length := some 10 }) ∧
    ((MPrimitive.int ∈ [MPrimitive.int, .short, .float, .double, .decimal]) ∧
      compileFacets ⟨some [.shorthand ⟨"5..10"⟩]⟩ .int
        = .ok { min_inclusive := some "5", max_inclusive := some "10" }) ∧
    ((MPrimitive.bool ∉ [MPrimitive.string, .int, .short, .float, .double, .decimal]) ∧
      compileFacets ⟨some [.shorthand ⟨"5..10"⟩]⟩ .bool
        = .err "Shorthand range syntax not supported for this base type") :=
  ⟨⟨rfl, rfl, c7_facet_shorthand.1 ⟨"7"⟩ "7" 7 rfl rfl⟩,
   ⟨rfl, by decide, rfl, rfl,
    c7_facet_shorthand.2.1 ⟨"5..10"⟩ "5" "10" 5 10 rfl (by decide) rfl rfl⟩,
   ⟨rfl, c7_facet_shorthand.2.2.1 ⟨"5.."⟩ "5" 5 rfl rfl⟩,
   ⟨rfl, c7_facet_shorthand.2.2.2.1 ⟨"..10"⟩ "10" 10 rfl rfl⟩,
   ⟨by decide, c7_facet_shorthand.2.2.2.2.1 ⟨"5..10"⟩ .int (by decide)⟩,
   ⟨by decide, c7_facet_shorthand.2.2.2.2.2 ⟨"5..10"⟩ .bool (by decide)⟩⟩

/-!
Claim C9: union members must be simple types.
-/

/-- The inserted value is in the table after `tmInsert`. -/
theorem tmInsert_contains {α : Type} [DecidableEq α] (l : List α) (v : α) :
    (tmInsert l v).contains v = true := by
  simp only [tmInsert]
  by_cases hv : v ∈ l
  · simp [hv]
  · simp [hv]

/-- Successful member loops preserve the member count. -/
theorem unionMembers_length (src : SchemaFile) :
    ∀ (f : Nat) (ms : List UnionMember) (s : MSchema) (refs : List ObjId) (s2 : MSchema),
      compileUnionMembers src f ms s = .ok (refs, s2) → refs.length = ms.length := by
  intro f
  induction f with
  | zero => intro ms s refs s2 h; exact absurd h (by simp [compileUnionMembers])
  | succ f ih =>
      intro ms s refs s2 h
      cases ms with
      | nil =>
          simp only [compileUnionMembers] at h
          cases h
          rfl
      | cons m rest =>
          cases hone : compileUnionMemberOne src f m s with
          | ok p =>
              obtain ⟨r, s1⟩ := p
              cases r with
              | simple rr =>
                  simp only [compileUnionMembers, hone] at h
                  cases hrest : compileUnionMembers src f rest s1 with
                  | ok q =>
                      rw [hrest] at h
                      simp only [CResult.bind] at h
                      cases h
                      simpa using ih rest s1 q.1 q.2 (by rw [hrest])
                  | err m2 => rw [hrest] at h; simp [CResult.bind] at h
                  | panicked m2 => rw [hrest] at h; simp [CResult.bind] at h
                  | outOfFuel => rw [hrest] at h; simp [CResult.bind] at h
              | group rr =>
                  simp only [compileUnionMembers, hone] at h
                  simp at h
          | err m2 =>
              simp only [compileUnionMembers, hone] at h
              simp at h
          | panicked m2 =>
              simp only [compileUnionMembers, hone] at h
              simp at h
          | outOfFuel =>
              simp only [compileUnionMembers, hone] at h
              simp at h

/-- `register_simple_type` always succeeds and the registered simple type is
present in the table afterwards. -/
theorem registerSimpleType_ok (s : MSchema) (st : MSimpleType) :
    ∃ rid s3, s.registerSimpleType st = .ok (rid, s3) ∧
      s3.typesSimple.contains st = true := by
  have hht : (({ s with typesSimple := tmInsert s.typesSimple st }) :
      MSchema).hasTypeDefinition (.simple st) = true := tmInsert_contains _ _
  cases hfi : firstIdForHash s.mappingTypeIdHash (.simple st) with
  | some id =>
      refine ⟨id, { s with typesSimple := tmInsert s.typesSimple st }, ?_,
        tmInsert_contains _ _⟩
      simp only [MSchema.registerSimpleType, MSchema.registerTypeMapping]
      rw [if_pos hht]
      rw [hfi]
  | none =>
      refine ⟨s.nextId,
        { s with typesSimple := tmInsert s.typesSimple st
                 mappingTypeIdHash := s.mappingTypeIdHash ++ [(s.nextId, .simple st)]
                 nextId := s.nextId + 1 }, ?_, tmInsert_contains _ _⟩
      simp only [MSchema.registerSimpleType, MSchema.registerTypeMapping]
      rw [if_pos hht]
      rw [hfi]

/-- Compiled member lists end in a registered `SimpleType::Union`. -/
theorem typeUnion_registers (src : SchemaFile) (f : Nat) (u : TypeUnion) (s : MSchema)
    (refs : List ObjId) (s2 : MSchema)
    (h : compileUnionMembers src f u.members s = .ok (refs, s2)) :
    ∃ rid s3, compileTypeUnion src (f + 1) u s = .ok (.simple rid, s3) ∧
      s3.typesSimple.contains (MSimpleType.union refs) = true := by
  obtain ⟨rid, s3, hreg, hcont⟩ := registerSimpleType_ok s2 (.union refs)
  refine ⟨rid, s3, ?_, hcont⟩
  simp only [compileTypeUnion, h, CResult.bind, hreg]

/-- Claim C9.  The member loop of `compile_type_union` rejects a member
compiling to a complex group with the `UnionContainsGroup` error (i), and
propagates a failure of the remaining members (ii); a successful loop
compiles the head first and keeps the authored order (iii) and produces
exactly one reference per member (iv); the member references are then
registered as a `SimpleType::Union` (v). -/
theorem c9_union_members :
    (∀ (src : SchemaFile) (f : Nat) (m : UnionMember) (rest : List UnionMember)
        (s s1 : MSchema) (gid : ObjId),
        compileUnionMemberOne src f m s = .ok (.group gid, s1) →
        compileUnionMembers src (f + 1) (m :: rest) s
          = .err "Union members must be simple types") ∧
    (∀ (src : SchemaFile) (f : Nat) (m : UnionMember) (rest : List UnionMember)
        (s s1 : MSchema) (r : ObjId) (msg : String),
        compileUnionMemberOne src f m s = .ok (.simple r, s1) →
        compileUnionMembers src f rest s1 = .err msg →
        compileUnionMembers src (f + 1) (m :: rest) s = .err msg) ∧
    (∀ (src : SchemaFile) (f : Nat) (m : UnionMember) (rest : List UnionMember)
        (s : MSchema) (out : List ObjId × MSchema),
        compileUnionMembers src (f + 1) (m :: rest) s = .ok out →
        ∃ r s1 restRefs, compileUnionMemberOne src f m s = .ok (.simple r, s1) ∧
          compileUnionMembers src f rest s1 = .ok (restRefs, out.2) ∧
          out.1 = r :: restRefs) ∧
    (∀ (src : SchemaFile) (f : Nat) (ms : List UnionMember) (s : MSchema)
        (refs : List ObjId) (s2 : MSchema),
        compileUnionMembers src f ms s = .ok (refs, s2) → refs.length = ms.length) ∧
    (∀ (src : SchemaFile) (f : Nat) (u : TypeUnion) (s : MSchema)
        (refs : List ObjId) (s2 : MSchema),
        compileUnionMembers src f u.members s = .ok (refs, s2) →
        ∃ rid s3, compileTypeUnion src (f + 1) u s = .ok (.simple rid, s3) ∧
          s3.typesSimple.contains (MSimpleType.union refs) = true) := by
  refine ⟨?_, ?_, ?_, fun src f ms s refs s2 h => unionMembers_length src f ms s refs s2 h,
    fun src f u s refs s2 h => typeUnion_registers src f u s refs s2 h⟩
  · intro src f m rest s s1 gid h
    simp only [compileUnionMembers, h]
  · intro src f m rest s s1 r msg h1 h2
    simp only [compileUnionMembers, h1, h2, CResult.bind]
  · intro src f m rest s out hout
    cases hone : compileUnionMemberOne src f m s with
    | ok p =>
        obtain ⟨r, s1⟩ := p
        cases r with
        | simple rr =>
            simp only [compileUnionMembers, hone] at hout
            cases hrest : compileUnionMembers src f rest s1 with
            | ok q =>
                obtain ⟨qr, qs⟩ := q
                rw [hrest] at hout
                simp only [CResult.bind] at hout
                cases hout
                exact ⟨rr, s1, qr, rfl, hrest, rfl⟩
            | err m2 => rw [hrest] at hout; simp [CResult.bind] at hout
            | panicked m2 => rw [hrest] at hout; simp [CResult.bind] at hout
            | outOfFuel => rw [hrest] at hout; simp [CResult.bind] at hout
        | group rr =>
            simp only [compileUnionMembers, hone] at hout
            simp at hout
    | err m2 =>
        simp only [compileUnionMembers, hone] at hout
        simp at hout
    | panicked m2 =>
        simp only [compileUnionMembers, hone] at hout
        simp at hout
    | outOfFuel =>
        simp only [compileUnionMembers, hone] at hout
        simp at hout

/-- Witness for C9: a union member naming the block type Base is rejected,
failures propagate past the simple member Int, and the union of Int and
String is compiled in authored order and registered. -/
theorem c9_union_members_witness :
    (compileUnionMemberOne srcS5.schema 35 (.typeName (tnNonPrim "Base")) schemaDefaultL
        = .ok (.group 30, s5M1) ∧
      compileUnionMembers srcS5.schema 36 [.typeName (tnNonPrim "Base")] schemaDefaultL
        = .err "Union members must be simple types") ∧
    (compileUnionMemberOne srcS5.schema 35 (.typeName (tnPrim "Int")) schemaDefaultL
        = .ok (.simple 8, schemaDefaultL) ∧
      compileUnionMembers srcS5.schema 35 [.var "T"] schemaDefaultL
        = .err "Union members with type variables are not yet supported" ∧
      compileUnionMembers srcS5.schema 36 [.typeName (tnPrim "Int"), .var "T"] schemaDefaultL
        = .err "Union members with type variables are not yet supported") ∧
    (compileUnionMembers srcS5.schema 36
        [.typeName (tnPrim "Int"), .typeName (tnPrim "String")] schemaDefaultL
        = .ok ([8, 0], schemaDefaultL) ∧
      (∃ r s1 restRefs,
        compileUnionMemberOne srcS5.schema 35 (.typeName (tnPrim "Int")) schemaDefaultL
          = .ok (.simple r, s1) ∧
        compileUnionMembers srcS5.schema 35 [.typeName (tnPrim "String")] s1
          = .ok (restRefs, schemaDefaultL) ∧
        ([8, 0] : List ObjId) = r :: restRefs)) ∧
    ([8, 0] : List ObjId).length
      = [UnionMember.typeName (tnPrim "Int"), .typeName (tnPrim "String")].length ∧
    (∃ rid s3,
      compileTypeUnion srcS5.schema 37
          ⟨[.typeName (tnPrim "Int"), .typeName (tnPrim "String")]⟩ schemaDefaultL
        = .ok (.simple rid, s3) ∧
      s3.typesSimple.contains (MSimpleType.union [8, 0]) = true) :=
  ⟨⟨rfl, c9_union_members.1 srcS5.schema 35 (.typeName (tnNonPrim "Base")) []
      schemaDefaultL s5M1 30 rfl⟩,
   ⟨rfl, rfl, c9_union_members.2.1 srcS5.schema 35 (.typeName (tnPrim "Int")) [.var "T"]
      schemaDefaultL schemaDefaultL 8
      "Union members with type variables are not yet supported" rfl rfl⟩,
   ⟨rfl, c9_union_members.2.2.1 srcS5.schema 35 (.typeName (tnPrim "Int"))
      [.typeName (tnPrim "String")] schemaDefaultL ([8, 0], schemaDefaultL) rfl⟩,
   c9_union_members.2.2.2.1 srcS5.schema 36
     [.typeName (tnPrim "Int"), .typeName (tnPrim "String")] schemaDefaultL
     [8, 0] schemaDefaultL rfl,
   c9_union_members.2.2.2.2 srcS5.schema 36
     ⟨[.typeName (tnPrim "Int"), .typeName (tnPrim "String")]⟩ schemaDefaultL
     [8, 0] schemaDefaultL rfl⟩

/-!
Claim C10: structurally shared top level elements are local and omitted.
-/

/-- Inversion of a successful `CResult` bind. -/
theorem cbind_ok {A B : Type} (x : CResult A) (f : A → CResult B) (b : B)
    (h : x.bind f = .ok b) : ∃ a, x = .ok a ∧ f a = .ok b := by
  cases x with
  | ok a => exact ⟨a, rfl, h⟩
  | err m => simp [CResult.bind] at h
  | panicked m => simp [CResult.bind] at h
  | outOfFuel => simp [CResult.bind] at h

/-- A serialized top level element is an xs:element node carrying the
element name. -/
theorem exportElement_shape (s : MSchema) (fuel : Nat) (nm : String) (el : MElement)
    (c : XElem) (h : exportElement s fuel nm el = .ok c) :
    c.name = "xs:element" ∧ c.getAttr "name" = some nm := by
  simp only [exportElement] at h
  obtain ⟨ma, hma, h⟩ := cbind_ok _ _ _ h
  cases ht : el.typing with
  | group gref =>
      simp only [ht] at h
      cases hg : s.getGroup gref with
      | some gt =>
          simp only [hg] at h
          obtain ⟨content, hc, h⟩ := cbind_ok _ _ _ h
          obtain ⟨attrElems, ha, h⟩ := cbind_ok _ _ _ h
          cases h
          cases hdm : el.duplicity.maxOccurs <;> simp only [hdm] <;> exact ⟨rfl, rfl⟩
      | none =>
          simp only [hg] at h
          split at h
          · obtain ⟨attrElems, ha, h⟩ := cbind_ok _ _ _ h
            cases h
            cases hdm : el.duplicity.maxOccurs <;> simp only [hdm] <;> exact ⟨rfl, rfl⟩
          · cases h
            cases hdm : el.duplicity.maxOccurs <;> simp only [hdm] <;> exact ⟨rfl, rfl⟩
  | simple simpleRef =>
      simp only [ht] at h
      cases hst : s.getSimpletype simpleRef with
      | none => simp only [hst] at h; simp at h
      | some st =>
          simp only [hst] at h
          split at h
          · obtain ⟨contentChild, hcc, h⟩ := cbind_ok _ _ _ h
            cases h
            cases hdm : el.duplicity.maxOccurs <;> simp only [hdm] <;> exact ⟨rfl, rfl⟩
          · split at h
            · obtain ⟨cc, hcc, h⟩ := cbind_ok _ _ _ h
              cases h
              cases hdm : el.duplicity.maxOccurs <;> simp only [hdm] <;> exact ⟨rfl, rfl⟩
            · obtain ⟨tn, htn, h⟩ := cbind_ok _ _ _ h
              cases h
              cases hdm : el.duplicity.maxOccurs <;> simp only [hdm] <;> exact ⟨rfl, rfl⟩

/-- A serialized named simple type is an xs:simpleType node. -/
theorem exportSimpleType_shape (s : MSchema) (fuel : Nat) (nm : String)
    (st : MSimpleType) (c : XElem) (h : exportSimpleType s fuel nm st = .ok c) :
    c.name = "xs:simpleType" := by
  cases st with
  | derived bref r fl =>
      simp only [exportSimpleType] at h
      obtain ⟨bn, hb, h⟩ := cbind_ok _ _ _ h
      cases h
      rfl
  | union mts =>
      simp only [exportSimpleType] at h
      obtain ⟨ms, hm, h⟩ := cbind_ok _ _ _ h
      cases h
      rfl
  | list it fl =>
      simp only [exportSimpleType] at h
      obtain ⟨tn, htn, h⟩ := cbind_ok _ _ _ h
      cases h
      rfl
  | builtin p =>
      simp only [exportSimpleType] at h
      cases h
      rfl

/-- A serialized named complex type is an xs:complexType node. -/
theorem exportComplexType_shape (s : MSchema) (fuel : Nat) (nm : String)
    (g : MGroup) (c : XElem) (h : exportComplexType s fuel nm g = .ok c) :
    c.name = "xs:complexType" := by
  simp only [exportComplexType] at h
  cases hb : g.baseType with
  | some baseRef =>
      simp only [hb] at h
      cases hn : s.getTypeNameForGroup baseRef with
      | some bn =>
          simp only [hn] at h
          obtain ⟨lc, hlc, h⟩ := cbind_ok _ _ _ h
          cases h
          cases habs : g.abstractType <;> rfl
      | none =>
          simp only [hn] at h
          obtain ⟨cc, hcc, h⟩ := cbind_ok _ _ _ h
          cases h
          cases habs : g.abstractType <;> rfl
  | none =>
      simp only [hb] at h
      obtain ⟨cc, hcc, h⟩ := cbind_ok _ _ _ h
      cases h
      cases habs : g.abstractType <;> rfl

/-- The named-simple-type pass only adds xs:simpleType children. -/
theorem exportNamedSimpleTypes_children (s : MSchema) (fuel : Nat) :
    ∀ (nms : List String) (acc out : XElem),
      exportNamedSimpleTypes s fuel nms acc = .ok out →
      ∀ c ∈ out.children, c ∈ acc.children ∨ c.name = "xs:simpleType" := by
  intro nms
  induction nms with
  | nil =>
      intro acc out h c hc
      simp only [exportNamedSimpleTypes] at h
      cases h
      exact Or.inl hc
  | cons nm rest ih =>
      intro acc out h c hc
      cases hg : s.getSimpletypeByName nm with
      | some st =>
          simp only [exportNamedSimpleTypes, hg] at h
          split at h
          · obtain ⟨ce, hce, h⟩ := cbind_ok _ _ _ h
            rcases ih (acc.withChild ce) out h c hc with hin | hn
            · have hin2 : c ∈ acc.children ∨ c = ce := by
                simpa [XElem.withChild] using hin
              rcases hin2 with h1 | h1
              · exact Or.inl h1
              · exact Or.inr (h1 ▸ exportSimpleType_shape s fuel nm st ce hce)
            · exact Or.inr hn
          · exact ih acc out h c hc
      | none =>
          simp only [exportNamedSimpleTypes, hg] at h
          exact ih acc out h c hc

/-- The named-complex-type pass only adds xs:complexType children. -/
theorem exportNamedComplexTypes_children (s : MSchema) (fuel : Nat) :
    ∀ (nms : List String) (acc out : XElem),
      exportNamedComplexTypes s fuel nms acc = .ok out →
      ∀ c ∈ out.children, c ∈ acc.children ∨ c.name = "xs:complexType" := by
  intro nms
  induction nms with
  | nil =>
      intro acc out h c hc
      simp only [exportNamedComplexTypes] at h
      cases h
      exact Or.inl hc
  | cons nm rest ih =>
      intro acc out h c hc
      cases hg : s.getGroupByName nm with
      | some g =>
          simp only [exportNamedComplexTypes, hg] at h
          obtain ⟨ce, hce, h⟩ := cbind_ok _ _ _ h
          rcases ih (acc.withChild ce) out h c hc with hin | hn
          · have hin2 : c ∈ acc.children ∨ c = ce := by
              simpa [XElem.withChild] using hin
            rcases hin2 with h1 | h1
            · exact Or.inl h1
            · exact Or.inr (h1 ▸ exportComplexType_shape s fuel nm g ce hce)
          · exact Or.inr hn
      | none =>
          simp only [exportNamedComplexTypes, hg] at h
          exact ih acc out h c hc

/-- The root-element pass only adds xs:element children named after the
listed elements. -/
theorem exportRootElements_children (s : MSchema) (fuel : Nat) :
    ∀ (els : List MElement) (acc out : XElem),
      exportRootElements s fuel els acc = .ok out →
      ∀ c ∈ out.children, c ∈ acc.children ∨
        (c.name = "xs:element" ∧ ∃ el, el ∈ els ∧ c.getAttr "name" = some el.name) := by
  intro els
  induction els with
  | nil =>
      intro acc out h c hc
      simp only [exportRootElements] at h
      cases h
      exact Or.inl hc
  | cons el rest ih =>
      intro acc out h c hc
      simp only [exportRootElements] at h
      obtain ⟨ce, hce, h⟩ := cbind_ok _ _ _ h
      rcases ih (acc.withChild ce) out h c hc with hin | hn
      · have hin2 : c ∈ acc.children ∨ c = ce := by
          simpa [XElem.withChild] using hin
        rcases hin2 with h1 | h1
        · exact Or.inl h1
        · obtain ⟨hname, hattr⟩ := exportElement_shape s fuel el.name el ce hce
          exact Or.inr ⟨h1 ▸ hname, el, List.mem_cons_self el rest, h1 ▸ hattr⟩
      · obtain ⟨hname, el2, hmem, hattr⟩ := hn
        exact Or.inr ⟨hname, el2, List.mem_cons_of_mem el hmem, hattr⟩

/-- Insertion-sort membership (one insertion). -/
theorem mem_elInsertSortedByName (e x : MElement) :
    ∀ l, x ∈ elInsertSortedByName e l → x = e ∨ x ∈ l := by
  intro l
  induction l with
  | nil =>
      intro h
      simp only [elInsertSortedByName] at h
      exact Or.inl (by simpa using h)
  | cons a as ih =>
      intro h
      simp only [elInsertSortedByName] at h
      split at h
      · rcases List.mem_cons.mp h with h1 | h1
        · exact Or.inr (h1 ▸ List.mem_cons_self a as)
        · rcases ih h1 with h2 | h2
          · exact Or.inl h2
          · exact Or.inr (List.mem_cons_of_mem a h2)
      · rcases List.mem_cons.mp h with h1 | h1
        · exact Or.inl h1
        · exact Or.inr h1

/-- The element sort does not invent elements. -/
theorem mem_elSortByName (x : MElement) : ∀ l, x ∈ elSortByName l → x ∈ l := by
  intro l
  induction l with
  | nil =>
      intro h
      simp only [elSortByName] at h
      exact h
  | cons a as ih =>
      intro h
      rcases mem_elInsertSortedByName a x (elSortByName as) h with h1 | h1
      · exact h1 ▸ List.mem_cons_self a as
      · exact List.mem_cons_of_mem a (ih h1)

/-- Claim C10.  A top level element that is structurally identical to an
element already interned is registered to the same id with the schema
untouched (i); an element whose reference appears among a group's items is
found by the containment scan (ii) and classified local (iii); a local
element is excluded from the root element list (iv); and, when the element
name is unambiguous, no top level xs:element of the exported tree carries
its name (v). -/
theorem c10_shared_elements_local :
    (∀ (s : MSchema) (e : MElement) (i : ObjId),
        e ∈ s.elements → firstIdForHash s.mappingTypeIdHash (.elem e) = some i →
        s.registerElement e = .ok (i, s)) ∧
    (∀ (s : MSchema) (fuel : Nat) (i : ObjId) (rest : List MGroupItem),
        groupItemsContain s (fuel + 1) (MGroupItem.element i :: rest) i = .ok true) ∧
    (∀ (s : MSchema) (e : MElement) (i : ObjId) (fuel : Nat),
        s.getElementRef e = some i →
        isLocalScan s fuel s.typesGroup i = .ok true →
        e.isLocal s fuel = .ok true) ∧
    (∀ (s : MSchema) (e : MElement) (fuel : Nat) (locals roots : List MElement),
        s.getElementsLocal fuel = .ok locals → e ∈ locals →
        s.getElementsRoot fuel = .ok roots → e ∉ roots) ∧
    (∀ (s : MSchema) (e : MElement) (fuel : Nat) (locals : List MElement) (tree : XElem),
        s.getElementsLocal fuel = .ok locals → e ∈ locals →
        (∀ e2 ∈ s.elements, e2.name = e.name → e2 = e) →
        exportSchemaTree s fuel = .ok tree →
        ∀ c ∈ tree.children,
          ¬ (c.name = "xs:element" ∧ c.getAttr "name" = some e.name)) := by
  refine ⟨?_, ?_, ?_, ?_, ?_⟩
  · intro s e i hmem hfi
    have ht : tmInsert s.elements e = s.elements := by simp [tmInsert, hmem]
    have hc : s.elements.contains e = true := by simpa using hmem
    simp only [MSchema.registerElement, MSchema.registerTypeMapping,
      MSchema.hasTypeDefinition, ht, hc, hfi]
    rfl
  · intro s fuel i rest
    simp [groupItemsContain]
  · intro s e i fuel h1 h2
    simp only [MElement.isLocal, h1]
    exact h2
  · intro s e fuel locals roots hl hmem hr
    simp only [MSchema.getElementsRoot, hl, CResult.bind] at hr
    cases hr
    intro hcontra
    have hpf : (!(locals.contains e)) = true := (List.mem_filter.mp hcontra).2
    have hct : locals.contains e = true := by simpa using hmem
    rw [hct] at hpf
    simp at hpf
  · intro s e fuel locals tree hl hmem huniq hexp c hc hbad
    obtain ⟨hcname, hcattr⟩ := hbad
    simp only [exportSchemaTree] at hexp
    obtain ⟨root1, h1, hexp⟩ := cbind_ok _ _ _ hexp
    obtain ⟨root2, h2, hexp⟩ := cbind_ok _ _ _ hexp
    obtain ⟨rootEls, h3, hexp⟩ := cbind_ok _ _ _ hexp
    simp only [MSchema.getElementsRoot, hl, CResult.bind] at h3
    cases h3
    rcases exportRootElements_children s fuel _ root2 tree hexp c hc with
      hin | ⟨hname2, el2, hmem2, hattr2⟩
    · rcases exportNamedComplexTypes_children s fuel _ root1 root2 h2 c hin with hin1 | hnc
      · rcases exportNamedSimpleTypes_children s fuel _ _ root1 h1 c hin1 with hin0 | hns
        · simp [xelemNew, XElem.withAttr] at hin0
        · rw [hcname] at hns
          exact absurd hns (by decide)
      · rw [hcname] at hnc
        exact absurd hnc (by decide)
    · have hmemf := mem_elSortByName el2 _ hmem2
      have hmemel : el2 ∈ s.elements := (List.mem_filter.mp hmemf).1
      have hpf : (!(locals.contains el2)) = true := (List.mem_filter.mp hmemf).2
      have hnames : el2.name = e.name := by
        rw [hattr2] at hcattr
        exact Option.some.inj hcattr
      rw [huniq el2 hmemel hnames] at hpf
      have hct : locals.contains e = true := by simpa using hmem
      rw [hct] at hpf
      simp at hpf

/-- Element fixture for the C10 witness, shared between the top level and a
group item. -/
def e10 : MElement :=
  { name := "n", attributes := [], duplicity := .single, typing := .simple 0 }

/-- Group fixture for C10: contains element id 2 as an item. -/
def g10 : MGroup :=
  { attributes := [], ty := .sequence, mixed := false, abstractType := false,
    baseType := none, items := [.element 2] }

/-- Schema fixture for C10. -/
def s10 : MSchema :=
  { typesSimple := [.builtin .string], typesGroup := [g10], typesAttribute := [],
    mappingTypeIdName := [],
    mappingTypeIdHash := [(0, .simple (.builtin .string)), (1, .group g10), (2, .elem e10)],
    elements := [e10], bufferComments := [], nextId := 3 }

/-- The exported tree of the C10 fixture: an empty xs:schema (the only
element is local). -/
def tree10 : XElem :=
  { name := "xs:schema",
    attrs := [("xmlns:xs", "http://www.w3.org/2001/XMLSchema"),
              ("elementFormDefault", "qualified")],
    children := [] }

/-- Witness for C10 on the fixture: the shared element is interned to id 2,
found by the scan, classified local, excluded from the root list, and the
exported schema has no xs:element child named n. -/
theorem c10_shared_elements_local_witness :
    (e10 ∈ s10.elements ∧ firstIdForHash s10.mappingTypeIdHash (.elem e10) = some 2 ∧
      s10.registerElement e10 = .ok (2, s10)) ∧
    groupItemsContain s10 8 [MGroupItem.element 2] 2 = .ok true ∧
    (s10.getElementRef e10 = some 2 ∧ isLocalScan s10 8 s10.typesGroup 2 = .ok true ∧
      e10.isLocal s10 8 = .ok true) ∧
    (s10.getElementsLocal 8 = .ok [e10] ∧ s10.getElementsRoot 8 = .ok [] ∧
      e10 ∉ ([] : List MElement)) ∧
    (exportSchemaTree s10 8 = .ok tree10 ∧
      ∀ c ∈ tree10.children,
        ¬ (c.name = "xs:element" ∧ c.getAttr "name" = some e10.name)) :=
  ⟨⟨List.mem_cons_self e10 [], rfl,
    c10_shared_elements_local.1 s10 e10 2 (List.mem_cons_self e10 []) rfl⟩,
   c10_shared_elements_local.2.1 s10 7 2 [],
   ⟨rfl, rfl, c10_shared_elements_local.2.2.1 s10 e10 2 8 rfl rfl⟩,
   ⟨rfl, rfl, c10_shared_elements_local.2.2.2.1 s10 e10 8 [e10] [] rfl
      (List.mem_cons_self e10 []) rfl⟩,
   ⟨rfl, c10_shared_elements_local.2.2.2.2 s10 e10 8 [e10] tree10 rfl
      (List.mem_cons_self e10 []) (by decide) rfl⟩⟩

/-!
Claim C8: cyclic import loading terminates, parsing each file once.
-/

/-- An inserted cache key always resolves in the file system, possibly with
the whas extension added. -/
def validKey (fs : FileSys) (k : String) : Prop :=
  (fsLookup fs k).isSome = true ∨ (fsLookup fs (k ++ ".whas")).isSome = true

/-- Manager invariant: the cache keys are distinct and resolvable, and the
parse log coincides with the cache keys - each cached file was read and
parsed exactly once. -/
def MgrInv (fs : FileSys) (st : MgrState) : Prop :=
  st.keys.Nodup ∧ (∀ k ∈ st.keys, validKey fs k) ∧ st.parseLog = st.keys

/-- `parent` of the modelled path strings always exists. -/
theorem parentDir_some (p : String) : ∃ d, parentDir p = some d := by
  simp only [parentDir]
  split
  · exact ⟨_, rfl⟩
  · exact ⟨_, rfl⟩

/-- Appending the same suffix is cancellable. -/
theorem strAppendRightCancel (a b w : String) (h : a ++ w = b ++ w) : a = b := by
  have hd : a.data ++ w.data = b.data ++ w.data := by
    have h2 := congrArg String.data h
    simpa using h2
  have hab : a.data = b.data := List.append_cancel_right hd
  cases a
  cases b
  exact congrArg String.mk hab

/-- Total imports of the file system, an upper bound for each file. -/
def totalImports (fs : FileSys) : Nat :=
  (fs.map (fun p => p.2.imports.length)).sum

/-- Any file of the file system has at most `totalImports` imports. -/
theorem importsLen_le (fs : FileSys) (p : String) (schema : SchemaFile)
    (h : fsLookup fs p = some schema) : schema.imports.length ≤ totalImports fs := by
  obtain ⟨q, hq, hq2⟩ : ∃ q, fs.find? (fun r => r.1 = p) = some q ∧ q.2 = schema := by
    simp only [fsLookup] at h
    exact Option.map_eq_some'.mp h
  have hmem : q ∈ fs := List.mem_of_find?_eq_some hq
  have hin : schema.imports.length ∈ fs.map (fun r => r.2.imports.length) :=
    hq2 ▸ List.mem_map_of_mem (fun r => r.2.imports.length) hmem
  exact List.single_le_sum (fun x _ => Nat.zero_le x) _ hin

/-- Distinct resolvable keys are at most twice the file count. -/
theorem keys_length_le (fs : FileSys) (l : List String)
    (hnd : l.Nodup) (hv : ∀ k ∈ l, validKey fs k) : l.length ≤ 2 * fs.length := by
  classical
  set f : String → String × Bool := fun k =>
    if (fsLookup fs k).isSome then (k, false) else (k ++ ".whas", true) with hf
  have hinj : ∀ a ∈ l, ∀ b ∈ l, f a = f b → a = b := by
    intro a _ b _ hab
    by_cases ha : (fsLookup fs a).isSome <;> by_cases hb : (fsLookup fs b).isSome
    · rw [hf] at hab
      simp only [if_pos ha, if_pos hb] at hab
      exact (Prod.mk.injEq _ _ _ _ ▸ hab).1
    · rw [hf] at hab
      simp only [if_pos ha, if_neg hb] at hab
      exact absurd (Prod.mk.injEq _ _ _ _ ▸ hab).2 (by simp)
    · rw [hf] at hab
      simp only [if_neg ha, if_pos hb] at hab
      exact absurd (Prod.mk.injEq _ _ _ _ ▸ hab).2 (by simp)
    · rw [hf] at hab
      simp only [if_neg ha, if_neg hb] at hab
      exact strAppendRightCancel a b ".whas" (Prod.mk.injEq _ _ _ _ ▸ hab).1
  have hmapnd : (l.map f).Nodup := List.Nodup.map_on hinj hnd
  have hrange : ∀ x ∈ l.map f,
      x ∈ fs.map (fun q => (q.1, false)) ++ fs.map (fun q => (q.1, true)) := by
    intro x hx
    obtain ⟨k, hk, hfk⟩ := List.mem_map.mp hx
    by_cases hks : (fsLookup fs k).isSome
    · obtain ⟨q, hq, hq1⟩ : ∃ q, fs.find? (fun r => r.1 = k) = some q ∧ q.1 = k := by
        obtain ⟨v, hvv⟩ := Option.isSome_iff_exists.mp hks
        simp only [fsLookup] at hvv
        obtain ⟨q, hq, _⟩ := Option.map_eq_some'.mp hvv
        exact ⟨q, hq, by simpa using List.find?_some hq⟩
      have hfk2 : f k = (q.1, false) := by
        rw [hf]
        simp only [if_pos hks]
        rw [hq1]
      refine List.mem_append.mpr (Or.inl ?_)
      rw [← hfk, hfk2]
      exact List.mem_map_of_mem _ (List.mem_of_find?_eq_some hq)
    · have hkw : (fsLookup fs (k ++ ".whas")).isSome = true := by
        rcases hv k hk with h1 | h1
        · exact absurd h1 hks
        · exact h1
      obtain ⟨q, hq, hq1⟩ : ∃ q, fs.find? (fun r => r.1 = k ++ ".whas") = some q ∧
          q.1 = k ++ ".whas" := by
        obtain ⟨v, hvv⟩ := Option.isSome_iff_exists.mp hkw
        simp only [fsLookup] at hvv
        obtain ⟨q, hq, _⟩ := Option.map_eq_some'.mp hvv
        exact ⟨q, hq, by simpa using List.find?_some hq⟩
      have hfk2 : f k = (q.1, true) := by
        rw [hf]
        simp only [if_neg hks]
        rw [hq1]
      refine List.mem_append.mpr (Or.inr ?_)
      rw [← hfk, hfk2]
      exact List.mem_map_of_mem _ (List.mem_of_find?_eq_some hq)
  have hlen : (l.map f).length ≤
      (fs.map (fun q => (q.1, false)) ++ fs.map (fun q => (q.1, true))).length := by
    have h1 : (l.map f).toFinset.card = (l.map f).length :=
      List.toFinset_card_of_nodup hmapnd
    have h2 : (l.map f).toFinset ⊆
        (fs.map (fun q => (q.1, false)) ++ fs.map (fun q => (q.1, true))).toFinset := by
      intro x hx
      exact List.mem_toFinset.mpr (hrange x (List.mem_toFinset.mp hx))
    calc (l.map f).length = (l.map f).toFinset.card := h1.symm
      _ ≤ (fs.map (fun q => (q.1, false)) ++ fs.map (fun q => (q.1, true))).toFinset.card :=
          Finset.card_le_card h2
      _ ≤ _ := List.toFinset_card_le _
  simpa [two_mul] using hlen

/-- The state after a cache miss, read and parse: invariant preservation. -/
theorem st2_inv (fs : FileSys) (st : MgrState) (path : String) (schema : SchemaFile)
    (rp : String) (hinv : MgrInv fs st)
    (hcache : (st.map.find? (fun q => q.1 = path)).map (fun x => x.2) = none)
    (hres : resolveFilePath fs path = some rp)
    (hlook : fsLookup fs rp = some schema) :
    MgrInv fs { map := st.map ++ [(path, schema)], parseLog := st.parseLog ++ [path] } := by
  obtain ⟨hnd, hv, hlog⟩ := hinv
  have hfind : st.map.find? (fun q => q.1 = path) = none := Option.map_eq_none'.mp hcache
  have hnotin : path ∉ st.keys := by
    intro hmem
    obtain ⟨q, hq, hq1⟩ := List.mem_map.mp hmem
    exact (List.find?_eq_none.mp hfind q hq) (by simpa using hq1)
  have hvalid : validKey fs path := by
    simp only [resolveFilePath] at hres
    split at hres
    · exact Or.inl (by assumption)
    · split at hres
      · exact Or.inr (by assumption)
      · simp at hres
  have hkeys : ({ map := st.map ++ [(path, schema)], parseLog := st.parseLog ++ [path] }
      : MgrState).keys = st.keys ++ [path] := by
    simp [MgrState.keys]
  refine ⟨?_, ?_, ?_⟩
  · rw [hkeys]
    refine List.nodup_append.mpr ⟨hnd, List.nodup_singleton path, ?_⟩
    intro a ha hb
    have haa : a = path := by simpa using hb
    exact hnotin (haa ▸ ha)
  · intro k hk
    rw [hkeys] at hk
    rcases List.mem_append.mp hk with h1 | h1
    · exact hv k h1
    · have hkp : k = path := by simpa using h1
      exact hkp ▸ hvalid
  · rw [hkeys]
    simp [hlog]

/-- The cache-miss step of `add_schema_file_path`, spelled out. -/
theorem addSchema_step (fs : FileSys) (f : Nat) (st : MgrState) (path dir : String)
    (schema : SchemaFile) (rp : String)
    (hdir : parentDir path = some dir)
    (hcache : (st.map.find? (fun q => q.1 = path)).map (fun x => x.2) = none)
    (hres : resolveFilePath fs path = some rp)
    (hlook : fsLookup fs rp = some schema) :
    addSchemaFilePath fs (f + 1) st path =
      (addImportsLoop fs f
          { map := st.map ++ [(path, schema)]
            parseLog := st.parseLog ++ [path] } dir schema.imports).bind
        (fun st3 => .ok (schema, st3)) := by
  simp only [addSchemaFilePath, hdir, hcache, hres, hlook]

/-- Invariant preservation and cache monotonicity of the manager, at any
fuel. -/
theorem mgrPreserve (fs : FileSys) : ∀ fuel : Nat,
    (∀ (st : MgrState) (path : String) (f2 : SchemaFile) (st' : MgrState),
      MgrInv fs st → addSchemaFilePath fs fuel st path = .ok (f2, st') →
      MgrInv fs st' ∧ ∃ δ, st'.map = st.map ++ δ) ∧
    (∀ (st : MgrState) (dir : String) (l : List ImportA) (st' : MgrState),
      MgrInv fs st → addImportsLoop fs fuel st dir l = .ok st' →
      MgrInv fs st' ∧ ∃ δ, st'.map = st.map ++ δ) := by
  intro fuel
  induction fuel with
  | zero =>
      constructor
      · intro st path f2 st' hinv heq
        simp [addSchemaFilePath] at heq
      · intro st dir l st' hinv heq
        simp [addImportsLoop] at heq
  | succ f ih =>
      constructor
      · intro st path f2 st' hinv heq
        obtain ⟨dir, hdir⟩ := parentDir_some path
        cases hcache : (st.map.find? (fun q => q.1 = path)).map (fun x => x.2) with
        | some c =>
            simp only [addSchemaFilePath, hdir, hcache] at heq
            cases heq
            exact ⟨hinv, [], by simp⟩
        | none =>
            cases hres : resolveFilePath fs path with
            | none => simp only [addSchemaFilePath, hdir, hcache, hres] at heq; simp at heq
            | some rp =>
                cases hlook : fsLookup fs rp with
                | none =>
                    simp only [addSchemaFilePath, hdir, hcache, hres, hlook] at heq
                    simp at heq
                | some schema =>
                    rw [addSchema_step fs f st path dir schema rp hdir hcache hres hlook] at heq
                    obtain ⟨st3, hloop, hok⟩ := cbind_ok _ _ _ heq
                    have hok2 : schema = f2 ∧ st3 = st' := by
                      constructor <;> cases hok <;> rfl
                    have hinv2 := st2_inv fs st path schema rp hinv hcache hres hlook
                    obtain ⟨hinv3, δ, hδ⟩ := (ih.2) _ dir schema.imports st3 hinv2 hloop
                    refine ⟨hok2.2 ▸ hinv3, (path, schema) :: δ, ?_⟩
                    rw [← hok2.2, hδ]
                    simp
      · intro st dir l st' hinv heq
        cases l with
        | nil =>
            simp only [addImportsLoop] at heq
            cases heq
            exact ⟨hinv, [], by simp⟩
        | cons imp rest =>
            simp only [addImportsLoop] at heq
            obtain ⟨rs, hadd, hrest⟩ := cbind_ok _ _ _ heq
            obtain ⟨hinv1, δ1, hδ1⟩ := (ih.1) st _ rs.1 rs.2 hinv (by rw [hadd])
            obtain ⟨hinv2, δ2, hδ2⟩ := (ih.2) rs.2 dir rest st' hinv1 hrest
            refine ⟨hinv2, δ1 ++ δ2, ?_⟩
            rw [hδ2, hδ1]
            simp

/-- Fuel bound for the manager: with slack `n` on the cache size, the
loader never runs out of fuel. -/
theorem mgrTerm (fs : FileSys) : ∀ n : Nat,
    (∀ (fuel : Nat) (st : MgrState) (path : String),
      MgrInv fs st → 2 * fs.length ≤ st.map.length + n →
      (n + 1) * (totalImports fs + 2) ≤ fuel →
      addSchemaFilePath fs fuel st path ≠ .outOfFuel) ∧
    (∀ (fuel : Nat) (st : MgrState) (dir : String) (l : List ImportA),
      MgrInv fs st → 2 * fs.length ≤ st.map.length + n →
      l.length + 1 + (n + 1) * (totalImports fs + 2) ≤ fuel →
      addImportsLoop fs fuel st dir l ≠ .outOfFuel) := by
  intro n
  induction n using Nat.strong_induction_on with
  | _ n IH =>
      have hA : ∀ (fuel : Nat) (st : MgrState) (path : String),
          MgrInv fs st → 2 * fs.length ≤ st.map.length + n →
          (n + 1) * (totalImports fs + 2) ≤ fuel →
          addSchemaFilePath fs fuel st path ≠ .outOfFuel := by
        intro fuel st path hinv hslack hfuel
        have hX : 2 ≤ (n + 1) * (totalImports fs + 2) := by
          have h2 := Nat.mul_le_mul (show 1 ≤ n + 1 by omega)
            (show 2 ≤ totalImports fs + 2 by omega)
          simpa using h2
        cases fuel with
        | zero => omega
        | succ f =>
            obtain ⟨dir, hdir⟩ := parentDir_some path
            cases hcache : (st.map.find? (fun q => q.1 = path)).map (fun x => x.2) with
            | some c => simp [addSchemaFilePath, hdir, hcache]
            | none =>
                cases hres : resolveFilePath fs path with
                | none => simp [addSchemaFilePath, hdir, hcache, hres]
                | some rp =>
                    cases hlook : fsLookup fs rp with
                    | none => simp [addSchemaFilePath, hdir, hcache, hres, hlook]
                    | some schema =>
                        have hinv2 := st2_inv fs st path schema rp hinv hcache hres hlook
                        have hlen2 : st.map.length + 1 ≤ 2 * fs.length := by
                          have hcount := keys_length_le fs _ hinv2.1 hinv2.2.1
                          simpa [MgrState.keys] using hcount
                        have hn1 : 1 ≤ n := by omega
                        have himp : schema.imports.length ≤ totalImports fs :=
                          importsLen_le fs rp schema hlook
                        have hsm : (n + 1) * (totalImports fs + 2)
                            = n * (totalImports fs + 2) + (totalImports fs + 2) :=
                          Nat.succ_mul _ _
                        have hsm2 : (n - 1 + 1) * (totalImports fs + 2)
                            = n * (totalImports fs + 2) := by
                          have hnn : n - 1 + 1 = n := by omega
                          rw [hnn]
                        have hloopne := (IH (n - 1) (by omega)).2 f
                          { map := st.map ++ [(path, schema)]
                            parseLog := st.parseLog ++ [path] } dir schema.imports hinv2
                          (by simp only [List.length_append]; simp; omega)
                          (by rw [hsm2]; omega)
                        rw [addSchema_step fs f st path dir schema rp hdir hcache hres hlook]
                        cases hloop : addImportsLoop fs f
                            { map := st.map ++ [(path, schema)]
                              parseLog := st.parseLog ++ [path] } dir schema.imports with
                        | ok st3 => simp [CResult.bind]
                        | err m => simp [CResult.bind]
                        | panicked m => simp [CResult.bind]
                        | outOfFuel => exact absurd hloop hloopne
      refine ⟨hA, ?_⟩
      intro fuel st dir l
      induction l generalizing fuel st with
      | nil =>
          intro hinv hslack hfuel
          cases fuel with
          | zero => omega
          | succ f => simp [addImportsLoop]
      | cons imp rest ihl =>
          intro hinv hslack hfuel
          cases fuel with
          | zero => omega
          | succ f =>
              simp only [addImportsLoop]
              cases hadd : addSchemaFilePath fs f st (importAbsolutePath imp dir) with
              | ok rs =>
                  obtain ⟨hinv1, δ1, hδ1⟩ :=
                    (mgrPreserve fs f).1 st _ rs.1 rs.2 hinv (by rw [hadd])
                  have hlen1 : st.map.length ≤ rs.2.map.length := by
                    rw [hδ1]; simp
                  have hrest := ihl f rs.2 hinv1 (by omega) (by simp at hfuel; omega)
                  simp only [CResult.bind]
                  exact hrest
              | err m => simp [CResult.bind]
              | panicked m => simp [CResult.bind]
              | outOfFuel =>
                  exact absurd hadd (hA f st (importAbsolutePath imp dir) hinv hslack
                    (by simp at hfuel; omega))

/-- Claim C8.  A cache hit returns the cached file without touching the
state - no re-read, no re-parse (i); with fuel proportional to the file
system size the loader never runs out of fuel, also on cyclic import
graphs (ii); and every successful load ends with the parse log equal to
the distinct cache keys - every involved file was read and parsed exactly
once - with the cache bounded by twice the file count (iii). -/
theorem c8_cyclic_import_loading :
    (∀ (fs : FileSys) (fuel : Nat) (st : MgrState) (p : String) (c : SchemaFile),
        (st.map.find? (fun q => q.1 = p)).map (fun x => x.2) = some c →
        addSchemaFilePath fs (fuel + 1) st p = .ok (c, st)) ∧
    (∀ (fs : FileSys) (path : String) (fuel : Nat),
        (2 * fs.length + 1) * (totalImports fs + 2) ≤ fuel →
        fromRootSchema fs fuel path ≠ .outOfFuel) ∧
    (∀ (fs : FileSys) (path : String) (fuel : Nat) (sf : SourcedSchemaFile)
        (st : MgrState),
        fromRootSchema fs fuel path = .ok (sf, st) →
        st.parseLog = st.keys ∧ st.parseLog.Nodup ∧
        st.map.length ≤ 2 * fs.length) := by
  have hinv0 : ∀ fs : FileSys, MgrInv fs mgrInit := by
    intro fs
    refine ⟨List.nodup_nil, ?_, rfl⟩
    intro k hk
    simp [mgrInit, MgrState.keys] at hk
  refine ⟨?_, ?_, ?_⟩
  · intro fs fuel st p c h
    obtain ⟨dir, hdir⟩ := parentDir_some p
    simp only [addSchemaFilePath, hdir, h]
  · intro fs path fuel hfuel
    have hadd := (mgrTerm fs (2 * fs.length)).1 fuel mgrInit path (hinv0 fs)
      (by simp [mgrInit]) hfuel
    obtain ⟨dir, hdir⟩ := parentDir_some path
    simp only [fromRootSchema, hdir]
    cases haddv : addSchemaFilePath fs fuel mgrInit path with
    | ok rs => simp [CResult.bind]
    | err m => simp [CResult.bind]
    | panicked m => simp [CResult.bind]
    | outOfFuel => exact absurd haddv hadd
  · intro fs path fuel sf st h
    obtain ⟨dir, hdir⟩ := parentDir_some path
    simp only [fromRootSchema, hdir] at h
    obtain ⟨rs, hadd, hok⟩ := cbind_ok _ _ _ h
    have hst : rs.2 = st := by cases hok; rfl
    obtain ⟨⟨hnd, hv, hlog⟩, _⟩ :=
      (mgrPreserve fs fuel).1 mgrInit path rs.1 rs.2 (hinv0 fs) (by rw [hadd])
    rw [hst] at hnd hv hlog
    refine ⟨hlog, hlog ▸ hnd, ?_⟩
    have hcount := keys_length_le fs st.keys hnd hv
    simpa [MgrState.keys] using hcount

/-- The manager state after loading the cyclic pair A, B. -/
def stAB : MgrState :=
  { map := [("/r/A.whas", fileA), ("/r/B.whas", fileB)]
    parseLog := ["/r/A.whas", "/r/B.whas"] }

/-- Witness for C8 on the cyclic pair: the cache hit on B is silent, the
fuel bound holds at 24, and the successful load parsed each file once. -/
theorem c8_cyclic_import_loading_witness :
    ((stAB.map.find? (fun q => q.1 = "/r/B.whas")).map (fun x => x.2) = some fileB ∧
      addSchemaFilePath fsAB (4 + 1) stAB "/r/B.whas" = .ok (fileB, stAB)) ∧
    ((2 * fsAB.length + 1) * (totalImports fsAB + 2) ≤ 24 ∧
      fromRootSchema fsAB 24 "/r/A.whas" ≠ .outOfFuel) ∧
    (fromRootSchema fsAB 5 "/r/A.whas" = .ok (srcAB, stAB) ∧
      stAB.parseLog = stAB.keys ∧ stAB.parseLog.Nodup ∧
      stAB.map.length ≤ 2 * fsAB.length) :=
  ⟨⟨rfl, c8_cyclic_import_loading.1 fsAB 4 stAB "/r/B.whas" fileB rfl⟩,
   ⟨by decide, c8_cyclic_import_loading.2.1 fsAB "/r/A.whas" 24 (by decide)⟩,
   ⟨rfl, c8_cyclic_import_loading.2.2 fsAB "/r/A.whas" 5 srcAB stAB rfl⟩⟩
